import Mathlib

/-!
# Verification of the LTX streaming codec (superfly/ltx-rs)

A shallow embedding of the LTX transaction-log file codec: the binary
header/page-record/trailer framing, the CRC-64/GO-ISO running whole-file
checksum threaded through the encode and decode paths, and the
snapshot-vs-incremental page-sequencing state machine.

Bytes are modelled as `Nat` (values < 256 in well-formed data); byte
streams as `List Nat`.  Machine integers are `Nat` with explicit
`% 2^32` / `% 2^64` where the source truncates.  Fallible operations
return `Except`; the `&mut self` methods of the Rust encoder/decoder are
modelled as functions from state to `state × Except error result`.

The LZ4 frame compression layer is an external crate (`lz4_flex`), not
code of this repository; where a claim touches the compressed path it is
abstracted as a pair of stream transformations (see `encodeFile` /
`decodeFile`).
-/

set_option maxRecDepth 100000

namespace Ltx

/-- Equality of `Except` values is decidable when it is for both
components. -/
instance {e a : Type} [DecidableEq e] [DecidableEq a] :
    DecidableEq (Except e a) := fun x y =>
  match x, y with
  | .error e1, .error e2 =>
    decidable_of_iff (e1 = e2)
      ⟨fun h => by rw [h], fun h => Except.error.inj h⟩
  | .ok v1, .ok v2 =>
    decidable_of_iff (v1 = v2)
      ⟨fun h => by rw [h], fun h => Except.ok.inj h⟩
  | .error _, .ok _ => isFalse (fun h => Except.noConfusion h)
  | .ok _, .error _ => isFalse (fun h => Except.noConfusion h)

/-! ## Big-endian byte serialization -/

/-- Big-endian 4-byte encoding of `n % 2^32` (Rust `u32::to_be_bytes`). -/
def u32be (n : Nat) : List Nat :=
  [n / 2 ^ 24 % 256, n / 2 ^ 16 % 256, n / 2 ^ 8 % 256, n % 256]

/-- Big-endian 8-byte encoding of `n % 2^64` (Rust `u64::to_be_bytes`). -/
def u64be (n : Nat) : List Nat :=
  [n / 2 ^ 56 % 256, n / 2 ^ 48 % 256, n / 2 ^ 40 % 256, n / 2 ^ 32 % 256,
   n / 2 ^ 24 % 256, n / 2 ^ 16 % 256, n / 2 ^ 8 % 256, n % 256]

/-- Big-endian interpretation of a byte list (Rust `from_be_bytes`). -/
def beToNat (l : List Nat) : Nat :=
  l.foldl (fun a b => a * 256 + b) 0

/-- Read exactly `n` bytes from the front of a stream (Rust `read_exact`):
fails when fewer than `n` bytes remain. -/
def readBytes (n : Nat) (s : List Nat) : Option (List Nat × List Nat) :=
  if n ≤ s.length then some (s.take n, s.drop n) else none

/-! ## CRC-64/GO-ISO

`crc::Crc::<u64>::new(&crc::CRC_64_GO_ISO)`: polynomial
`0x000000000000001B`, init `0xFFFFFFFFFFFFFFFF`, reflected input and
output, xorout `0xFFFFFFFFFFFFFFFF`.  The reflected implementation keeps
the register bit-reversed, so the working polynomial constant is the
bit-reversal `0xD800000000000000`. -/

/-- Bit-reversed CRC-64/GO-ISO polynomial. -/
def CRC_POLY : Nat := 0xD800000000000000

/-- CRC register initial value. -/
def CRC_INIT : Nat := 0xFFFFFFFFFFFFFFFF

/-- One LFSR step of the reflected CRC register. -/
def crcShift (c : Nat) : Nat :=
  if c % 2 = 1 then c / 2 ^^^ CRC_POLY else c / 2

/-- `n` LFSR steps. -/
def crcShiftN : Nat → Nat → Nat
  | 0, c => c
  | n + 1, c => crcShiftN n (crcShift c)

/-- Feed one byte into the reflected CRC register. -/
def crcByte (c b : Nat) : Nat :=
  crcShiftN 8 (c ^^^ b % 256)

/-- Feed a byte list into the CRC register (`crc::Digest::update`), i.e.
`bs.foldl crcByte c` (see `crcUpdate_eq_foldl`).  The two branches of the
`if` are identical; the comparison only forces the accumulator to a
numeral so that kernel evaluation of concrete instances stays shallow. -/
def crcUpdate (c : Nat) : List Nat → Nat
  | [] => c
  | b :: bs =>
    let c2 := crcByte c b
    if c2 < 18446744073709551616 then crcUpdate c2 bs else crcUpdate c2 bs

/-- Finalize the digest (`crc::Digest::finalize`): xor out. -/
def crcFinalize (c : Nat) : Nat :=
  c ^^^ CRC_INIT

/-- Whole-stream CRC-64/GO-ISO. -/
def crc64 (bs : List Nat) : Nat :=
  crcFinalize (crcUpdate CRC_INIT bs)

/-! ## Domain value types (`src/types.rs`)

`TXID`, `PageNum`, `Checksum`, `PageSize` are validated wrappers around
machine integers; here their underlying integers are carried directly and
the constructors become the validation predicates/functions. -/

/-- `Checksum::new`: unconditionally force the most-significant bit. -/
def chkNew (s : Nat) : Nat :=
  s ||| 2 ^ 63

/-- `PageSize::new` acceptance condition: power of two in `[512, 65536]`. -/
def pageSizeValid (s : Nat) : Bool :=
  !(s < 512 || s > 65536 || (s &&& (s - 1)) != 0)

/-- `PageNum::lock_page`: the SQLite pending-byte page for a page size. -/
def lock_page (page_size : Nat) : Nat :=
  0x40000000 / page_size + 1

/-- Outcome of `impl ops::Add<u64> for TXID`, which returns a bare `TXID`
and cannot report failure: it either produces a value or panics. -/
inductive TXIDAddOutcome where
  | ok (t : Nat)
  | panicked (msg : String)
deriving Repr, DecidableEq

/-- `impl ops::Add<u64> for TXID` (`src/types.rs:52-61`): release-profile
semantics of `self.into_inner() + rhs` (wrapping 64-bit addition) followed
by `assert!(sum != 0, "TX ID overflow")`, which panics when the sum wraps
to zero.  (In debug profile the `+` itself panics on any overflow; both
profiles panic on a wrap to zero, and neither returns an error value.) -/
def TXID.add (t rhs : Nat) : TXIDAddOutcome :=
  let sum := (t + rhs) % 2 ^ 64
  if sum = 0 then .panicked "TX ID overflow" else .ok sum

/-! ## Header record (`src/ltx.rs`) -/

/-- `HeaderValidateError`. -/
inductive HeaderValidateError where
  | TXIDOrder (a b : Nat)
  | PreApplyChecksumOnSnapshot
  | NoPreApplyChecksum
deriving Repr, DecidableEq

/-- `HeaderEncodeError` (the `Timestamp` variant cannot arise in this
model, where timestamps are nonnegative nanoseconds since the epoch). -/
inductive HeaderEncodeError where
  | Validation (e : HeaderValidateError)
  | Write
deriving Repr, DecidableEq

/-- `HeaderDecodeError`. -/
inductive HeaderDecodeError where
  | Read
  | Magic (m : List Nat)
  | Flags (f : Nat)
  | PageSize (s : Nat)
  | Commit
  | MinTXID
  | MaxTXID
  | Timestamp (t : Nat)
  | Validation (e : HeaderValidateError)
deriving Repr, DecidableEq

def HEADER_SIZE : Nat := 100
def TRAILER_SIZE : Nat := 16
def PAGE_HEADER_SIZE : Nat := 4

/-- ASCII bytes of the magic string `"LTX1"`. -/
def MAGIC : List Nat := [76, 84, 88, 49]

/-- An LTX file header.  `timestamp` is nanoseconds since the Unix epoch
(Rust `SystemTime`, modelled as at-or-after the epoch); `flags` is the
raw `u32` bitmask; `pre_apply_checksum` carries the underlying `u64` of
the `Checksum` when present. -/
structure Header where
  flags : Nat
  page_size : Nat
  commit : Nat
  min_txid : Nat
  max_txid : Nat
  timestamp : Nat
  pre_apply_checksum : Option Nat
deriving Repr, DecidableEq

namespace Header

/-- `Header::is_snapshot`. -/
def is_snapshot (h : Header) : Bool :=
  h.min_txid == 1

/-- `Header::validate`. -/
def validate (h : Header) : Except HeaderValidateError Unit :=
  if h.min_txid > h.max_txid then
    .error (.TXIDOrder h.min_txid h.max_txid)
  else if h.is_snapshot && h.pre_apply_checksum.isSome then
    .error .PreApplyChecksumOnSnapshot
  else if !h.is_snapshot && h.pre_apply_checksum.isNone then
    .error .NoPreApplyChecksum
  else
    .ok ()

/-- The 100-byte wire image built by `Header::encode_into`: the field
bytes followed by the `buf.resize(HEADER_SIZE, 0)` padding.  The
timestamp is converted to whole milliseconds and truncated to 64 bits
(`.as_millis() as u64`). -/
def headerBytes (h : Header) : List Nat :=
  let ts := h.timestamp / 1000000 % 2 ^ 64
  let ck := match h.pre_apply_checksum with
    | some c => c
    | none => 0
  let buf := MAGIC ++ u32be h.flags ++ u32be h.page_size ++ u32be h.commit ++
    u64be h.min_txid ++ u64be h.max_txid ++ u64be ts ++ u64be ck
  buf ++ List.replicate (HEADER_SIZE - buf.length) 0

/-- `Header::encode_into`: validate, then emit the 100-byte image.
(The `SystemTimeError` path cannot arise for epoch-relative `Nat`
timestamps.) -/
def encode_into (h : Header) : Except HeaderEncodeError (List Nat) :=
  match h.validate with
  | .error e => .error (.Validation e)
  | .ok _ => .ok h.headerBytes

/-- `Header::decode_from`: read 100 bytes, parse and re-validate every
field, and return the header together with the unread remainder of the
stream.  (`HeaderFlags::from_bits` fails whenever a bit other than
`COMPRESS_LZ4 = 1` is set, i.e. whenever the raw value is ≥ 2; the
`checked_add` on `UNIX_EPOCH` cannot fail for a `u64` millisecond
duration.) -/
def decode_from (s : List Nat) : Except HeaderDecodeError (Header × List Nat) :=
  match readBytes HEADER_SIZE s with
  | none => .error .Read
  | some (buf, rest) =>
    if buf.take 4 ≠ MAGIC then .error (.Magic (buf.take 4)) else
    let flags := beToNat ((buf.drop 4).take 4)
    if 2 ≤ flags then .error (.Flags flags) else
    let page_size := beToNat ((buf.drop 8).take 4)
    if !pageSizeValid page_size then .error (.PageSize page_size) else
    let commit := beToNat ((buf.drop 12).take 4)
    if commit = 0 then .error .Commit else
    let min_txid := beToNat ((buf.drop 16).take 8)
    if min_txid = 0 then .error .MinTXID else
    let max_txid := beToNat ((buf.drop 24).take 8)
    if max_txid = 0 then .error .MaxTXID else
    let ts := beToNat ((buf.drop 32).take 8)
    let pre := beToNat ((buf.drop 40).take 8)
    let pre_apply := if pre ≠ 0 then some (chkNew pre) else none
    let hdr : Header :=
      { flags := flags, page_size := page_size, commit := commit,
        min_txid := min_txid, max_txid := max_txid,
        timestamp := ts * 1000000, pre_apply_checksum := pre_apply }
    match hdr.validate with
    | .error e => .error (.Validation e)
    | .ok _ => .ok (hdr, rest)

end Header

/-! ## Trailer and page-header records (`src/ltx.rs`) -/

/-- `TrailerDecodeError`. -/
inductive TrailerDecodeError where
  | Read
  | PostApplyChecksum (c : Nat)
  | FileChecksum (c : Nat)
deriving Repr, DecidableEq

/-- An LTX file trailer; both fields carry the underlying `u64` of a
`Checksum` (most-significant bit set). -/
structure Trailer where
  post_apply_checksum : Nat
  file_checksum : Nat
deriving Repr, DecidableEq

namespace Trailer

/-- `Trailer::encode_into`: 16 bytes, both checksums big-endian. -/
def trailerBytes (t : Trailer) : List Nat :=
  u64be t.post_apply_checksum ++ u64be t.file_checksum

/-- `Trailer::decode_from`: read 16 bytes; each field must survive
`Checksum::new` unchanged (most-significant bit already set). -/
def decode_from (s : List Nat) : Except TrailerDecodeError Trailer :=
  match readBytes TRAILER_SIZE s with
  | none => .error .Read
  | some (buf, _) =>
    let post := beToNat (buf.take 8)
    let fc := beToNat ((buf.drop 8).take 8)
    if chkNew post ≠ post then .error (.PostApplyChecksum post)
    else if chkNew fc ≠ fc then .error (.FileChecksum fc)
    else .ok { post_apply_checksum := post, file_checksum := fc }

end Trailer

/-- `PageHeader::encode_into`: the page number, or 0 for the sentinel. -/
def pageHeaderBytes (pn : Option Nat) : List Nat :=
  u32be (pn.getD 0)

/-! ## Encoder (`src/encoder.rs`)

The encoder writes through `CrcDigestWrite` (which feeds every written
byte into the running digest) into `LTXWriter` (which passes bytes to the
LZ4 frame encoder when the compression flag is set and directly to the
sink otherwise).  The state below records the bytes of the 100-byte
header region (written to the raw sink before the `LTXWriter` exists),
the bytes written through the `LTXWriter` so far (`body`, the
pre-compression stream), the digest register, and the sequencing state. -/

/-- `encoder::Error` (the `Write`/`PageHeader`/`Trailer` I/O variants
cannot arise for the pure list sink). -/
inductive EncError where
  | Header (e : HeaderEncodeError)
  | LockPage (pn : Nat)
  | FirstSnapshotPage
  | NonsequentialPages (a b : Nat)
  | OutOfOrderPage (a b : Nat)
  | InvalidBufferSize (len page_size : Nat)
deriving Repr, DecidableEq

/-- `Encoder` state. -/
structure EncSt where
  headerBytes : List Nat
  body : List Nat
  digest : Nat
  page_size : Nat
  is_snapshot : Bool
  last_page_num : Option Nat
deriving Repr, DecidableEq

/-- `Encoder::new`: encode the header through the digest wrapper into the
raw sink, then set up the sequencing state. -/
def Encoder.new (hdr : Header) : Except EncError EncSt :=
  match hdr.encode_into with
  | .error e => .error (.Header e)
  | .ok bs =>
    .ok { headerBytes := bs, body := [], digest := crcUpdate CRC_INIT bs,
          page_size := hdr.page_size, is_snapshot := hdr.is_snapshot,
          last_page_num := none }

/-- `Encoder::validate_page_num` (`src/encoder.rs:99-120`), as a pure
function of the fields it reads.  The snapshot condition
`last + 1 != page_num || last + 1 == lock && last + 2 != page_num`
is translated with Rust's operator precedence (`&&` binds tighter than
`||`). -/
def validate_page_num (page_size : Nat) (is_snapshot : Bool)
    (last_page_num : Option Nat) (page_num : Nat) : Except EncError Unit :=
  let lock := lock_page page_size
  if page_num = lock then .error (.LockPage page_num)
  else if is_snapshot then
    match last_page_num with
    | none => if page_num ≠ 1 then .error .FirstSnapshotPage else .ok ()
    | some last =>
      if last + 1 ≠ page_num ∨ (last + 1 = lock ∧ last + 2 ≠ page_num) then
        .error (.NonsequentialPages last page_num)
      else .ok ()
  else
    match last_page_num with
    | some last =>
      if last ≥ page_num then .error (.OutOfOrderPage last page_num) else .ok ()
    | none => .ok ()

/-- `Encoder::encode_page`: validate the page number, check the buffer
size, then write the page header and the page bytes through the digest
wrapper and remember the page number.  A `&mut self` method: the result
pairs the post-call state with the returned value. -/
def encode_page (st : EncSt) (page_num : Nat) (data : List Nat) :
    EncSt × Except EncError Unit :=
  match validate_page_num st.page_size st.is_snapshot st.last_page_num page_num with
  | .error e => (st, .error e)
  | .ok _ =>
    if data.length ≠ st.page_size then
      (st, .error (.InvalidBufferSize data.length st.page_size))
    else
      let bytes := pageHeaderBytes (some page_num) ++ data
      ({ st with body := st.body ++ bytes,
                 digest := crcUpdate st.digest bytes,
                 last_page_num := some page_num }, .ok ())

/-- `Encoder::finish`: write the sentinel page header through the digest
wrapper, finish the `LTXWriter` (emitting the compressed frame when the
compression flag is set — the frame map `C` abstracts the external
`lz4_flex::frame::FrameEncoder`), fold `post_apply_checksum` into the
digest, and write the trailer to the raw sink.  Returns the full sink
contents and the trailer. -/
def Encoder.finish (C : List Nat → List Nat) (compressed : Bool)
    (st : EncSt) (post_apply_checksum : Nat) : List Nat × Trailer :=
  let sentinel := pageHeaderBytes none
  let body := st.body ++ sentinel
  let d := crcUpdate (crcUpdate st.digest sentinel) (u64be post_apply_checksum)
  let trailer : Trailer :=
    { post_apply_checksum := post_apply_checksum,
      file_checksum := chkNew (crcFinalize d) }
  let out := if compressed then C body else body
  (st.headerBytes ++ out ++ trailer.trailerBytes, trailer)

/-- `hdr.flags.contains(HeaderFlags::COMPRESS_LZ4)`. -/
def Header.isCompressed (h : Header) : Bool :=
  h.flags % 2 == 1

/-- Run `encode_page` over a list of pages, stopping at the first
error. -/
def encodePagesLoop : List (Nat × List Nat) → EncSt → Except EncError EncSt
  | [], st => .ok st
  | pg :: rest, st =>
    match encode_page st pg.1 pg.2 with
    | (st2, .ok _) => encodePagesLoop rest st2
    | (_, .error e) => .error e

/-- A complete encoder session: `Encoder::new`, `encode_page` for each
page in order, then `finish`. -/
def encodeFile (C : List Nat → List Nat) (hdr : Header)
    (pages : List (Nat × List Nat)) (post_apply_checksum : Nat) :
    Except EncError (List Nat × Trailer) := do
  let st0 ← Encoder.new hdr
  let stN ← encodePagesLoop pages st0
  .ok (Encoder.finish C hdr.isCompressed stN post_apply_checksum)

/-- The page-sequencing discipline as a predicate: every page number in
turn is accepted by `validate_page_num`. -/
def seqOk (page_size : Nat) (is_snapshot : Bool) :
    Option Nat → List Nat → Bool
  | _, [] => true
  | last, pn :: rest =>
    (validate_page_num page_size is_snapshot last pn matches .ok _) &&
      seqOk page_size is_snapshot (some pn) rest

/-! ## Decoder (`src/decoder.rs`)

The decoder reads the header from the raw source through
`CrcDigestRead`, then reads page records through
`CrcDigestRead ∘ LTXReader`.  When the compression flag is set the
`LTXReader` decompresses the LZ4 frame that follows the header; this
external decoder is abstracted as `Dstream`, which splits the remaining
raw stream into the decompressed frame contents and the raw bytes after
the frame (`none` models a decompression failure).  When the flag is
clear the `LTXReader` reads the raw stream directly. -/

/-- `decoder::Error` (`Read` stands for any underlying I/O error,
including the "expected lz4 end frame" error from `LTXReader::finish`). -/
inductive DecError where
  | Header (e : HeaderDecodeError)
  | PageHeader
  | Trailer (e : TrailerDecodeError)
  | InvalidBufferSize (len page_size : Nat)
  | FileChecksumMismatch
  | Read
deriving Repr, DecidableEq

/-- `Decoder` state: `body` is the stream visible through the
`LTXReader` (the decompressed frame when compressed, the raw remainder
otherwise); `rest` is the raw stream after the compressed frame (unused
when not compressed). -/
structure DecSt where
  body : List Nat
  rest : List Nat
  digest : Nat
  page_size : Nat
  pages_done : Bool
  compressed : Bool
deriving Repr, DecidableEq

/-- `Decoder::new`: decode the header through the digest wrapper, then
construct the `LTXReader` over the remaining raw stream. -/
def Decoder.new (Dstream : List Nat → Option (List Nat × List Nat))
    (file : List Nat) : Except DecError (DecSt × Header) :=
  match Header.decode_from file with
  | .error e => .error (.Header e)
  | .ok (hdr, after) =>
    let digest := crcUpdate CRC_INIT (file.take HEADER_SIZE)
    if hdr.isCompressed then
      match Dstream after with
      | none => .error .Read
      | some (body, rest) =>
        .ok ({ body := body, rest := rest, digest := digest,
               page_size := hdr.page_size, pages_done := false,
               compressed := true }, hdr)
    else
      .ok ({ body := after, rest := [], digest := digest,
             page_size := hdr.page_size, pages_done := false,
             compressed := false }, hdr)

/-- `Decoder::decode_page`: `None` immediately once pages are done;
reject a wrong-sized buffer; read a page header through the digest
wrapper; on the sentinel mark pages done; otherwise read exactly
`page_size` bytes into the buffer.  `buf_len` is the caller's buffer
length; a successful read returns the page number and the bytes placed
in the buffer. -/
def decode_page (st : DecSt) (buf_len : Nat) :
    DecSt × Except DecError (Option (Nat × List Nat)) :=
  if st.pages_done then (st, .ok none)
  else if buf_len ≠ st.page_size then
    (st, .error (.InvalidBufferSize buf_len st.page_size))
  else
    match readBytes PAGE_HEADER_SIZE st.body with
    | none => (st, .error .PageHeader)
    | some (ph, rest1) =>
      let d1 := crcUpdate st.digest ph
      let pn := beToNat ph
      if pn = 0 then
        ({ st with body := rest1, digest := d1, pages_done := true }, .ok none)
      else
        match readBytes st.page_size rest1 with
        | none => ({ st with body := rest1, digest := d1 }, .error .Read)
        | some (data, rest2) =>
          ({ st with body := rest2, digest := crcUpdate d1 data },
            .ok (some (pn, data)))

/-- `Decoder::finish`: finish the `LTXReader` (for a compressed stream
this reads one byte, which must hit the end of the LZ4 frame — modelled
as the decompressed stream being fully consumed — and positions the raw
source after the frame), decode the trailer from the raw source, fold
`post_apply_checksum` into the digest, and verify `file_checksum`. -/
def Decoder.finish (st : DecSt) : Except DecError Trailer :=
  let src := if st.compressed then
    (if st.body = [] then some st.rest else none)
  else some st.body
  match src with
  | none => .error .Read
  | some s =>
    match Trailer.decode_from s with
    | .error e => .error (.Trailer e)
    | .ok t =>
      let d := crcUpdate st.digest (u64be t.post_apply_checksum)
      if chkNew (crcFinalize d) ≠ t.file_checksum then
        .error .FileChecksumMismatch
      else .ok t

/-- Drive `decode_page` (with a correctly sized buffer) until it reports
"no more pages", collecting the pages.  Each iteration that continues
consumes at least 4 bytes of `st.body`, so `st.body.length + 1` fuel
always suffices. -/
def decodePages : Nat → DecSt → List (Nat × List Nat) →
    Except DecError (DecSt × List (Nat × List Nat))
  | 0, _, _ => .error .Read
  | fuel + 1, st, acc =>
    match decode_page st st.page_size with
    | (st2, .ok none) => .ok (st2, acc)
    | (st2, .ok (some pg)) => decodePages fuel st2 (acc ++ [pg])
    | (_, .error e) => .error e

/-- A complete decoder session: `Decoder::new`, `decode_page` until "no
more pages", then `finish`. -/
def decodeFile (Dstream : List Nat → Option (List Nat × List Nat))
    (file : List Nat) :
    Except DecError (Header × List (Nat × List Nat) × Trailer) := do
  let (st0, hdr) ← Decoder.new Dstream file
  let (stN, pages) ← decodePages (st0.body.length + 1) st0 []
  let t ← Decoder.finish stN
  .ok (hdr, pages, t)

/-! ## Well-formedness and auxiliary notions -/

/-- Representability of a `Header` value as its Rust counterpart: fields
fit their machine-integer types and validated wrappers (`HeaderFlags`
with only the `COMPRESS_LZ4` bit, `PageSize`, nonzero `PageNum`/`TXID`,
`Checksum` with its forced top bit). -/
@[reducible] def Header.WF (h : Header) : Prop :=
  h.flags < 2 ∧ pageSizeValid h.page_size = true ∧
  0 < h.commit ∧ h.commit < 2 ^ 32 ∧
  0 < h.min_txid ∧ h.min_txid < 2 ^ 64 ∧
  0 < h.max_txid ∧ h.max_txid < 2 ^ 64 ∧
  (h.pre_apply_checksum = none ∨
    (chkNew (h.pre_apply_checksum.getD 0) = h.pre_apply_checksum.getD 0 ∧
      h.pre_apply_checksum.getD 0 < 2 ^ 64))

/-- The cross-field condition that `Header::validate` rejects. -/
@[reducible] def Header.badFields (h : Header) : Prop :=
  h.max_txid < h.min_txid ∨
  (h.min_txid = 1 ∧ h.pre_apply_checksum.isSome = true) ∨
  (h.min_txid ≠ 1 ∧ h.pre_apply_checksum = none)

/-- The header recovered by decoding an encoded header: the timestamp
has been truncated to whole milliseconds. -/
def Header.toMillis (h : Header) : Header :=
  { h with timestamp := h.timestamp / 1000000 % 2 ^ 64 * 1000000 }

/-- Flip bit `bit` of the byte at offset `i`. -/
def flipBit (l : List Nat) (i bit : Nat) : List Nat :=
  l.set i (l.getD i 0 ^^^ 2 ^ bit)

/-- The concatenated wire image of a list of page records. -/
def pagesBytes (pages : List (Nat × List Nat)) : List Nat :=
  (pages.map (fun pg => pageHeaderBytes (some pg.1) ++ pg.2)).flatten

/-! ## Order certificate for the CRC polynomial

`crcShiftN` is GF(2)-linear in the register, so `crcShiftN t` is
determined by its images of the basis registers `2^i` — its column
matrix.  The certificate below lists, as literals, the column matrices
of `2^k` LFSR steps for `k = 0 .. 63` (`chainHead :: chainTail`).  Each
listed matrix is validated locally: its columns step into each other by
a single `crcShift` (`rowOk`), and its last column (the image of `2^63`)
is the image of the previous matrix's last column under that same
matrix (`chainCheck`) — which forces matrix `k` to be the column matrix
of `2^k` steps (`chainCheck_spec`).  `allCerts` then evaluates, by
square-and-multiply against the chain (`powApplyL`), that `2^64 - 1`
steps map the register `2^63` to itself while `(2^64 - 1)/q` steps do
not, for every prime factor `q` of `2^64 - 1` — i.e. that the CRC
polynomial is primitive. -/

/-- The column matrix of a register map `f`: entry `i` is `f (2^i)`. -/
def colMatrix (f : Nat → Nat) (n : Nat) : List Nat :=
  (List.range n).map (fun i => f (2 ^ i))

/-- Apply a column matrix to a register: xor the columns at its set
bits. -/
def applyM : List Nat → Nat → Nat
  | [], _ => 0
  | m :: M, y => (if y % 2 = 1 then m else 0) ^^^ applyM M (y / 2)

/-- Each column of a listed matrix is one LFSR step of the next: the
matrix of `t` steps sends `2^i` to `crcShift` of the image of
`2^(i+1)`. -/
def rowOk : List Nat → Bool
  | [] => true
  | [_] => true
  | a :: b :: rest => (a == crcShift b) && rowOk (b :: rest)

/-- Validate a chain of listed matrices: each is internally consistent
(`rowOk`, 64 columns), its last column is the expected image `v` of
`2^63`, and the next matrix's expected image is this matrix applied to
`v` (squaring the represented step count). -/
def chainCheck : Nat → List (List Nat) → Bool
  | _, [] => true
  | v, M :: rest =>
    rowOk M && (M.length == 64) && (M.getD 63 0 == v) &&
      chainCheck (applyM M (M.getD 63 0)) rest

/-- `chainSpec t Ms`: entry `k` of `Ms` is the column matrix of `t * 2^k`
LFSR steps. -/
def chainSpec : Nat → List (List Nat) → Prop
  | _, [] => True
  | t, M :: rest => M = colMatrix (crcShiftN t) 64 ∧ chainSpec (2 * t) rest

/-- Square-and-multiply: apply `e` iterated steps to `y`, consuming the
binary digits of `e` (least significant first) against a matrix
chain. -/
def powApplyL : List (List Nat) → Nat → Nat → Nat
  | [], _, y => y
  | M :: Ms, e, y => powApplyL Ms (e / 2) (if e % 2 = 1 then applyM M y else y)

/-- The column matrix of one LFSR step, as a literal. -/
def chainHead : List Nat :=
  [15564440312192434176,
   1,
   2,
   4,
   8,
   16,
   32,
   64,
   128,
   256,
   512,
   1024,
   2048,
   4096,
   8192,
   16384,
   32768,
   65536,
   131072,
   262144,
   524288,
   1048576,
   2097152,
   4194304,
   8388608,
   16777216,
   33554432,
   67108864,
   134217728,
   268435456,
   536870912,
   1073741824,
   2147483648,
   4294967296,
   8589934592,
   17179869184,
   34359738368,
   68719476736,
   137438953472,
   274877906944,
   549755813888,
   1099511627776,
   2199023255552,
   4398046511104,
   8796093022208,
   17592186044416,
   35184372088832,
   70368744177664,
   140737488355328,
   281474976710656,
   562949953421312,
   1125899906842624,
   2251799813685248,
   4503599627370496,
   9007199254740992,
   18014398509481984,
   36028797018963968,
   72057594037927936,
   144115188075855872,
   288230376151711744,
   576460752303423488,
   1152921504606846976,
   2305843009213693952,
   4611686018427387904]

set_option maxHeartbeats 1600000 in
/-- The column matrices of `2^k` LFSR steps for `k = 1 .. 63`, as
literals (validated by `chain_cert`). -/
def chainTail : List (List Nat) :=
  [[7782220156096217088, 15564440312192434176, 1, 2, 4, 8, 16, 32, 64, 128, 256, 512, 1024, 2048, 4096, 8192, 16384, 32768, 65536, 131072, 262144, 524288, 1048576, 2097152, 4194304, 8388608, 16777216, 33554432, 67108864, 134217728, 268435456, 536870912, 1073741824, 2147483648, 4294967296, 8589934592, 17179869184, 34359738368, 68719476736, 137438953472, 274877906944, 549755813888, 1099511627776, 2199023255552, 4398046511104, 8796093022208, 17592186044416, 35184372088832, 70368744177664, 140737488355328, 281474976710656, 562949953421312, 1125899906842624, 2251799813685248, 4503599627370496, 9007199254740992, 18014398509481984, 36028797018963968, 72057594037927936, 144115188075855872, 288230376151711744, 576460752303423488, 1152921504606846976, 2305843009213693952],
   [1945555039024054272, 3891110078048108544, 7782220156096217088, 15564440312192434176, 1, 2, 4, 8, 16, 32, 64, 128, 256, 512, 1024, 2048, 4096, 8192, 16384, 32768, 65536, 131072, 262144, 524288, 1048576, 2097152, 4194304, 8388608, 16777216, 33554432, 67108864, 134217728, 268435456, 536870912, 1073741824, 2147483648, 4294967296, 8589934592, 17179869184, 34359738368, 68719476736, 137438953472, 274877906944, 549755813888, 1099511627776, 2199023255552, 4398046511104, 8796093022208, 17592186044416, 35184372088832, 70368744177664, 140737488355328, 281474976710656, 562949953421312, 1125899906842624, 2251799813685248, 4503599627370496, 9007199254740992, 18014398509481984, 36028797018963968, 72057594037927936, 144115188075855872, 288230376151711744, 576460752303423488],
   [121597189939003392, 243194379878006784, 486388759756013568, 972777519512027136, 1945555039024054272, 3891110078048108544, 7782220156096217088, 15564440312192434176, 1, 2, 4, 8, 16, 32, 64, 128, 256, 512, 1024, 2048, 4096, 8192, 16384, 32768, 65536, 131072, 262144, 524288, 1048576, 2097152, 4194304, 8388608, 16777216, 33554432, 67108864, 134217728, 268435456, 536870912, 1073741824, 2147483648, 4294967296, 8589934592, 17179869184, 34359738368, 68719476736, 137438953472, 274877906944, 549755813888, 1099511627776, 2199023255552, 4398046511104, 8796093022208, 17592186044416, 35184372088832, 70368744177664, 140737488355328, 281474976710656, 562949953421312, 1125899906842624, 2251799813685248, 4503599627370496, 9007199254740992, 18014398509481984, 36028797018963968],
   [474989023199232, 949978046398464, 1899956092796928, 3799912185593856, 7599824371187712, 15199648742375424, 30399297484750848, 60798594969501696, 121597189939003392, 243194379878006784, 486388759756013568, 972777519512027136, 1945555039024054272, 3891110078048108544, 7782220156096217088, 15564440312192434176, 1, 2, 4, 8, 16, 32, 64, 128, 256, 512, 1024, 2048, 4096, 8192, 16384, 32768, 65536, 131072, 262144, 524288, 1048576, 2097152, 4194304, 8388608, 16777216, 33554432, 67108864, 134217728, 268435456, 536870912, 1073741824, 2147483648, 4294967296, 8589934592, 17179869184, 34359738368, 68719476736, 137438953472, 274877906944, 549755813888, 1099511627776, 2199023255552, 4398046511104, 8796093022208, 17592186044416, 35184372088832, 70368744177664, 140737488355328],
   [7247757312, 14495514624, 28991029248, 57982058496, 115964116992, 231928233984, 463856467968, 927712935936, 1855425871872, 3710851743744, 7421703487488, 14843406974976, 29686813949952, 59373627899904, 118747255799808, 237494511599616, 474989023199232, 949978046398464, 1899956092796928, 3799912185593856, 7599824371187712, 15199648742375424, 30399297484750848, 60798594969501696, 121597189939003392, 243194379878006784, 486388759756013568, 972777519512027136, 1945555039024054272, 3891110078048108544, 7782220156096217088, 15564440312192434176, 1, 2, 4, 8, 16, 32, 64, 128, 256, 512, 1024, 2048, 4096, 8192, 16384, 32768, 65536, 131072, 262144, 524288, 1048576, 2097152, 4194304, 8388608, 16777216, 33554432, 67108864, 134217728, 268435456, 536870912, 1073741824, 2147483648],
   [17654110539292344321, 6485183463413514243, 12970366926827028486, 15564440312192434189, 27, 54, 108, 216, 432, 864, 1728, 3456, 6912, 13824, 27648, 55296, 110592, 221184, 442368, 884736, 1769472, 3538944, 7077888, 14155776, 28311552, 56623104, 113246208, 226492416, 452984832, 905969664, 1811939328, 3623878656, 7247757312, 14495514624, 28991029248, 57982058496, 115964116992, 231928233984, 463856467968, 927712935936, 1855425871872, 3710851743744, 7421703487488, 14843406974976, 29686813949952, 59373627899904, 118747255799808, 237494511599616, 474989023199232, 949978046398464, 1899956092796928, 3799912185593856, 7599824371187712, 15199648742375424, 30399297484750848, 60798594969501696, 121597189939003392, 243194379878006784, 486388759756013568, 972777519512027136, 1945555039024054272, 3891110078048108544, 7782220156096217088, 15564440312192434176],
   [7741687759449882625, 15483375518899765250, 2143713422628356101, 4287426845256712202, 8574853690513424404, 17149707381026848808, 7782220156096217169, 15564440312192434338, 325, 650, 1300, 2600, 5200, 10400, 20800, 41600, 83200, 166400, 332800, 665600, 1331200, 2662400, 5324800, 10649600, 21299200, 42598400, 85196800, 170393600, 340787200, 681574400, 1363148800, 2726297600, 5452595200, 10905190400, 21810380800, 43620761600, 87241523200, 174483046400, 348966092800, 697932185600, 1395864371200, 2791728742400, 5583457484800, 11166914969600, 22333829939200, 44667659878400, 89335319756800, 178670639513600, 357341279027200, 714682558054400, 1429365116108800, 2858730232217600, 5717460464435200, 11434920928870400, 22869841857740800, 45739683715481600, 91479367430963200, 182958734861926400, 365917469723852800, 731834939447705600, 1463669878895411200, 2927339757790822400, 5854679515581644800, 11709359031163289600],
   [1953066902465019905, 3906133804930039810, 7812267609860079620, 15624535219720159240, 120189815055450129, 240379630110900258, 480759260221800516, 961518520443601032, 1923037040887202064, 3846074081774404128, 7692148163548808256, 15384296327097616512, 1945555039024058625, 3891110078048117250, 7782220156096234500, 15564440312192469000, 69649, 139298, 278596, 557192, 1114384, 2228768, 4457536, 8915072, 17830144, 35660288, 71320576, 142641152, 285282304, 570564608, 1141129216, 2282258432, 4564516864, 9129033728, 18258067456, 36516134912, 73032269824, 146064539648, 292129079296, 584258158592, 1168516317184, 2337032634368, 4674065268736, 9348130537472, 18696261074944, 37392522149888, 74785044299776, 149570088599552, 299140177199104, 598280354398208, 1196560708796416, 2393121417592832, 4786242835185664, 9572485670371328, 19144971340742656, 38289942681485312, 76579885362970624, 153159770725941248, 306319541451882496, 612639082903764992, 1225278165807529984, 2450556331615059968, 4901112663230119936, 9802225326460239872],
   [121599052612632577, 243198105225265154, 486396210450530308, 972792420901060616, 1945584841802121232, 3891169683604242464, 7782339367208484928, 15564678734416969856, 476844449071361, 953688898142722, 1907377796285444, 3814755592570888, 7629511185141776, 15259022370283552, 30518044740567104, 61036089481134208, 122072178962268416, 244144357924536832, 488288715849073664, 976577431698147328, 1953154863396294656, 3906309726792589312, 7812619453585178624, 15625238907170357248, 121597189955846145, 243194379911692290, 486388759823384580, 972777519646769160, 1945555039293538320, 3891110078587076640, 7782220157174153280, 15564440314348306560, 4311744769, 8623489538, 17246979076, 34493958152, 68987916304, 137975832608, 275951665216, 551903330432, 1103806660864, 2207613321728, 4415226643456, 8830453286912, 17660906573824, 35321813147648, 70643626295296, 141287252590592, 282574505181184, 565149010362368, 1130298020724736, 2260596041449472, 4521192082898944, 9042384165797888, 18084768331595776, 36169536663191552, 72339073326383104, 144678146652766208, 289356293305532416, 578712586611064832, 1157425173222129664, 2314850346444259328, 4629700692888518656, 9259401385777037312],
   [17654585528315654144, 6486133441460133889, 12972266882920267778, 15568240224378912773, 7599824372957195, 15199648745914390, 30399297491828780, 60798594983657560, 121597189967315120, 243194379934630240, 486388759869260480, 972777519738520960, 1945555039477041920, 3891110078954083840, 7782220157908167680, 15564440315816335360, 7247802369, 14495604738, 28991209476, 57982418952, 115964837904, 231929675808, 463859351616, 927718703232, 1855437406464, 3710874812928, 7421749625856, 14843499251712, 29686998503424, 59373997006848, 118747994013696, 237495988027392, 474991976054784, 949983952109568, 1899967904219136, 3799935808438272, 7599871616876544, 15199743233753088, 30399486467506176, 60798972935012352, 121597945870024704, 243195891740049408, 486391783480098816, 972783566960197632, 1945567133920395264, 3891134267840790528, 7782268535681581056, 15564537071363162112, 193518341455873, 387036682911746, 774073365823492, 1548146731646984, 3096293463293968, 6192586926587936, 12385173853175872, 24770347706351744, 49540695412703488, 99081390825406976, 198162781650813952, 396325563301627904, 792651126603255808, 1585302253206511616, 3170604506413023232, 6341209012826046464],
   [7741687763560300544, 15483375527120601088, 2143713439070027777, 4287426878140055554, 8574853756280111108, 17149707512560222216, 7782220419162963985, 15564440838325927970, 1052266987589, 2104533975178, 4209067950356, 8418135900712, 16836271801424, 33672543602848, 67345087205696, 134690174411392, 269380348822784, 538760697645568, 1077521395291136, 2155042790582272, 4310085581164544, 8620171162329088, 17240342324658176, 34480684649316352, 68961369298632704, 137922738597265408, 275845477194530816, 551690954389061632, 1103381908778123264, 2206763817556246528, 4413527635112493056, 8827055270224986112, 17654110540449972224, 6485183465728770049, 12970366931457540098, 15564440321453457413, 18522046475, 37044092950, 74088185900, 148176371800, 296352743600, 592705487200, 1185410974400, 2370821948800, 4741643897600, 9483287795200, 18966575590400, 37933151180800, 75866302361600, 151732604723200, 303465209446400, 606930418892800, 1213860837785600, 2427721675571200, 4855443351142400, 9710886702284800, 19421773404569600, 38843546809139200, 77687093618278400, 155374187236556800, 310748374473113600, 621496748946227200, 1242993497892454400, 2485986995784908800],
   [5623782073748684800, 11247564147497369600, 9812991744319422465, 11555532956390916099, 17346458389747597319, 5869879164324020239, 11739758328648040478, 17714909134261846077, 6606780653352517755, 13213561306705035510, 16050829071948448237, 972777519512028123, 1945555039024056246, 3891110078048112492, 7782220156096224984, 15564440312192449968, 31585, 63170, 126340, 252680, 505360, 1010720, 2021440, 4042880, 8085760, 16171520, 32343040, 64686080, 129372160, 258744320, 517488640, 1034977280, 2069954560, 4139909120, 8279818240, 16559636480, 33119272960, 66238545920, 132477091840, 264954183680, 529908367360, 1059816734720, 2119633469440, 4239266938880, 8478533877760, 16957067755520, 33914135511040, 67828271022080, 135656542044160, 271313084088320, 542626168176640, 1085252336353280, 2170504672706560, 4341009345413120, 8682018690826240, 17364037381652480, 34728074763304960, 69456149526609920, 138912299053219840, 277824598106439680, 555649196212879360, 1111298392425758720, 2222596784851517440, 4445193569703034880],
   [2025333136082075648, 4050666272164151296, 8101332544328302592, 16202665088656605184, 8193978580569423873, 16387957161138847746, 8564562725533908997, 17129125451067817994, 7741056296178155541, 15482112592356311082, 2141187569541447765, 4282375139082895530, 8564750278165791060, 17129500556331582120, 7741806506705683793, 15483613013411367586, 2144188411651560773, 4288376823303121546, 8576753646606243092, 17153507293212486184, 7789819980467491921, 15579639960934983842, 30399297485099333, 60798594970198666, 121597189940397332, 243194379880794664, 486388759761589328, 972777519523178656, 1945555039046357312, 3891110078092714624, 7782220156185429248, 15564440312370858496, 356848641, 713697282, 1427394564, 2854789128, 5709578256, 11419156512, 22838313024, 45676626048, 91353252096, 182706504192, 365413008384, 730826016768, 1461652033536, 2923304067072, 5846608134144, 11693216268288, 23386432536576, 46772865073152, 93545730146304, 187091460292608, 374182920585216, 748365841170432, 1496731682340864, 2993463364681728, 5986926729363456, 11973853458726912, 23947706917453824, 47895413834907648, 95790827669815296, 191581655339630592, 383163310679261184, 766326621358522368],
   [17630091822433501185, 6437146029695827971, 12874292059391655942, 15372290577321689101, 1921543539472203803, 3843087078944407606, 7686174157888815212, 15372348315777630424, 1921659016384086449, 3843318032768172898, 7686636065536345796, 15373272131072691592, 1923506646974208785, 3847013293948417570, 7694026587896835140, 15388053175793670280, 1953068736416166161, 3906137472832332322, 7812274945664664644, 15624549891329329288, 120219158273790225, 240438316547580450, 480876633095160900, 961753266190321800, 1923506532380643600, 3847013064761287200, 7694026129522574400, 15388052259045148800, 1953066902919123201, 3906133805838246402, 7812267611676492804, 15624535223352985608, 120189822321102865, 240379644642205730, 480759289284411460, 961518578568822920, 1923037157137645840, 3846074314275291680, 7692148628550583360, 15384297257101166720, 1945556899031159041, 3891113798062318082, 7782227596124636164, 15564455192249272328, 29760113676305, 59520227352610, 119040454705220, 238080909410440, 476161818820880, 952323637641760, 1904647275283520, 3809294550567040, 7618589101134080, 15237178202268160, 30474356404536320, 60948712809072640, 121897425618145280, 243794851236290560, 487589702472581120, 975179404945162240, 1950358809890324480, 3900717619780648960, 7801435239561297920, 15602870479122595840],
   [11416895486686134704, 10151654422696952673, 12232858313145976515, 16395266094044024199, 8579180591344261903, 17158361182688523806, 7799527759419567165, 15599055518839134330, 69230413293400309, 138460826586800618, 276921653173601236, 553843306347202472, 1107686612694404944, 2215373225388809888, 4430746450777619776, 8861492901555239552, 17722985803110479104, 6622933991049783809, 13245867982099567618, 16115442422737512453, 1102004221090156555, 2204008442180313110, 4408016884360626220, 8816033768721252440, 17632067537442504880, 6441097459713835361, 12882194919427670722, 15388096297393718661, 1953154979616262923, 3906309959232525846, 7812619918465051692, 15625239836930103384, 121599049475338417, 243198098950676834, 486396197901353668, 972792395802707336, 1945584791605414672, 3891169583210829344, 7782339166421658688, 15564678332843317376, 476041301766401, 952082603532802, 1904165207065604, 3808330414131208, 7616660828262416, 15233321656524832, 30466643313049664, 60933286626099328, 121866573252198656, 243733146504397312, 487466293008794624, 974932586017589248, 1949865172035178496, 3899730344070356992, 7799460688140713984, 15598921376281427968, 68962128177987585, 137924256355975170, 275848512711950340, 551697025423900680, 1103394050847801360, 2206788101695602720, 4413576203391205440, 8827152406782410880],
   [9614047211703840369, 13463486900373445859, 14244837250071574983, 4278322903399363471, 8556645806798726942, 17113291613597453884, 7709388621237427321, 15418777242474854642, 2014516869778534885, 4029033739557069770, 8058067479114139540, 16116134958228279080, 1103389292071689809, 2206778584143379618, 4413557168286759236, 8827114336573518472, 17654228673147036944, 6485419731122899489, 12970839462245798978, 15565385383029975173, 1890141675081995, 3780283350163990, 7560566700327980, 15121133400655960, 30242266801311920, 60484533602623840, 120969067205247680, 241938134410495360, 483876268820990720, 967752537641981440, 1935505075283962880, 3871010150567925760, 7742020301135851520, 15484040602271703040, 2145043589372231681, 4290087178744463362, 8580174357488926724, 17160348714977853448, 7803502823998226449, 15607005647996452898, 85130671608037445, 170261343216074890, 340522686432149780, 681045372864299560, 1362090745728599120, 2724181491457198240, 5448362982914396480, 10896725965828792960, 11417158390195963137, 10152180229716609539, 12233909927185290247, 16397369322122651663, 8583387047501516831, 17166774095003033662, 7816353584048586877, 15632707168097173754, 136533711809479157, 273067423618958314, 546134847237916628, 1092269694475833256, 2184539388951666512, 4369078777903333024, 8738157555806666048, 17476315111613332096],
   [7322752601108518145, 14645505202217036290, 2773815798476592133, 5547631596953184266, 11095263193906368532, 9508389837137420329, 13252172151240605779, 16128050761019588775, 1127220897654309199, 2254441795308618398, 4508883590617236796, 9017767181234473592, 18035534362468947184, 4942188100553026017, 9884376201106052034, 11698301869964175237, 17631996216894115595, 6440954818617056791, 12881909637234113582, 15387525733006604381, 1952013850842034363, 3904027701684068726, 7808055403368137452, 15616110806736274904, 103340989087681457, 206681978175362914, 413363956350725828, 826727912701451656, 1653455825402903312, 3306911650805806624, 6613823301611613248, 13227646603223226496, 16078999664984830209, 1029118705584792067, 2058237411169584134, 4116474822339168268, 8232949644678336536, 16465899289356673072, 8720446981969559649, 17440893963939119298, 6058750312707064197, 12117500625414128394, 16164550718580327957, 8117749840416869419, 16235499680833738838, 8259647764923691181, 16519295529847382362, 8827239462950978229, 17654478925901956458, 6485920236632738517, 12971840473265477034, 15567387405069331285, 5894185753794219, 11788371507588438, 23576743015176876, 47153486030353752, 94306972060707504, 188613944121415008, 377227888242830016, 754455776485660032, 1508911552971320064, 3017823105942640128, 6035646211885280256, 12071292423770560512],
   [13773543107454873600, 14864949664234430465, 3212704722511380483, 6425409445022760966, 12850818890045521932, 15325344238629421081, 1827650862087667763, 3655301724175335526, 7310603448350671052, 14621206896701342104, 2725219187445203761, 5450438374890407522, 10900876749780815044, 11425459958100007305, 10168783365524697875, 12267116198801466919, 16463781865355005007, 8716212133966223519, 17432424267932447038, 6041810920693719677, 12083621841387439354, 18402636159740643829, 5676391695096419307, 11352783390192838614, 10023430229710360493, 11976409927172792155, 18188212331311349431, 5247544038237830511, 10495088076475661022, 10613882611489699261, 10851471681517775739, 11326649821573928695, 9971163092472540655, 11871875652697152479, 17979143782360070079, 4829406940335271807, 9658813880670543614, 13553020238306852349, 14423903925938387963, 2330613245919295479, 4661226491838590958, 9322452983677181916, 12880298444320128953, 15384303347178635123, 1945569079186095847, 3891138158372191694, 7782276316744383388, 15564552633488766776, 224642592665201, 449285185330402, 898570370660804, 1797140741321608, 3594281482643216, 7188562965286432, 14377125930572864, 28754251861145728, 57508503722291456, 115017007444582912, 230034014889165824, 460068029778331648, 920136059556663296, 1840272119113326592, 3680544238226653184, 7361088476453306368],
   [8517168295604306352, 17034336591208612704, 7551478576459744961, 15102957152919489922, 1382876690667805445, 2765753381335610890, 5531506762671221780, 11063013525342443560, 9443890500009570385, 13123173476984905891, 15870053412508188999, 611226200631509647, 1222452401263019294, 2444904802526038588, 4889809605052077176, 9779619210104154352, 13794630897174073825, 14907125243672830915, 3297055881388181383, 6594111762776362766, 13188223525552725532, 16000153509643828281, 871426394902788211, 1742852789805576422, 3485705579611152844, 6971411159222305688, 13942822318444611376, 3674293040145436257, 7348586080290872514, 14697172160581745028, 2877149715206009609, 5754299430412019218, 11508598860824038436, 10335061170972760137, 12599671809697591443, 17128893087147254055, 7740591568337027663, 15481183136674055326, 2139328658176936253, 4278657316353872506, 8557314632707745012, 17114629265415490024, 7712063924873499601, 15424127849746999202, 2025218084322824005, 4050436168645648010, 8100872337291296020, 16201744674582592040, 8192137752421397585, 16384275504842795170, 8557199412941803845, 17114398825883607690, 7711603045809734933, 15423206091619469866, 2023374568067765333, 4046749136135530666, 8093498272271061332, 16186996544542122664, 8162641492340458833, 16325282984680917666, 8439214372618048837, 16878428745236097674, 7239662884514714901, 14479325769029429802],
   [6621563405045482459, 13243126810090964918, 16109960078720307053, 1091039533055745755, 2182079066111491510, 4364158132222983020, 8728316264445966040, 17456632528891932080, 6090227442612689761, 12180454885225379522, 16290459238202830213, 8369566879661873931, 16739133759323747862, 6961072912690015277, 13922145825380030554, 3632940054016274613, 7265880108032549226, 14531760216065098452, 2546325826172716457, 5092651652345432914, 10185303304690865828, 12300156077133802825, 16529861622019676819, 8848371647295567143, 17696743294591134286, 6570448974011094173, 13140897948022188346, 15905502354582753909, 682124084780639467, 1364248169561278934, 2728496339122557868, 5456992678245115736, 10913985356490231472, 11451677171518840161, 10221217792362363587, 12371985052476798343, 16673519572705667855, 9135687548667549215, 18271375097335098430, 5413869570285328509, 10827739140570657018, 11279184739679691253, 9876232928684065771, 11682015325120202711, 17599423127206170543, 6375808639241166687, 12751617278482333374, 15126941015503043965, 1430844415834913531, 2861688831669827062, 5723377663339654124, 11446755326679308248, 10211374102683299761, 12352297673118670691, 16634144813989412551, 9056938031235038607, 18113876062470077214, 5098871500555286077, 10197743001110572154, 12325035469973215477, 16579620407698502123, 8947889218653217751, 17895778437306435502, 4662676250228002653],
   [6689174476148767285, 13378348952297534570, 14074561353919752405, 3937771111095718315, 7875542222191436630, 15751084444382873260, 373288264380878169, 746576528761756338, 1493153057523512676, 2986306115047025352, 5972612230094050704, 11945224460188101408, 18125841397341967937, 5122802170299067523, 10245604340598135046, 12420758148948341261, 16771065765648753691, 7024936925340026935, 14049873850680053870, 3888396104616321245, 7776792209232642490, 15553584418465284980, 2284131221759395561, 4568262443518791122, 9136524887037582244, 18273049774075164488, 5417218923765460625, 10834437847530921250, 11292582153600219717, 9903027756525122699, 11735604980802316567, 17706602438570398255, 6590167261969622111, 13180334523939244222, 15984375506416865661, 839870388448862971, 1679740776897725942, 3359481553795451884, 6718963107590903768, 13437926215181807536, 14193715879688298337, 4176080162632810179, 8352160325265620358, 16704320650531240716, 9197289704318694937, 18394579408637389874, 5660278192889911397, 11320556385779822794, 9958976220884328853, 11847501909520728875, 17930396296007222871, 4731911967629577391, 9463823935259154782, 13163040347484074685, 15949787153506526587, 770693682628184823, 1541387365256369646, 3082774730512739292, 6165549461025478584, 12331098922050957168, 16591747311853985505, 8972143026964184515, 17944286053928369030, 4759691483471869709],
   [5592930650687479761, 11185861301374959522, 9689586052074602309, 13614564581114969739, 14546992611554622743, 2576790617151765039, 5153581234303530078, 10307162468607060156, 12543874404966191481, 17017298277684454131, 7517401949411427815, 15034803898822855630, 1246570182474536861, 2493140364949073722, 4986280729898147444, 9972561459796294888, 11874672387344660945, 17984737251655087011, 4840593878925305671, 9681187757850611342, 13597767992666987805, 14513399434658658875, 2509604263359837303, 5019208526719674606, 10038417053439349212, 12006383574630769593, 18248159626227304307, 5367438628069740263, 10734877256139480526, 11093460970817338269, 9504785390959359803, 13244963258884484727, 16113632976307346671, 1098385328229824991, 2196770656459649982, 4393541312919299964, 8787082625838599928, 17574165251677199856, 6325292888183225313, 12650585776366450626, 17230721020484972421, 7944247435012464395, 15888494870024928790, 648109115664989229, 1296218231329978458, 2592436462659956916, 5184872925319913832, 10369745850639827664, 12669041169031726497, 17267631805815524163, 8018069005673567879, 16036138011347135758, 943395398309403165, 1886790796618806330, 3773581593237612660, 7547163186475225320, 15094326372950450640, 1365615130729726881, 2731230261459453762, 5462460522918907524, 10924921045837815048, 11473548550214007313, 10264960549752697891, 12459470567257466951],
   [885106743448838321, 1770213486897676642, 3540426973795353284, 7080853947590706568, 14161707895181413136, 4112064193619039777, 8224128387238079554, 16448256774476159108, 8685161952208531721, 17370323904417063442, 5917610193662952485, 11835220387325904970, 17905833251617575061, 4682785878850281771, 9365571757700563542, 12966535992366892205, 15556778443272161627, 2290519271373148855, 4581038542746297710, 9162077085492595420, 18324154170985190840, 5519427717585513329, 11038855435171026658, 9395574319666736581, 13026541116299238283, 15676788691136853783, 224696757888839215, 449393515777678430, 898787031555356860, 1797574063110713720, 3595148126221427440, 7190296252442854880, 14380592504885709760, 4549833413027633025, 9099666826055266050, 18199333652110532100, 5269786679836195849, 10539573359672391698, 10702853177883160613, 11029412814304698443, 9376689077934080151, 12988770632833925423, 15601247724206228063, 73614824027587775, 147229648055175550, 294459296110351100, 588918592220702200, 1177837184441404400, 2355674368882808800, 4711348737765617600, 9422697475531235200, 13080787428028235521, 15785281314594848259, 441682004804828167, 883364009609656334, 1766728019219312668, 3533456038438625336, 7066912076877250672, 14133824153754501344, 4056296710765216193, 8112593421530432386, 16225186843060864772, 8239022089377943049, 16478044178755886098],
   [5798643863659430401, 11597287727318860802, 17429967931603486725, 6036898248035799051, 12073796496071598102, 18382985469108961325, 5637090313833054299, 11274180627666108598, 9866224704656900461, 11661998877065872091, 17559390231097509303, 6295742847023844207, 12591485694047688414, 17112520855847447997, 7707847105737415547, 15415694211474831094, 2008350807778487789, 4016701615556975578, 8033403231113951156, 16066806462227902312, 1004732300070936273, 2009464600141872546, 4018929200283745092, 8037858400567490184, 16075716801134980368, 1022552977885092385, 2045105955770184770, 4090211911540369540, 8180423823080739080, 16360847646161478160, 8510343695579169825, 17020687391158339650, 7524180176359198853, 15048360352718397706, 1273683090265621013, 2547366180531242026, 5094732361062484052, 10189464722124968104, 12308478912002007377, 16546507291756085923, 8881662986768385351, 17763325973536770702, 6703614331902367005, 13407228663804734010, 14132320776934151285, 4053289957124516075, 8106579914249032150, 16213159828498064300, 8214968060252342105, 16429936120504684210, 8648520644265581925, 17297041288531163850, 5771044961891153301, 11542089923782306602, 17319572324530378325, 5816107033889582251, 11632214067779164502, 17499820612524094125, 6176603609877013851, 12353207219754027702, 16635963907260126573, 9060576217776466651, 18121152435552933302, 5113424246720998253],
   [18227991784195386395, 5327102944005904439, 10654205888011808878, 10932118234561994973, 11487942927662367163, 10293749304649417591, 12517048077050906351, 16963645621853883871, 7410096637750287295, 14820193275500574590, 3123191945043668733, 6246383890087337466, 12492767780174674932, 16915085028101421033, 7312975450245361619, 14625950900490723238, 2734707195023966029, 5469414390047932058, 10938828780095864116, 11501364018730105449, 10320591486784894163, 12570732441321859495, 17071014350395790159, 7624834094834099871, 15249668189668199742, 1676298764165225085, 3352597528330450170, 6705195056660900340, 13410390113321800680, 14138643675968284625, 4065935755192782755, 8131871510385565510, 16263743020771131020, 8316134444798475545, 16632268889596951090, 9053186182450115685, 18106372364900231370, 5083864105415594389, 10167728210831188778, 12265005889414448725, 16459561246580968619, 8707770896418150743, 17415541792836301486, 6008045970501428573, 12016091941002857146, 18267576358971479413, 5406272093558090475, 10812544187116180950, 11248794832770739117, 9815453114866161499, 11560455697484394167, 17356303871934553455, 5889570128697932511, 11779140257395865022, 17793672991757495165, 6764308368343815931, 13528616736687631862, 14375096922699946989, 4538842248656107483, 9077684497312214966, 18155368994624429932, 5181857364863991513, 10363714729727983026, 12656978927208037221],
   [4539960917727751474, 9079921835455502948, 18159843670911005896, 5190806717437143441, 10381613434874286882, 10386933328286950981, 10397573115112279179, 10418852688762935575, 10461411836064248367, 10546530130666873951, 10716766719872125119, 11057239898282627455, 9432343245889938175, 13100078968745641471, 15823864396029660159, 518848167674451967, 1037696335348903934, 2075392670697807868, 4150785341395615736, 8301570682791231472, 16603141365582462944, 8994931134421139393, 17989862268842278786, 4850843913299689221, 9701687826599378442, 13638768130164522005, 14595399709653727275, 2673604813349974103, 5347209626699948206, 10694419253399896412, 11012544965338170041, 9342953380001023347, 12921299236967811815, 15466304932474000847, 2109572249776827295, 4219144499553654590, 8438288999107309180, 16876577998214618360, 7235961390471756273, 14471922780943512546, 2426650955929544645, 4853301911859089290, 9706603823718178580, 13648600124402122281, 14615063698128927827, 2712932790300375207, 5425865580600750414, 10851731161201500828, 11327168780941378873, 9972201011207441011, 11873951490166953191, 17983295457299671503, 4837710290214474655, 9675420580428949310, 13586233637823663741, 14490330724972010747, 2463466843986541047, 4926933687973082094, 9853867375946164188, 11637284219644399545, 17509960916254564211, 6196884217337954023, 12393768434675908046, 16717086337103887261],
   [195080852776662232, 390161705553324464, 780323411106648928, 1560646822213297856, 3121293644426595712, 6242587288853191424, 12485174577706382848, 16899898623164836865, 7282602640372193283, 14565205280744386566, 2613215955531292685, 5226431911062585370, 10452863822125170740, 10529434102788718697, 10682574664115814611, 10988855786770006439, 9295575022864696143, 12826542522695157407, 15276791503928692031, 1730545392686209663, 3461090785372419326, 6922181570744838652, 13844363141489677304, 3477374686235568113, 6954749372471136226, 13909498744942272452, 3607645893140758409, 7215291786281516818, 14430583572563033636, 2343972539168586825, 4687945078337173650, 9375890156674347300, 12987172790314459721, 15598052039167296659, 67223453949724967, 134446907899449934, 268893815798899868, 537787631597799736, 1075575263195599472, 2151150526391198944, 4302301052782397888, 8604602105564795776, 17209204211129591552, 7901213816301702657, 15802427632603405314, 475974640821942277, 951949281643884554, 1903898563287769108, 3807797126575538216, 7615594253151076432, 15231188506302152864, 1639339397433131329, 3278678794866262658, 6557357589732525316, 13114715179465050632, 15853136817468478481, 577393010552088611, 1154786021104177222, 2309572042208354444, 4619144084416708888, 9238288168833417776, 12711968814632600673, 15047644087803578563, 1272250560435982727],
   [12688731650206894637, 15001169758952166491, 1179301902733158583, 2358603805466317166, 4717207610932634332, 9434415221865268664, 13104222920696302449, 15832152299930982115, 535423975477095879, 1070847950954191758, 2141695901908383516, 4283391803816767032, 8566783607633534064, 17133567215267068128, 7749939824576655809, 15499879649153311618, 2176721683135448837, 4353443366270897674, 8706886732541795348, 17413773465083590696, 6004509314996006993, 12009018629992013986, 18253429736949793093, 5377978849514717835, 10755957699029435670, 11135621856597248557, 9589107162519180379, 13413606802004125879, 14145077053332935023, 4078802509922083551, 8157605019844167102, 16315210039688334204, 8419068482632881913, 16838136965265763826, 7159079324574047205, 14318158649148094410, 4424965701552402325, 8849931403104804650, 17699862806209609300, 6576687997248044201, 13153375994496088402, 15930458447530554021, 732036270676239691, 1464072541352479382, 2928145082704958764, 5856290165409917528, 11712580330819835056, 17660553138605435233, 6498068662039696067, 12996137324079392134, 15615981106697161485, 103081589009454619, 206163178018909238, 412326356037818476, 824652712075636952, 1649305424151273904, 3298610848302547808, 6597221696605095616, 13194443393210191232, 16012593244958759681, 896305865532651011, 1792611731065302022, 3585223462130604044, 7170446924261208088],
   [10884110747519530060, 11391927953577437337, 10101719356479557939, 12132988180711187047, 16195525829174445263, 8179700061605104031, 16359400123210208062, 8507448649676629629, 17014897299353259258, 7512599992749038069, 15025199985498076138, 1227362355824977877, 2454724711649955754, 4909449423299911508, 9818898846599823016, 11567347160951717201, 17370086798869199523, 5917135982567224647, 11834271965134449294, 17903936407234663709, 4678992190084459067, 9357984380168918134, 12951361237303601389, 15526428933145579995, 2229820251119985591, 4459640502239971182, 8919281004479942364, 17838562008959884728, 6854086402748595057, 13708172805497190114, 14734209060319063493, 2951223514680646539, 5902447029361293078, 11804894058722586156, 17845180594410937433, 6867323573650700467, 13734647147301400934, 14787157743927485133, 3057120881897489819, 6114241763794979638, 12228483527589959276, 16386516522931989721, 8561681449120192947, 17123362898240385894, 7729531190523291341, 15459062381046582682, 2095087146921990965, 4190174293843981930, 8380348587687963860, 16760697175375927720, 7004199744794374993, 14008399489588749986, 3805447382433713477, 7610894764867426954, 15221789529734853908, 1620541444298533417, 3241082888597066834, 6482165777194133668, 12964331554388267336, 15552369567314911889, 2281701519458649379, 4563403038917298758, 9126806077834597516, 18253612155669195032],
   [15356147207514120701, 1889256799857067003, 3778513599714134006, 7557027199428268012, 15114054398856536024, 1405071182541897649, 2810142365083795298, 5620284730167590596, 11240569460335181192, 9799002369995045649, 13833397216955856419, 14984657883236396103, 3452121160515311759, 6904242321030623518, 13808484642061247036, 14934832733447177337, 3352470860936874227, 6704941721873748454, 13409883443747496908, 14137630336819677081, 4063909076895567667, 8127818153791135334, 16255636307582270668, 8299921018420754841, 16599842036841509682, 8988332476939232869, 17976664953878465738, 4824449283372063125, 9648898566744126250, 13533189610454017621, 14384242670232718507, 4557133743721650519, 9114267487443301038, 18228534974886602076, 5328189325388335801, 10656378650776671602, 10936463760091720421, 11496633978721818059, 10311131406768319383, 12551812281288709935, 17033174030329491039, 7549153454701501631, 15098306909403003262, 1373576203634832125, 2747152407269664250, 5494304814539328500, 10988609629078657000, 9295082707481997265, 12825557891929759651, 15274822242397896519, 1726606869624618639, 3453213739249237278, 6906427478498474556, 13812854956996949112, 14943573363318581489, 3369952120679682531, 6739904241359365062, 13479808482718730124, 14277480414762143513, 4343609232780500531, 8687218465561001062, 17374436931122002124, 5925836247072829849, 11851672494145659698],
   [14787680596317962208, 3058166586678443969, 6116333173356887938, 12232666346713775876, 16394882161179622921, 8578412725615459347, 17156825451230918694, 7796456296504356941, 15592912593008713882, 56944561632559413, 113889123265118826, 227778246530237652, 455556493060475304, 911112986120950608, 1822225972241901216, 3644451944483802432, 7288903888967604864, 14577807777935209728, 2638420949912939009, 5276841899825878018, 10553683799651756036, 10731074057841889289, 11085854574222155795, 9489572597768994855, 13214537672503754831, 16052781803545886879, 976682982706905407, 1953365965413810814, 3906731930827621628, 7813463861655243256, 15626927723310486512, 124974822236104673, 249949644472209346, 499899288944418692, 999798577888837384, 1999597155777674768, 3999194311555349536, 7998388623110699072, 15996777246221398144, 864673868057927937, 1729347736115855874, 3458695472231711748, 6917390944463423496, 13834781888926846992, 14987427227178377249, 3457659848399274051, 6915319696798548102, 13830639393597096204, 14979142236518875673, 3441089867080270899, 6882179734160541798, 13764359468321083596, 14846582385966850457, 3175970165976220467, 6351940331952440934, 12703880663904881868, 15031467786348140953, 1239897957525107507, 2479795915050215014, 4959591830100430028, 9919183660200860056, 11767916788153791281, 17771226053273347683, 6719414491375520967],
   [15699470327193359110, 270060030001849869, 540120060003699738, 1080240120007399476, 2160480240014798952, 4320960480029597904, 8641920960059195808, 17283841920118391616, 8050489234279302785, 16100978468558605570, 1073076312732342789, 2146152625464685578, 4292305250929371156, 8584610501858742312, 17169221003717484624, 7821247401477488801, 15642494802954977602, 156108981525086853, 312217963050173706, 624435926100347412, 1248871852200694824, 2497743704401389648, 4995487408802779296, 9990974817605558592, 11911499102963188353, 18058390682892141827, 4987900741399415303, 9975801482798830606, 11881152433349732381, 17997697343665229883, 4866514062945591415, 9733028125891182830, 13701448728748130781, 14720760906820944827, 2924327207684409207, 5848654415368818414, 11697308830737636828, 17630010138441038777, 6436982661710903155, 12873965323421806310, 15371637105381989837, 1920236595592805275, 3840473191185610550, 7680946382371221100, 15361892764742442200, 1900747914313710001, 3801495828627420002, 7602991657254840004, 15205983314509680008, 1588929013848185617, 3177858027696371234, 6355716055392742468, 12711432110785484936, 15046570680109347089, 1270103745047519779, 2540207490095039558, 5080414980190079116, 10160829960380158232, 12251209388512387633, 16431968244776846435, 8652584892809906375, 17305169785619812750, 5787301956068451101, 11574603912136902202],
   [15876788577854867154, 624696531324865957, 1249393062649731914, 2498786125299463828, 4997572250598927656, 9995144501197855312, 11919838470147781793, 18075069417261328707, 5021258210137789063, 10042516420275578126, 12014582308303227421, 18264557093572219963, 5400233562759571575, 10800467125519143150, 11224640709576663517, 9767144868478010299, 13769682213921785719, 14857227877168254703, 3197261148379028959, 6394522296758057918, 12789044593516115836, 15201795645570608889, 1580553675970043379, 3161107351940086758, 6322214703880173516, 12644429407760347032, 17218408283272765233, 7919621960588050019, 15839243921176100038, 549607217967331725, 1099214435934663450, 2198428871869326900, 4396857743738653800, 8793715487477307600, 17587430974954615200, 6351824334738056001, 12703648669476112002, 15031003797490601221, 1238969979810028043, 2477939959620056086, 4955879919240112172, 9911759838480224344, 11753069144712519857, 17741530766390804835, 6660023917610435271, 13320047835220870542, 13957959119766424349, 3704566642789062203, 7409133285578124406, 14818266571156248812, 3119338536355017177, 6238677072710034354, 12477354145420068708, 16884257758592208585, 7251320911226936723, 14502641822453873446, 2488089038950266445, 4976178077900532890, 9952356155801065780, 11834261779354202729, 17903916035674170579, 4678951446963472807, 9357902893926945614, 12951198264819656349],
   [7587840228487023784, 15175680456974047568, 1528323298776920737, 3056646597553841474, 6113293195107682948, 12226586390215365896, 16382722248182802961, 8554092899621819427, 17108185799243638854, 7699176992529797261, 15398353985059594522, 1973670354948014645, 3947340709896029290, 7894681419792058580, 15789362839584117160, 449845054783365969, 899690109566731938, 1799380219133463876, 3598760438266927752, 7197520876533855504, 14395041753067711008, 4578731909391635521, 9157463818783271042, 18314927637566542084, 5500974650748215817, 11001949301496431634, 9321762052317546533, 12878916581600858187, 15381539621740093591, 1940041628309012783, 3880083256618025566, 7760166513236051132, 15520333026472102264, 2217628437773030129, 4435256875546060258, 8870513751092120516, 17741027502184241032, 6659017389197307665, 13318034778394615330, 13953933006113913925, 3696514415484041355, 7393028830968082710, 14786057661936165420, 3054920717914850393, 6109841435829700786, 12219682871659401572, 16368915211070874313, 8526478825397962131, 17052957650795924262, 7588720695634368077, 15177441391268736154, 1531845167366297909, 3063690334732595818, 6127380669465191636, 12254761338930383272, 16439072145612837713, 8666792694481888931, 17333585388963777862, 5844133162756381325, 11688266325512762650, 17611925127991290421, 6400812640811406443, 12801625281622812886, 15226957021784002989],
   [5334723506841970780, 10669447013683941560, 10962600485906260337, 9243064421137203939, 12721521319240172999, 15066749097018723215, 1310460578866272031, 2620921157732544062, 5241842315465088124, 10483684630930176248, 10591075720398729713, 10805857899335836643, 11235422257210050503, 9788707963744784271, 13812808404455333663, 14943480258235350591, 3369765910513220735, 6739531821026441470, 13479063642052882940, 14275990733430449145, 4340629870117111795, 8681259740234223590, 17362519480468447180, 5902001345765719961, 11804002691531439922, 17843397860028644965, 6863758104886115531, 13727516209772231062, 14772895868869145389, 3028597131780810331, 6057194263561620662, 12114388527123241324, 16158326521998553817, 8105301447253321139, 16210602894506642278, 8209854192269498061, 16419708384538996122, 8628065172334205749, 17256130344668411498, 7995066083379342549, 15990132166758685098, 851383709132501845, 1702767418265003690, 3405534836530007380, 6811069673060014760, 13622139346120029520, 14562142141564742305, 2607089677172004163, 5214179354344008326, 10428358708688016652, 10480423875914410521, 10584554210367198259, 10792814879272773735, 11209336217083924687, 9736535883492532639, 13708464243950830399, 14734791937226344063, 2952389268495207679, 5904778536990415358, 11809557073980830716, 17854506624927426553, 6885975634683678707, 13771951269367357414, 14861765988059398093],
   [13620883434279184269, 14559630317883051803, 2602066029808623159, 5204132059617246318, 10408264119234492636, 10440234697007362489, 10504175852553102195, 10632058163644581607, 10887822785827540431, 11399352030193458079, 10116567509711599423, 12162684487175270015, 16254918442102611199, 8298485287461435903, 16596970574922871806, 8982589553101957117, 17965179106203914234, 4801477588022960117, 9602955176045920234, 13441302829057605589, 14200469107439894443, 4189586618136002391, 8379173236272004782, 16758346472544009564, 6999498339130538681, 13998996678261077362, 3786641759778368229, 7573283519556736458, 15146567039113472916, 1470096463055771433, 2940192926111542866, 5880385852223085732, 11760771704446171464, 17756935885858108049, 6690834156545041699, 13381668313090083398, 14081200075504850061, 3951048554265913627, 7902097108531827254, 15804194217063654508, 479507809742440665, 959015619484881330, 1918031238969762660, 3836062477939525320, 7672124955879050640, 15344249911758101280, 1865462208345028161, 3730924416690056322, 7461848833380112644, 14923697666760225288, 3330200727562970129, 6660401455125940258, 13320802910251880516, 13959469269828444297, 3707586942913102099, 7415173885826204198, 14830347771652408396, 3143500937347336345, 6287001874694672690, 12574003749389345380, 17077556966530761929, 7637919327104043411, 15275838654208086822, 1728639693244999245],
   [3707875429907491645, 7415750859814983290, 14831501719629966580, 3145808833302452713, 6291617666604905426, 12583235333209810852, 17096020134171692873, 7674845662385905299, 15349691324771810598, 1876345034372446797, 3752690068744893594, 7505380137489787188, 15010760274979574376, 1198482934787974353, 2396965869575948706, 4793931739151897412, 9587863478303794824, 13411119433573354769, 14140102316471392803, 4068853036198999111, 8137706072397998222, 16275412144795996444, 8339472692848206393, 16678945385696412786, 9146539174649039077, 18293078349298078154, 5457276074211287957, 10914552148422575914, 11452810755383529045, 10223484960091741355, 12376519387935553879, 16682588243623178927, 9153824890502571359, 18307649781005142718, 5486418937625417085, 10972837875250834170, 9263539199826351605, 12762470876618468331, 15148648211775313879, 1474258808379453359, 2948517616758906718, 5897035233517813436, 11794070467035626872, 17823533411037018865, 6824029206902863331, 13648058413805726662, 14613980276936136589, 2710765947914792731, 5421531895829585462, 10843063791659170924, 11309834041856719065, 9937531533038121395, 11804612533828313959, 17844617544622393039, 6866197474073611679, 13732394948147223358, 14782653345619129981, 3048112085280779515, 6096224170561559030, 12192448341123118060, 16314446149998307289, 8417540703252828083, 16835081406505656166, 7152968207053831885],
   [5947192613552500625, 11894385227105001250, 18024162931175767621, 4919445237966666891, 9838890475933333782, 11607330419618738733, 17450053316203242587, 6077069017235310775, 12154138034470621550, 16237825536693314269, 8264299476642842043, 16528598953285684086, 8845846309827581677, 17691692619655163354, 6560347624139152309, 13120695248278304618, 15865096955094986453, 601313285805104555, 1202626571610209110, 2405253143220418220, 4810506286440836440, 9621012572881672880, 13477417622729110881, 14272698694782905027, 4334045792822023559, 8668091585644047118, 17336183171288094236, 5849328727405014073, 11698657454810028146, 17632707386585821413, 6442377158000468427, 12884754316000936854, 15393215090540250925, 1963392565909327451, 3926785131818654902, 7853570263637309804, 15707140527274619608, 285400430164370865, 570800860328741730, 1141601720657483460, 2283203441314966920, 4566406882629933840, 9132813765259867680, 18265627530519735360, 5402374436654602369, 10804748873309204738, 11233204205156786693, 9784271859638256651, 13803936196242278423, 14925735841809240111, 3334277077660999775, 6668554155321999550, 13337108310643999100, 13992080070612681465, 3772808544481576435, 7545617088963152870, 15091234177926305740, 1359430740681437081, 2718861481362874162, 5437722962725748324, 10875445925451496648, 11374598309441370513, 10067060068207424291, 12063669604166919751],
   [13375963570434029495, 14069790590192742255, 3928229583641698015, 7856459167283396030, 15712918334566792060, 296956044748715769, 593912089497431538, 1187824178994863076, 2375648357989726152, 4751296715979452304, 9502593431958904608, 13240579340883574337, 16104865140305525891, 1080849656226183431, 2161699312452366862, 4323398624904733724, 8646797249809467448, 17293594499618934896, 8069994393280389345, 16139988786560778690, 1151096948736689029, 2302193897473378058, 4604387794946756116, 9208775589893512232, 18417551179787024464, 5706221735189180577, 11412443470378361154, 10142750390081405573, 12215050247914882315, 16359649963581835799, 8507948330419885103, 17015896660839770206, 7514598715722059965, 15029197431444119930, 1235357247717065461, 2470714495434130922, 4941428990868261844, 9882857981736523688, 11695265431225118545, 17625923339416002211, 6428809063660830023, 12857618127321660046, 15338942713181697309, 1854847811192220219, 3709695622384440438, 7419391244768880876, 14838782489537761752, 3160370373118043057, 6320740746236086114, 12641481492472172228, 17212512452696415625, 7907830299435350803, 15815660598870701606, 502440573356534861, 1004881146713069722, 2009762293426139444, 4019524586852278888, 8039049173704557776, 16078098347409115552, 1027316070433362753, 2054632140866725506, 4109264281733451012, 8218528563466902024, 16437057126933804048],
   [10821049693394775571, 11265805845327928359, 9849475139980539983, 11628499747713151135, 17492391972392067391, 6161746329612960383, 12323492659225920766, 16576534786203912701, 8941717975664038907, 17883435951328077814, 4637991278271287277, 9275982556542574554, 12787357590050914229, 15198421638640205675, 1573805662109236951, 3147611324218473902, 6295222648436947804, 12590445296873895608, 17110440061499862385, 7703685517042244323, 15407371034084488646, 1991704452997802893, 3983408905995605786, 7966817811991211572, 15933635623982423144, 738390623579977937, 1476781247159955874, 2953562494319911748, 5907124988639823496, 11814249977279646992, 17863892431525059105, 6904747247878943811, 13809494495757887622, 14936852440840458509, 3356510275723436571, 6713020551446873142, 13426041102893746284, 14169945655112175833, 4128539713480565171, 8257079426961130342, 16514158853922260684, 8816966111100734873, 17633932222201469746, 6444826829231765093, 12889653658463530186, 15403013775465437589, 1982989935759700779, 3965979871519401558, 7931959743038803116, 15863919486077606232, 598958347770344113, 1197916695540688226, 2395833391081376452, 4791666782162752904, 9583333564325505808, 13402059605616776737, 14121982660558236739, 4032613724372686983, 8065227448745373966, 16130454897490747932, 1132029170596627513, 2264058341193255026, 4528116682386510052, 9056233364773020104],
   [9317436176169725208, 12870264829305215537, 15364236117148808291, 1905434619126442183, 3810869238252884366, 7621738476505768732, 15243476953011537464, 1663916290851900529, 3327832581703801058, 6655665163407602116, 13311330326815204232, 13940524102955091729, 3669696609166396963, 7339393218332793926, 14678786436665587852, 2840378267373695257, 5680756534747390514, 11361513069494781028, 10040889588314245321, 12011328644380561811, 18258049765726888743, 5387218907068909135, 10774437814137818270, 11172582086814013757, 9663027622952710779, 13561447722871186679, 14440758895067056623, 2364323184176632799, 4728646368353265598, 9457292736706531196, 13149977950378827513, 15923662359296032243, 718444094207196135, 1436888188414392270, 2873776376828784540, 5747552753657569080, 11495105507315138160, 10308074463954959585, 12545698395661990339, 17020946259076051847, 7524697912194623247, 15049395824389246494, 1275754033607318589, 2551508067214637178, 5103016134429274356, 10206032268858548712, 12341614005469168593, 16612777478690408355, 9014203360637030215, 18028406721274060430, 4927932818163252509, 9855865636326505018, 11641280740405081205, 17517953957775927531, 6212870300380680663, 12425740600761361326, 16781030669274793821, 7044866732592107195, 14089733465184214390, 3968115333624642285, 7936230667249284570, 15872461334498569140, 616042044612269929, 1232084089224539858],
   [3496924399662661788, 6993848799325323576, 13987697598650647152, 3764043600557507809, 7528087201115015618, 15056174402230031236, 1289311189288888073, 2578622378577776146, 5157244757155552292, 10314489514311104584, 12558528496374280337, 17046606460500631843, 7576018315043783239, 15152036630087566478, 1481035645003958557, 2962071290007917114, 5924142580015834228, 11848285160031668456, 17931962797029102033, 4735044969673335715, 9470089939346671430, 13175572355659107981, 15974851169856593179, 820821715328318007, 1641643430656636014, 3283286861313272028, 6566573722626544056, 13133147445253088112, 15890001349044553441, 651122073704238531, 1302244147408477062, 2604488294816954124, 5208976589633908248, 10417953179267816496, 10459612817074010209, 10542932092686397635, 10709570643911172487, 11042847746360722191, 9403558942046127647, 13042510361058020415, 15708727180654418047, 288573736923967743, 577147473847935486, 1154294947695870972, 2308589895391741944, 4617179790783483888, 9234359581566967776, 12704111640099700673, 15031929738737778563, 1240821862304382727, 2481643724608765454, 4963287449217530908, 9926574898435061816, 11782699264622194801, 17800791006210154723, 6778544397249135047, 13557088794498270094, 14432041038321223453, 2346887470684966459, 4693774941369932918, 9387549882739865836, 13010492242445496793, 15644690943429370803, 160501262473873255],
   [1628909086725734540, 3257818173451469080, 6515636346902938160, 13031272693805876320, 15686251846150129857, 243623067915391363, 487246135830782726, 974492271661565452, 1948984543323130904, 3897969086646261808, 7795938173292523616, 15591876346585047232, 54872068785226113, 109744137570452226, 219488275140904452, 438976550281808904, 877953100563617808, 1755906201127235616, 3511812402254471232, 7023624804508942464, 14047249609017884928, 3883147621291983361, 7766295242583966722, 15532590485167933444, 2242143355164692489, 4484286710329384978, 8968573420658769956, 17937146841317539912, 4745413058250211473, 9490826116500422946, 13217044709966611013, 16057795878471599243, 986711132558330135, 1973422265116660270, 3946844530233320540, 7893689060466641080, 15787378120933282160, 445875617481695969, 891751234963391938, 1783502469926783876, 3567004939853567752, 7134009879707135504, 14268019759414271008, 4324687922084755521, 8649375844169511042, 17298751688339022084, 5774465761506869769, 11548931523013739538, 17333255522993244197, 5843473430815313995, 11686946861630627990, 17609286200227021101, 6395534785282867803, 12791069570565735606, 15205845599669848429, 1588653584168522459, 3177307168337044918, 6354614336674089836, 12709228673348179672, 15042163805234736561, 1261289995298298723, 2522579990596597446, 5045159981193194892, 10090319962386389784],
   [4651449518224437756, 9302899036448875512, 12841190549863516145, 15306087558265409507, 1789137501359644615, 3578275002719289230, 7156550005438578460, 14313100010877156920, 4414848425010527345, 8829696850021054690, 17659393700042109380, 6495749784913044361, 12991499569826088722, 15606705598190554661, 84530571996240971, 169061143992481942, 338122287984963884, 676244575969927768, 1352489151939855536, 2704978303879711072, 5409956607759422144, 10819913215518844288, 11263532889576065793, 9844929228476814851, 11619407924705700871, 17474208326377166863, 6125379037583159327, 12250758075166318654, 16431065618084708477, 8650779639425630459, 17301559278851260918, 5780080942531347437, 11560161885062694874, 17355716247091154869, 5888394879011135339, 11776789758022270678, 17788971993010306477, 6754906370849438555, 13509812741698877110, 14337488932722437485, 4463626268701088475, 8927252537402176950, 17854505074804353900, 6885972534437533401, 13771945068875066802, 14861753587074816869, 3206312568192153291, 6412625136384306582, 12825250272768613164, 15274207004075603545, 1725376392980032691, 3450752785960065382, 6901505571920130764, 13803011143840261528, 14923885737005206321, 3330576868052932195, 6661153736105864390, 13322307472211728780, 13962478393748140825, 3713605190752495155, 7427210381504990310, 14854420763009980620, 3191646920062480793, 6383293840124961586],
   [17037577975473460106, 7557961344989439765, 15115922689978879530, 1408807764786584661, 2817615529573169322, 5635231059146338644, 11270462118292677288, 9858787685910037841, 11647124839572146851, 17529642156110058823, 6236246697048943247, 12472493394097886494, 16874536255947844157, 7231877905938207867, 14463755811876415734, 2410317017795351021, 4820634035590702042, 9641268071181404084, 13517928619328573289, 14353720687981829843, 4496089779219873191, 8992179558439746382, 17984359116879492764, 4839837609374117177, 9679675218748234354, 13594742914462233829, 14507349278249150923, 2497503950540821399, 4995007901081642798, 9990015802163285596, 11909581072078642361, 18054554621123049843, 4980228617861231335, 9960457235722462670, 11850463939196996509, 17936320355359758139, 4743760086334647927, 9487520172669295854, 13210432822304356829, 16044572103147090875, 960263581909313399, 1920527163818626798, 3841054327637253596, 7682108655274507192, 15364217310549014384, 1905397005926854369, 3810794011853708738, 7621588023707417476, 15243176047414834952, 1663314479658495505, 3326628959316991010, 6653257918633982020, 13306515837267964040, 13930895123860611345, 3650438650977436195, 7300877301954872390, 14601754603909744780, 2686314601862009113, 5372629203724018226, 10745258407448036452, 11114223273434450121, 9546309996193583507, 13328012469352932135, 13973888388030547535],
   [4311641990282604952, 8623283980565209904, 17246567961130419808, 7975941316303359169, 15951882632606718338, 774884640828568325, 1549769281657136650, 3099538563314273300, 6199077126628546600, 12398154253257093200, 16725857974266257569, 6934521342575034691, 13869042685150069382, 3526733773556352269, 7053467547112704538, 14106935094225409076, 4002518591707031657, 8005037183414063314, 16010074366828126628, 891268109271384905, 1782536218542769810, 3565072437085539620, 7130144874171079240, 14260289748342158480, 4309227899940530465, 8618455799881060930, 17236911599762121860, 7956628593566763273, 15913257187133526546, 697633749882184741, 1395267499764369482, 2790534999528738964, 5581069999057477928, 11162139998114955856, 9642143445554594977, 13519679368074955075, 14357222185474593415, 4503092774205400335, 9006185548410800670, 18012371096821601340, 4895861569258334329, 9791723138516668658, 13818838753999102437, 14955540957322888139, 3393887308688295831, 6787774617376591662, 13575549234753183324, 14468961918831049913, 2420729231704619379, 4841458463409238758, 9682916926818477516, 13601226330602720153, 14520316110530123571, 2523437615102766695, 5046875230205533390, 10093750460411066780, 12117050388574204729, 16163650244900480627, 8115948893057174759, 16231897786114349518, 8252443975484912541, 16504887950969825082, 8798424305195863669, 17596848610391727338],
   [1656489759410812908, 3312979518821625816, 6625959037643251632, 13251918075286503264, 16127542609111383745, 1126204593837899139, 2252409187675798278, 4504818375351596556, 9009636750703193112, 18019273501406386224, 4909666378427904097, 9819332756855808194, 11568214981463687557, 17371822439893140235, 5920607264615106071, 11841214529230212142, 17917821535426189405, 4706762446467510459, 9413524892935020918, 13062442262835806957, 15748590984209991131, 368301344035113911, 736602688070227822, 1473205376140455644, 2946410752280911288, 5892821504561822576, 11785643009123645152, 17806678495213055425, 6790319375254936451, 13580638750509872902, 14479140950344429069, 2441087294731377691, 4882174589462755382, 9764349178925510764, 13764090834816786649, 14846045118958256563, 3174895631959032679, 6349791263918065358, 12699582527836130716, 15022871514210638649, 1222705413250102899, 2445410826500205798, 4890821653000411596, 9781643306000823192, 13798679088967411505, 14915221627259506275, 3313248648561532103, 6626497297123064206, 13252994594246128412, 16129695647030634041, 1130510669676399731, 2261021339352799462, 4522042678705598924, 9044085357411197848, 18088170714822395696, 5047460805259923041, 10094921610519846082, 12119392688791763333, 16168334845335597835, 8125318093927409175, 16250636187854818350, 8289920778965850205, 16579841557931700410, 8948331519119614325],
   [11950665302851277629, 18136723082668320379, 5144565540951772407, 10289131081903544814, 12507811631559160797, 16945172730870392763, 7373150855783305079, 14746301711566610158, 2975408817175739869, 5950817634351479738, 11901635268702959476, 18038663014371684073, 4948445404358499795, 9896890808716999590, 11723331085186070349, 17682054647337905819, 6541071679504637239, 13082143359009274478, 15787993176556926173, 447105728728983995, 894211457457967990, 1788422914915935980, 3576845829831871960, 7153691659663743920, 14307383319327487840, 4403415041911189185, 8806830083822378370, 17613660167644756740, 6404282720118339081, 12808565440236678162, 15240837339011733541, 1658637062852292683, 3317274125704585366, 6634548251409170732, 13269096502818341464, 13856056454961366193, 3500761313178945891, 7001522626357891782, 14003045252715783564, 3794738908687780633, 7589477817375561266, 15178955634751122532, 1534873654331070665, 3069747308662141330, 6139494617324282660, 12278989234648565320, 16487527937049201809, 8763704277354617123, 17527408554709234246, 6231779494247294093, 12463558988494588186, 16856667444741247541, 7196140283525014635, 14392280567050029270, 4573209537356272045, 9146419074712544090, 18292838149425088180, 5456795674465308009, 10913591348930616018, 11450889156399609253, 10219641762123901771, 12368832991999874711, 16667215451751820591, 9123079306759854687],
   [14308700372104210684, 4406049147464634873, 8812098294929269746, 17624196589858539492, 6425355564545904585, 12850711129091809170, 15325128716721995557, 1827219818272816715, 3654439636545633430, 7308879273091266860, 14617758546182533720, 2718322486407586993, 5436644972815173986, 10873289945630347972, 11370286349799073161, 10058436148922829587, 12046421765597730343, 18328236008161225807, 5527591391937583263, 11055182783875166526, 9428229017075016317, 13091850511115797755, 15807407480769972727, 485934337155077103, 971868674310154206, 1943737348620308412, 3887474697240616824, 7774949394481233648, 15549898788962467296, 2276759962753760193, 4553519925507520386, 9107039851015040772, 18214079702030081544, 5299278779675294737, 10598557559350589474, 10820821577239556165, 11265349613017489547, 9848562675359662359, 11626674818471395887, 17488742113908556895, 6154446612645939391, 12308893225291878782, 16547335918335828733, 8883320239927870971, 17766640479855741942, 6710243344540309485, 13420486689080618970, 14158836827485921205, 4106322058228055915, 8212644116456111830, 16425288232912223660, 8639224869080660825, 17278449738161321650, 8039704870365162853, 16079409740730325706, 1029938857075783061, 2059877714151566122, 4119755428303132244, 8239510856606264488, 16479021713212528976, 8746691829681271457, 17493383659362542914, 6163729703553911429, 12327459407107822858],
   [4106604242754704700, 8213208485509409400, 16426416971018818800, 8641482345293851105, 17282964690587702210, 8048734775217923973, 16097469550435847946, 1066058476486827541, 2132116952973655082, 4264233905947310164, 8528467811894620328, 17056935623789240656, 7596676641621000865, 15193353283242001730, 1563668951312829061, 3127337902625658122, 6254675805251316244, 12509351610502632488, 16948252688757336145, 7379310771557191843, 14758621543114383686, 3000048480271286925, 6000096960542573850, 12000193921085147700, 18235780319136060521, 5342680013887252691, 10685360027774505382, 10994426514087387981, 9306716477499459227, 12848825431964683575, 15321357322467744367, 1819677029764314335, 3639354059528628670, 7278708119057257340, 14557416238114514680, 2597637870271548913, 5195275740543097826, 10390551481086195652, 10404809420710768521, 10433325299959914259, 10490357058458205735, 10604420575454788687, 10832547609447954591, 11288801677434286399, 9895466804193256063, 11720483076138583295, 17676358629242931711, 6529679643314689023, 13059359286629378046, 15742425031797133309, 355969439209398267, 711938878418796534, 1423877756837593068, 2847755513675186136, 5695511027350372272, 11391022054700744544, 10099907558726172353, 12129364585204415875, 16188278638160902919, 8165205679578019343, 16330411359156038686, 8449471121568290877, 16898942243136581754, 7280689880315683061],
   [13235658923588771409, 16095024305715920035, 1061167987046971719, 2122335974093943438, 4244671948187886876, 8489343896375773752, 16978687792751547504, 7440180979545614561, 14880361959091229122, 3243529312224977797, 6487058624449955594, 12974117248899911188, 15571940956338199593, 15001288291530835, 30002576583061670, 60005153166123340, 120010306332246680, 240020612664493360, 480041225328986720, 960082450657973440, 1920164901315946880, 3840329802631893760, 7680659605263787520, 15361319210527575040, 1899600805883975681, 3799201611767951362, 7598403223535902724, 15196806447071805448, 1570575278972436497, 3141150557944872994, 6282301115889745988, 12564602231779491976, 17058753931311055121, 7600313256664629795, 15200626513329259590, 1578215411487344781, 3156430822974689562, 6312861645949379124, 12625723291898758248, 17180996051549587665, 7844797497141694883, 15689594994283389766, 250309364181911181, 500618728363822362, 1001237456727644724, 2002474913455289448, 4004949826910578896, 8009899653821157792, 16019799307642315584, 910717990899762817, 1821435981799525634, 3642871963599051268, 7285743927198102536, 14571487854396205072, 2625781102834929697, 5251562205669859394, 10503124411339718788, 10629955281217814793, 10883617020974006803, 11390940500486390823, 10099744450297464911, 12129038368347000991, 16187626204446073151, 8163900812148359807],
   [15444787661471326384, 2066537707771478369, 4133075415542956738, 8266150831085913476, 16532301662171826952, 8853251727599867409, 17706503455199734818, 6589969295228295237, 13179938590456590474, 15983583639451558165, 838286654518247979, 1676573309036495958, 3353146618072991916, 6706293236145983832, 13412586472291967664, 14143036393908618593, 4074721191073450691, 8149442382146901382, 16298884764293802764, 8386417931843819033, 16772835863687638066, 7028477121417795685, 14056954242835591370, 3902556888927396245, 7805113777854792490, 15610227555709584980, 91574487034301609, 183148974068603218, 366297948137206436, 732595896274412872, 1465191792548825744, 2930383585097651488, 5860767170195302976, 11721534340390605952, 17678461157746977025, 6533884700322779651, 13067769400645559302, 15759245259829495821, 389609895274123291, 779219790548246582, 1558439581096493164, 3116879162192986328, 6233758324385972656, 12467516648771945312, 16864582765295961793, 7211970924634443139, 14423941849268886278, 2330689092580292109, 4661378185160584218, 9322756370321168436, 12880905217608101993, 15385516893754581203, 1947996172337988007, 3895992344675976014, 7791984689351952028, 15583969378703904056, 39058133022939761, 78116266045879522, 156232532091759044, 312465064183518088, 624930128367036176, 1249860256734072352, 2499720513468144704, 4999441026936289408],
   [9037499691518565888, 18074999383037131776, 5021118141689395201, 10042236283378790402, 12014022034509651973, 18263436545985069067, 5397992467585269783, 10795984935170539566, 11215676328879456349, 9749216107083595963, 13733824691132957047, 14785512831590597359, 3053831057223714271, 6107662114447428542, 12215324228894857084, 16360197925541785337, 8509044254339784179, 17018088508679568358, 7518982411401656269, 15037964822803312538, 1252892030435450677, 2505784060870901354, 5011568121741802708, 10023136243483605416, 11975821954719282001, 18187036386404329123, 5245192148423789895, 10490384296847579790, 10604475052233536797, 10832656563005450811, 11289019584549278839, 9895902618423240943, 11721354704598553055, 17678101886162871231, 6533166157154568063, 13066332314309136126, 15756371087156649469, 383861549928430587, 767723099856861174, 1535446199713722348, 3070892399427444696, 6141784798854889392, 12283569597709778784, 16496688663171628737, 8782025729599470979, 17564051459198941958, 6305065303226709517, 12610130606453419034, 17149810680658909237, 7782426755360338027, 15564853510720676054, 826397056483757, 1652794112967514, 3305588225935028, 6611176451870056, 13222352903740112, 26444705807480224, 52889411614960448, 105778823229920896, 211557646459841792, 423115292919683584, 846230585839367168, 1692461171678734336, 3384922343357468672],
   [2288536915972310720, 4577073831944621440, 9154147663889242880, 18308295327778485760, 5487710031172103169, 10975420062344206338, 9268703574013095941, 12772799624991957003, 15169305708522291223, 1515573801873408047, 3031147603746816094, 6062295207493632188, 12124590414987264376, 16178730297726599921, 8146108998709413347, 16292217997418826694, 8373084398093866893, 16746168796187733786, 6975142986417987125, 13950285972835974250, 3689220348928162005, 7378440697856324010, 14756881395712648020, 2996568185467815593, 5993136370935631186, 11986272741871262372, 18207937960708289865, 5286995297031711379, 10573990594063422758, 10771687646665222733, 11167081751868822683, 9652026953062328631, 13539446383090422383, 14396756215505528031, 4582160834267269567, 9164321668534539134, 18328643337069078268, 5528406049753288185, 11056812099506576370, 9431487648337836005, 13098367773641437131, 15820442005821251479, 512003387257634607, 1024006774515269214, 2048013549030538428, 4096027098061076856, 8192054196122153712, 16384108392244307424, 8556865187744828353, 17113730375489656706, 7710266145021832965, 15420532290043665930, 2018026964916157461, 4036053929832314922, 8072107859664629844, 16144215719329259688, 8077079841914732881, 16154159683829465762, 8096967770915145029, 16193935541830290058, 8176519486916793621, 16353038973833587242, 8494726350923387989, 16989452701846775978],
   [425951251187010992, 851902502374021984, 1703805004748043968, 3407610009496087936, 6815220018992175872, 13630440037984351744, 14578743525293386753, 2640292444629293059, 5280584889258586118, 10561169778517172236, 10746046015572721689, 11115798489683820595, 9549460428692324455, 13334313334350414031, 13986490118025511327, 3761628639307236159, 7523257278614472318, 15046514557228944636, 1269991499286714873, 2539982998573429746, 5079965997146859492, 10159931994293718984, 12249413456339509137, 16428376380431089443, 8645401164118392391, 17290802328236784782, 8064410050516089117, 16128820101032178234, 1128759577679488117, 2257519155358976234, 4515038310717952468, 9030076621435904936, 18060153242871809872, 4991425861358751393, 9982851722717502786, 11895252913187076741, 18025898303339918603, 4922915982294968855, 9845831964589937710, 11621213396931946589, 17477819270829658299, 6132600926488142199, 12265201852976284398, 16459953173704639965, 8708554750665493435, 17417109501330986870, 6011181387490799341, 12022362774981598682, 18280118026928962485, 5431355429473056619, 10862710858946113238, 11349128176430603693, 10016119802185890651, 11961789072123852471, 18158970621213470063, 5189060618042071775, 10378121236084143550, 10379948930706664317, 10383604319951705851, 10390915098441788919, 10405536655421955055, 10434779769382287327, 10493265997302951871, 10610238453144280959],
   [6150113915998908336, 12300227831997816672, 16530005131747704513, 8848658666751622531, 17697317333503245062, 6571597051835315725, 13143194103670631450, 15910094665879640117, 691308707374411883, 1382617414748823766, 2765234829497647532, 5530469658995295064, 11060939317990590128, 9439742085305863521, 13114876647577492163, 15853459753693361543, 578038883001854735, 1156077766003709470, 2312155532007418940, 4624311064014837880, 9248622128029675760, 12732636733025116641, 15088979924588610499, 1354922234006046599, 2709844468012093198, 5419688936024186396, 10839377872048372792, 11302462202635122801, 9922787854594928867, 11775125176941928903, 17785642830849622927, 6748248046528071455, 13496496093056142910, 14310855635436969085, 4410359674130151675, 8820719348260303350, 17641438696520606700, 6459839777870039001, 12919679555740078002, 15463065570018533221, 2103093524865892043, 4206187049731784086, 8412374099463568172, 16824748198927136344, 7132301791896792241, 14264603583793584482, 4317855570843382469, 8635711141686764938, 17271422283373529876, 8025649960789579305, 16051299921579158610, 973719218773448869, 1947438437546897738, 3894876875093795476, 7789753750187590952, 15579507500375181904, 30134376365495457, 60268752730990914, 120537505461981828, 241075010923963656, 482150021847927312, 964300043695854624, 1928600087391709248, 3857200174783418496],
   [17072688934206865921, 7628183262456251395, 15256366524912502790, 1689695434653831181, 3379390869307662362, 6758781738615324724, 13517563477230649448, 14352990403785982161, 4494629210828177827, 8989258421656355654, 17978516843312711308, 4828153062240554265, 9656306124481108530, 13548004725927982181, 14413872901180647627, 2310551196403814807, 4621102392807629614, 9242204785615259228, 12719802048196283577, 15063310554930944371, 1303583494690714343, 2607166989381428686, 5214333978762857372, 10428667957525714744, 10481042373589806705, 10585791205717990627, 10795288869974358471, 11214284198487094159, 9746431846298871583, 13728256169563508287, 14774375788451699839, 3031556970945919231, 6063113941891838462, 12126227883783676924, 16182005235319425017, 8152658873895063539, 16305317747790127078, 8399283898836467661, 16798567797672935322, 7079940989388390197, 14159881978776780394, 4108412360809774293, 8216824721619548586, 16433649443239097172, 8655947289734407849, 17311894579468815698, 5800751543766456997, 11601503087532913994, 17438398652031593109, 6053759688892011819, 12107519377784023638, 16144588223320118445, 8077824849896450395, 16155649699792900790, 8099947802842015085, 16199895605684030170, 8188439614624273845, 16376879229248547690, 8542406861753308885, 17084813723506617770, 7652432841055755093, 15304865682111510186, 1786693749051845973, 3573387498103691946],
   [14976565124284137472, 3435935642610794497, 6871871285221588994, 13743742570443177988, 14805348590211039241, 3093502574464598035, 6187005148929196070, 12374010297858392140, 16677570063468855449, 9143788530193924403, 18287577060387848806, 5446273496390829261, 10892546992781658522, 11408800444101694261, 10135464337528071787, 12200478142808214743, 16330505753368500655, 8449659909993214815, 16899319819986429630, 7281445034015378813, 14562890068030757626, 2608585530104034805, 5217171060208069610, 10434342120416139220, 10492390699370655657, 10608487857279688531, 10840682173097754279, 11305070804733885775, 9928005058792454815, 11785559585336980799, 17806511647639726719, 6789985680108279039, 13579971360216558078, 14477806169757799421, 2438417733558118395, 4876835467116236790, 9753670934232473580, 13742734345430712281, 14803332140186107827, 3089469674414735207, 6178939348829470414, 12357878697658940828, 16645306863069952825, 9079262129396119155, 18158524258792238310, 5188167893199608269, 10376335786399216538, 10376378031336810293, 10376462521211997803, 10376631500962372823, 10376969460463122863, 10377645379464622943, 10378997217467623103, 10381700893473623423, 10387108245485624063, 10397922949509625343, 10419552357557627903, 10462811173653633023, 10549328805845643263, 10722364070229663743, 11068434598997704703, 9454732647320092671, 13144857771605950463, 15913422001750278143],
   [11280900933282545665, 9879665315889774595, 11688880099531620359, 17613152676029005839, 6403267736886837279, 12806535473773674558, 15236777406085726333, 1650517197000278267, 3301034394000556534, 6602068788001113068, 13204137576002226136, 16031981610542829489, 935082596700790627, 1870165193401581254, 3740330386803162508, 7480660773606325016, 14961321547212650032, 3405448488467819617, 6810896976935639234, 13621793953871278468, 14561451357067240201, 2605708108176999955, 5211416216353999910, 10422832432707999820, 10469371323954376857, 10562449106447130931, 10748604671432639079, 11120915801403655375, 9559695052131994015, 13354782581229753151, 14027428611784189567, 3843505626824592639, 7687011253649185278, 15374022507298370556, 1925007399425566713, 3850014798851133426, 7700029597702266852, 15400059195404533704, 1977080775637893009, 3954161551275786018, 7908323102551572036, 15816646205103144072, 504411785821419793, 1008823571642839586, 2017647143285679172, 4035294286571358344, 8070588573142716688, 16141177146285433376, 8071002695827080257, 16142005391654160514, 8072659186564534533, 16145318373129069066, 8079285149514351637, 16158570299028703274, 8105789001313620053, 16211578002627240106, 8211804408510693717, 16423608817021387434, 8635866037298988373, 17271732074597976746, 8026269543238473045, 16052539086476946090, 976197548569023829, 1952395097138047658],
   [14999664212729249792, 1176290810287325185, 2352581620574650370, 4705163241149300740, 9410326482298601480, 13056045441562968081, 15735797341664313379, 342714058943758407, 685428117887516814, 1370856235775033628, 2741712471550067256, 5483424943100134512, 10966849886200269024, 9251563221725221313, 12738518920416207747, 15100744299370792711, 1378450983570411023, 2756901967140822046, 5513803934281644092, 11027607868563288184, 9373079186451259633, 12981550849868284387, 15586808158274945991, 44735692165023631, 89471384330047262, 178942768660094524, 357885537320189048, 715771074640378096, 1431542149280756192, 2863084298561512384, 5726168597123024768, 11452337194246049536, 10222537837816782337, 12374625143385635843, 16678799754523342855, 9146247912302899215, 18292495824605798430, 5456111024826728509, 10912222049653457018, 11448150557845291253, 10214164565015265771, 12357878597782602711, 16645306663317276591, 9079261729890766687, 18158523459781533374, 5188166295178198397, 10376332590356396794, 10376371639251170805, 10376449737040718827, 10376605932619814871, 10376918323778006959, 10377543106094391135, 10378792670727159487, 10381291799992696191, 10386290058523769599, 10396286575585916415, 10416279609710210047, 10456265677958797311, 10536237814455971839, 10696182087450320895, 11016070633439019007, 9350004716202721279, 12935401909371207679, 15494510277280792575],
   [15645664676971397121, 162448729557925891, 324897459115851782, 649794918231703564, 1299589836463407128, 2599179672926814256, 5198359345853628512, 10396718691707257024, 10417143841952891265, 10457994142444159747, 10539694743426696711, 10703095945391770639, 11029898349321918495, 9377660147968520255, 12990712772902805631, 15605132004343988479, 81383384303108607, 162766768606217214, 325533537212434428, 651067074424868856, 1302134148849737712, 2604268297699475424, 5208536595398950848, 10417073190797901696, 10457852840134180609, 10539412138806738435, 10702530736151854087, 11028767930842085391, 9375399311008854047, 12986191098983473215, 15596088656505323647, 63296688625778943, 126593377251557886, 253186754503115772, 506373509006231544, 1012747018012463088, 2025494036024926176, 4050988072049852352, 8101976144099704704, 16203952288199409408, 8196552979655032321, 16393105959310064642, 8574860321876342789, 17149720643752685578, 7782246681547890709, 15564493363095781418, 106101806694485, 212203613388970, 424407226777940, 848814453555880, 1697628907111760, 3395257814223520, 6790515628447040, 13581031256894080, 27162062513788160, 54324125027576320, 108648250055152640, 217296500110305280, 434593000220610560, 869186000441221120, 1738372000882442240, 3476744001764884480, 6953488003529768960, 13906976007059537920],
   [15564598646698786816, 316669012705281, 633338025410562, 1266676050821124, 2533352101642248, 5066704203284496, 10133408406568992, 20266816813137984, 40533633626275968, 81067267252551936, 162134534505103872, 324269069010207744, 648538138020415488, 1297076276040830976, 2594152552081661952, 5188305104163323904, 10376610208326647808, 10376926875191672833, 10377560208921722883, 10378826876381822983, 10381360211302023183, 10386426881142423583, 10396560220823224383, 10416826900184825983, 10457360258908029183, 10538426976354435583, 10700560411247248383, 11024827281032873983, 9367518011390431231, 12970428499746627583, 15564563458031632383, 246291678396415, 492583356792830, 985166713585660, 1970333427171320, 3940666854342640, 7881333708685280, 15762667417370560, 31525334834741120, 63050669669482240, 126101339338964480, 252202678677928960, 504405357355857920, 1008810714711715840, 2017621429423431680, 4035242858846863360, 8070485717693726720, 16140971435387453440, 8070591274031120385, 16141182548062240770, 8071013499380695045, 16142026998761390090, 8072702400778993685, 16145404801557987370, 8079458006372188245, 16158916012744376490, 8106480428744966485, 16212960857489932970, 8214570118236079445, 16429140236472158890, 8646928876200531285, 17293857752401062570, 5764677889630950741, 11529355779261901482],
   [15564440317024272385, 9663676419, 19327352838, 38654705676, 77309411352, 154618822704, 309237645408, 618475290816, 1236950581632, 2473901163264, 4947802326528, 9895604653056, 19791209306112, 39582418612224, 79164837224448, 158329674448896, 316659348897792, 633318697795584, 1266637395591168, 2533274791182336, 5066549582364672, 10133099164729344, 20266198329458688, 40532396658917376, 81064793317834752, 162129586635669504, 324259173271339008, 648518346542678016, 1297036693085356032, 2594073386170712064, 5188146772341424128, 10376293544682848256, 10376293547904073729, 10376293554346524675, 10376293567231426567, 10376293593001230351, 10376293644540837919, 10376293747620053055, 10376293953778483327, 10376294366095343871, 10376295190729064959, 10376296839996507135, 10376300138531391487, 10376306735601160191, 10376319929740697599, 10376346318019772415, 10376399094577922047, 10376504647694221311, 10376715753926819839, 10377137966392016895, 10377982391322411007, 10379671241183199231, 10383048940904775679, 10389804340347928575, 10403315139234234367, 10430336737006845951, 10484379932552069119, 10592466323642515455, 10808639105823408127, 11240984670185193471, 9799832789695070207, 11529215047142211583, 17293822571250188287, 5764607527329202175]]

/-- The order certificate evaluations: `2^64 - 1` LFSR steps fix the
register `2^63` and `(2^64 - 1)/q` steps move it, for each prime factor
`q` of `2^64 - 1` (`3·5·17·257·641·65537·6700417`). -/
def allCerts : Bool :=
  (powApplyL (chainHead :: chainTail) (2 ^ 64 - 1) (2 ^ 63) == 2 ^ 63) &&
  (powApplyL (chainHead :: chainTail) 6148914691236517205 (2 ^ 63) != 2 ^ 63) &&
  (powApplyL (chainHead :: chainTail) 3689348814741910323 (2 ^ 63) != 2 ^ 63) &&
  (powApplyL (chainHead :: chainTail) 1085102592571150095 (2 ^ 63) != 2 ^ 63) &&
  (powApplyL (chainHead :: chainTail) 71777214294589695 (2 ^ 63) != 2 ^ 63) &&
  (powApplyL (chainHead :: chainTail) 28778071877862015 (2 ^ 63) != 2 ^ 63) &&
  (powApplyL (chainHead :: chainTail) 281470681808895 (2 ^ 63) != 2 ^ 63) &&
  (powApplyL (chainHead :: chainTail) 2753074036095 (2 ^ 63) != 2 ^ 63)

/-! ## Concrete inputs for witnesses and counterexamples -/

/-- A valid snapshot header whose timestamp is not a whole number of
milliseconds (500000 nanoseconds = 0.5 ms). -/
def hdrHalfMs : Header :=
  { flags := 0, page_size := 512, commit := 1, min_txid := 1,
    max_txid := 1, timestamp := 500000, pre_apply_checksum := none }

/-- A valid uncompressed non-snapshot header. -/
def hdrIncr : Header :=
  { flags := 0, page_size := 512, commit := 3, min_txid := 3,
    max_txid := 5, timestamp := 1700000000000000000,
    pre_apply_checksum := some (2 ^ 63 + 9) }

/-- A valid compressed non-snapshot header. -/
def hdrCompr : Header :=
  { flags := 1, page_size := 512, commit := 3, min_txid := 3,
    max_txid := 5, timestamp := 0, pre_apply_checksum := some (2 ^ 63 + 9) }

/-- One all-sevens page for `hdrHalfMs`. -/
def pagesHalfMs : List (Nat × List Nat) := [(1, List.replicate 512 7)]

/-- Two pages (with a gap) for the incremental headers. -/
def pagesIncr : List (Nat × List Nat) :=
  [(4, List.replicate 512 1), (6, List.replicate 512 2)]

/-- A decompressor stand-in for sessions that never use it. -/
def noDstream : List Nat → Option (List Nat × List Nat) := fun _ => none

/-- The identity "decompressor" matching the identity frame map on the
1036-byte body produced by `hdrCompr`/`pagesIncr` sessions. -/
def idDstream1036 : List Nat → Option (List Nat × List Nat) :=
  fun s => some (s.take 1036, s.drop 1036)

/-- The encoded file of the `hdrHalfMs` session (empty on failure). -/
def fileHalfMs : List Nat :=
  match encodeFile id hdrHalfMs pagesHalfMs (2 ^ 63) with
  | .ok (f, _) => f
  | .error _ => []

/-- The trailer of the `hdrHalfMs` session. -/
def trailerHalfMs : Trailer :=
  match encodeFile id hdrHalfMs pagesHalfMs (2 ^ 63) with
  | .ok (_, t) => t
  | .error _ => { post_apply_checksum := 0, file_checksum := 0 }

/-- A decoder state with pages remaining, for exercising
`decode_page`'s buffer-size check. -/
def stBufCheck : DecSt :=
  { body := [0, 0, 0, 0], rest := [], digest := CRC_INIT,
    page_size := 512, pages_done := false, compressed := false }

/-- A decoder state whose pages are exhausted. -/
def stPagesDone : DecSt :=
  { body := [1, 2, 3], rest := [], digest := CRC_INIT,
    page_size := 512, pages_done := true, compressed := false }

/-- A small encoder state in incremental mode with one page encoded. -/
def stIncr5 : EncSt :=
  { headerBytes := [], body := [], digest := CRC_INIT,
    page_size := 512, is_snapshot := false, last_page_num := some 5 }

/-- A small encoder state in incremental mode with no page encoded. -/
def stIncrNone : EncSt :=
  { headerBytes := [], body := [], digest := CRC_INIT,
    page_size := 512, is_snapshot := false, last_page_num := none }

/-! # Theorems -/

/-! ## Byte-level helper lemmas -/

theorem u32be_length (n : Nat) : (u32be n).length = 4 := rfl

theorem u64be_length (n : Nat) : (u64be n).length = 8 := rfl

theorem beToNat_u32be (n : Nat) (h : n < 2 ^ 32) : beToNat (u32be n) = n := by
  simp only [beToNat, u32be, List.foldl]
  omega

theorem beToNat_u64be (n : Nat) (h : n < 2 ^ 64) : beToNat (u64be n) = n := by
  simp only [beToNat, u64be, List.foldl]
  omega

theorem take_append_len {α : Type} (x y : List α) (n : Nat)
    (h : x.length = n) : (x ++ y).take n = x := by
  subst h
  exact List.take_left x y

theorem drop_append_len {α : Type} (x y : List α) (n : Nat)
    (h : x.length = n) : (x ++ y).drop n = y := by
  subst h
  exact List.drop_left x y

/-- The header image, written with right-nested appends and the padding
made explicit. -/
theorem headerBytes_eq (h : Header) :
    h.headerBytes =
      MAGIC ++ (u32be h.flags ++ (u32be h.page_size ++ (u32be h.commit ++
        (u64be h.min_txid ++ (u64be h.max_txid ++
          (u64be (h.timestamp / 1000000 % 2 ^ 64) ++
            (u64be (h.pre_apply_checksum.getD 0) ++
              List.replicate 52 0))))))) := by
  have hck : (match h.pre_apply_checksum with
      | some c => c
      | none => 0) = h.pre_apply_checksum.getD 0 := by
    cases h.pre_apply_checksum <;> rfl
  simp only [Header.headerBytes, hck, HEADER_SIZE, List.length_append,
    u32be_length, u64be_length, List.append_assoc]
  rfl

theorem headerBytes_length (h : Header) : h.headerBytes.length = 100 := by
  rw [headerBytes_eq]
  simp [u32be_length, u64be_length, MAGIC]

theorem pageSizeValid_iff (s : Nat) :
    pageSizeValid s = true ↔ 512 ≤ s ∧ s ≤ 65536 ∧ s &&& (s - 1) = 0 := by
  simp only [pageSizeValid, Bool.not_eq_true', Bool.or_eq_false_iff,
    decide_eq_false_iff_not, Nat.not_lt, bne_eq_false_iff_eq, gt_iff_lt]
  rw [and_assoc]

/-- `Header::decode_from` on a stream whose first 100 bytes are a header
image with the given fields: every byte-level read resolved, leaving the
field checks and cross-field validation. -/
theorem decode_from_fields (f ps c mn mx ts ck : Nat) (pad r : List Nat)
    (hf : f < 2 ^ 32) (hps : ps < 2 ^ 32) (hc : c < 2 ^ 32)
    (hmn : mn < 2 ^ 64) (hmx : mx < 2 ^ 64) (hts : ts < 2 ^ 64)
    (hck : ck < 2 ^ 64) (hpad : pad.length = 52) :
    Header.decode_from (MAGIC ++ (u32be f ++ (u32be ps ++ (u32be c ++
        (u64be mn ++ (u64be mx ++ (u64be ts ++ (u64be ck ++ pad)))))))
        ++ r) =
      (if 2 ≤ f then .error (.Flags f)
       else if !pageSizeValid ps then .error (.PageSize ps)
       else if c = 0 then .error .Commit
       else if mn = 0 then .error .MinTXID
       else if mx = 0 then .error .MaxTXID
       else
         let hdr : Header :=
           { flags := f, page_size := ps, commit := c, min_txid := mn,
             max_txid := mx, timestamp := ts * 1000000,
             pre_apply_checksum := if ck ≠ 0 then some (chkNew ck) else none }
         match hdr.validate with
         | .error e => .error (.Validation e)
         | .ok _ => .ok (hdr, r)) := by
  have hbuf : (MAGIC ++ (u32be f ++ (u32be ps ++ (u32be c ++ (u64be mn ++
      (u64be mx ++ (u64be ts ++ (u64be ck ++ pad)))))))).length = 100 := by
    simp [MAGIC, u32be_length, u64be_length, hpad]
  have hread : readBytes HEADER_SIZE
      ((MAGIC ++ (u32be f ++ (u32be ps ++ (u32be c ++ (u64be mn ++
        (u64be mx ++ (u64be ts ++ (u64be ck ++ pad)))))))) ++ r) =
      some (MAGIC ++ (u32be f ++ (u32be ps ++ (u32be c ++ (u64be mn ++
        (u64be mx ++ (u64be ts ++ (u64be ck ++ pad))))))), r) := by
    rw [show HEADER_SIZE = 100 from rfl, readBytes,
      if_pos (by rw [List.length_append, hbuf]; omega),
      take_append_len _ _ _ hbuf, drop_append_len _ _ _ hbuf]
  have e4 : (MAGIC ++ (u32be f ++ (u32be ps ++ (u32be c ++ (u64be mn ++
      (u64be mx ++ (u64be ts ++ (u64be ck ++ pad)))))))).drop 4 =
      u32be f ++ (u32be ps ++ (u32be c ++ (u64be mn ++ (u64be mx ++
        (u64be ts ++ (u64be ck ++ pad)))))) :=
    drop_append_len _ _ _ rfl
  have e8 : (MAGIC ++ (u32be f ++ (u32be ps ++ (u32be c ++ (u64be mn ++
      (u64be mx ++ (u64be ts ++ (u64be ck ++ pad)))))))).drop 8 =
      u32be ps ++ (u32be c ++ (u64be mn ++ (u64be mx ++
        (u64be ts ++ (u64be ck ++ pad))))) := by
    rw [show (8 : Nat) = 4 + 4 from rfl, ← List.drop_drop, e4]
    exact drop_append_len _ _ _ rfl
  have e12 : (MAGIC ++ (u32be f ++ (u32be ps ++ (u32be c ++ (u64be mn ++
      (u64be mx ++ (u64be ts ++ (u64be ck ++ pad)))))))).drop 12 =
      u32be c ++ (u64be mn ++ (u64be mx ++ (u64be ts ++ (u64be ck ++ pad)))) := by
    rw [show (12 : Nat) = 8 + 4 from rfl, ← List.drop_drop, e8]
    exact drop_append_len _ _ _ rfl
  have e16 : (MAGIC ++ (u32be f ++ (u32be ps ++ (u32be c ++ (u64be mn ++
      (u64be mx ++ (u64be ts ++ (u64be ck ++ pad)))))))).drop 16 =
      u64be mn ++ (u64be mx ++ (u64be ts ++ (u64be ck ++ pad))) := by
    rw [show (16 : Nat) = 12 + 4 from rfl, ← List.drop_drop, e12]
    exact drop_append_len _ _ _ rfl
  have e24 : (MAGIC ++ (u32be f ++ (u32be ps ++ (u32be c ++ (u64be mn ++
      (u64be mx ++ (u64be ts ++ (u64be ck ++ pad)))))))).drop 24 =
      u64be mx ++ (u64be ts ++ (u64be ck ++ pad)) := by
    rw [show (24 : Nat) = 16 + 8 from rfl, ← List.drop_drop, e16]
    exact drop_append_len _ _ _ rfl
  have e32 : (MAGIC ++ (u32be f ++ (u32be ps ++ (u32be c ++ (u64be mn ++
      (u64be mx ++ (u64be ts ++ (u64be ck ++ pad)))))))).drop 32 =
      u64be ts ++ (u64be ck ++ pad) := by
    rw [show (32 : Nat) = 24 + 8 from rfl, ← List.drop_drop, e24]
    exact drop_append_len _ _ _ rfl
  have e40 : (MAGIC ++ (u32be f ++ (u32be ps ++ (u32be c ++ (u64be mn ++
      (u64be mx ++ (u64be ts ++ (u64be ck ++ pad)))))))).drop 40 =
      u64be ck ++ pad := by
    rw [show (40 : Nat) = 32 + 8 from rfl, ← List.drop_drop, e32]
    exact drop_append_len _ _ _ rfl
  simp only [Header.decode_from, hread]
  rw [take_append_len MAGIC _ 4 rfl]
  rw [if_neg (by simp)]
  rw [e4, take_append_len _ _ 4 (u32be_length f), beToNat_u32be f hf]
  rw [e8, take_append_len _ _ 4 (u32be_length ps), beToNat_u32be ps hps]
  rw [e12, take_append_len _ _ 4 (u32be_length c), beToNat_u32be c hc]
  rw [e16, take_append_len _ _ 8 (u64be_length mn), beToNat_u64be mn hmn]
  rw [e24, take_append_len _ _ 8 (u64be_length mx), beToNat_u64be mx hmx]
  rw [e32, take_append_len _ _ 8 (u64be_length ts), beToNat_u64be ts hts]
  rw [e40, take_append_len _ _ 8 (u64be_length ck), beToNat_u64be ck hck]

/-- `Header::validate` succeeds exactly when none of the three
cross-field conditions is violated. -/
theorem validate_ok_iff (h : Header) :
    h.validate = .ok () ↔ ¬ h.badFields := by
  unfold Header.validate Header.badFields
  by_cases b1 : h.min_txid > h.max_txid
  · rw [if_pos b1]
    exact iff_of_false (by simp) (fun hnb => hnb (Or.inl b1))
  · rw [if_neg b1]
    by_cases b2 : (h.is_snapshot && h.pre_apply_checksum.isSome) = true
    · rw [if_pos b2]
      simp only [Header.is_snapshot, Bool.and_eq_true, beq_iff_eq] at b2
      exact iff_of_false (by simp) (fun hnb => hnb (Or.inr (Or.inl b2)))
    · rw [if_neg b2]
      by_cases b3 : (!h.is_snapshot && h.pre_apply_checksum.isNone) = true
      · rw [if_pos b3]
        simp only [Header.is_snapshot, Bool.and_eq_true, Bool.not_eq_true',
          beq_eq_false_iff_ne, ne_eq, Option.isNone_iff_eq_none] at b3
        exact iff_of_false (by simp) (fun hnb => hnb (Or.inr (Or.inr b3)))
      · rw [if_neg b3]
        refine iff_of_true rfl ?_
        intro hbad
        rcases hbad with hb | hb | hb
        · exact b1 hb
        · exact b2 (by simp [Header.is_snapshot, hb.1, hb.2])
        · exact b3 (by simp [Header.is_snapshot, hb.1, hb.2])

/-- `Header::validate` fails exactly when a cross-field condition is
violated. -/
theorem validate_error_iff (h : Header) :
    (∃ e, h.validate = .error e) ↔ h.badFields := by
  constructor
  · rintro ⟨e, he⟩
    by_contra hbad
    rw [(validate_ok_iff h).mpr hbad] at he
    exact absurd he (by simp)
  · intro hbad
    rcases hv : h.validate with e | u
    · exact ⟨e, rfl⟩
    · cases u
      exact absurd hbad ((validate_ok_iff h).mp hv)

/-- `Header::decode_from` on the wire image of a representable header
(followed by anything): the result is the millisecond-truncated header,
or the same validation error that `Header::validate` reports. -/
theorem decode_from_headerBytes (h : Header) (hwf : h.WF) (r : List Nat) :
    Header.decode_from (h.headerBytes ++ r) =
      match h.validate with
      | .error e => .error (.Validation e)
      | .ok _ => .ok (h.toMillis, r) := by
  obtain ⟨hf, hps, hc0, hc, hmn0, hmn, hmx0, hmx, hpre⟩ := hwf
  have hps2 : h.page_size < 2 ^ 32 := by
    have := (pageSizeValid_iff h.page_size).mp hps
    omega
  have hck : h.pre_apply_checksum.getD 0 < 2 ^ 64 := by
    rcases hpre with hn | hck2
    · simp [hn]
    · exact hck2.2
  rw [headerBytes_eq, List.append_assoc, List.append_assoc,
    List.append_assoc, List.append_assoc, List.append_assoc,
    List.append_assoc, List.append_assoc, List.append_assoc]
  rw [show MAGIC ++ (u32be h.flags ++ (u32be h.page_size ++ (u32be h.commit ++
      (u64be h.min_txid ++ (u64be h.max_txid ++
        (u64be (h.timestamp / 1000000 % 2 ^ 64) ++
          (u64be (h.pre_apply_checksum.getD 0) ++
            (List.replicate 52 0 ++ r)))))))) =
    MAGIC ++ (u32be h.flags ++ (u32be h.page_size ++ (u32be h.commit ++
      (u64be h.min_txid ++ (u64be h.max_txid ++
        (u64be (h.timestamp / 1000000 % 2 ^ 64) ++
          (u64be (h.pre_apply_checksum.getD 0) ++
            List.replicate 52 0))))))) ++ r by
      simp [List.append_assoc]]
  rw [decode_from_fields h.flags h.page_size h.commit h.min_txid h.max_txid
    (h.timestamp / 1000000 % 2 ^ 64) (h.pre_apply_checksum.getD 0)
    (List.replicate 52 0) r (by omega) hps2 hc hmn hmx
    (Nat.mod_lt _ (by norm_num)) hck (by simp)]
  rw [if_neg (by omega), hps]
  simp only [Bool.not_true, Bool.false_eq_true, if_false,
    if_neg (Nat.pos_iff_ne_zero.mp hc0), if_neg (Nat.pos_iff_ne_zero.mp hmn0),
    if_neg (Nat.pos_iff_ne_zero.mp hmx0)]
  have hpre2 : (if h.pre_apply_checksum.getD 0 ≠ 0 then
      some (chkNew (h.pre_apply_checksum.getD 0)) else none) =
      h.pre_apply_checksum := by
    rcases hp : h.pre_apply_checksum with _ | c
    · simp
    · rw [hp] at hpre
      rcases hpre with hn | hck2
      · exact absurd hn (by simp)
      · have h1 : chkNew c = c := by simpa using hck2.1
        have h2 : c ≠ 0 := by
          intro h0
          rw [h0] at h1
          simp [chkNew] at h1
        simp [h2, h1]
  rw [hpre2]
  rfl

/-! ## C5 — header cross-field validation on both paths -/

/-- C5: for every representable header, encoding fails with a validation
error exactly when `min_txid > max_txid`, or the header is a snapshot
(`min_txid = 1`) with `pre_apply_checksum` present, or a non-snapshot
with it absent; decoding the header's wire image fails with a validation
error under exactly the same condition; and a header violating none of
the conditions passes validation. -/
theorem c5_header_validation (h : Header) (hwf : h.WF) :
    ((∃ e, h.encode_into = .error (.Validation e)) ↔ h.badFields) ∧
    (∀ r, (∃ e, Header.decode_from (h.headerBytes ++ r) =
      .error (.Validation e)) ↔ h.badFields) ∧
    (¬ h.badFields → h.validate = .ok ()) := by
  refine ⟨?_, ?_, (validate_ok_iff h).mpr⟩
  · unfold Header.encode_into
    rcases hv : h.validate with e | u
    · simp only [hv]
      constructor
      · intro _
        exact (validate_error_iff h).mp ⟨e, hv⟩
      · intro _
        exact ⟨e, rfl⟩
    · simp only [hv]
      constructor
      · rintro ⟨e, he⟩
        exact absurd he (by simp)
      · intro hbad
        rcases (validate_error_iff h).mpr hbad with ⟨e, he⟩
        rw [he] at hv
        exact absurd hv (by simp)
  · intro r
    rw [decode_from_headerBytes h hwf r]
    rcases hv : h.validate with e | u
    · simp only
      constructor
      · intro _
        exact (validate_error_iff h).mp ⟨e, hv⟩
      · intro _
        exact ⟨e, rfl⟩
    · simp only
      constructor
      · rintro ⟨e, he⟩
        exact absurd he (by simp)
      · intro hbad
        rcases (validate_error_iff h).mpr hbad with ⟨e, he⟩
        rw [he] at hv
        exact absurd hv (by simp)

/-- C5 witness: a valid non-snapshot header passes validation, and a
snapshot header with a pre-apply checksum is rejected on both paths. -/
theorem c5_header_validation_witness :
    hdrIncr.validate = .ok () ∧
    (∃ e, Header.encode_into
      { hdrIncr with min_txid := 1 } = .error (.Validation e)) := by
  constructor
  · exact (c5_header_validation hdrIncr (by decide)).2.2 (by decide)
  · exact ((c5_header_validation { hdrIncr with min_txid := 1 }
      (by decide)).1).mpr (by decide)

/-! ## C9 — header wire layout -/

/-- C9: for every valid header, `Header::encode_into` emits exactly 100
bytes: the ASCII magic `"LTX1"` (`[76, 84, 88, 49]`), then big-endian
`flags` (u32), `page_size` (u32), `commit` (u32), `min_txid` (u64),
`max_txid` (u64), the timestamp in milliseconds since the Unix epoch
(u64, truncated), `pre_apply_checksum` (u64, `0` when absent), followed
by zero padding up to offset 100. -/
theorem c9_header_layout (h : Header) (hval : h.validate = .ok ()) :
    h.encode_into = .ok (MAGIC ++ (u32be h.flags ++ (u32be h.page_size ++
      (u32be h.commit ++ (u64be h.min_txid ++ (u64be h.max_txid ++
        (u64be (h.timestamp / 1000000 % 2 ^ 64) ++
          (u64be (h.pre_apply_checksum.getD 0) ++
            List.replicate 52 0)))))))) ∧
    h.headerBytes.length = 100 ∧
    h.headerBytes.take 4 = MAGIC := by
  refine ⟨?_, headerBytes_length h, ?_⟩
  · simp only [Header.encode_into, hval]
    rw [headerBytes_eq]
  · rw [headerBytes_eq]
    exact take_append_len _ _ _ rfl

/-- C9 witness: the layout theorem applied to a concrete valid
header. -/
theorem c9_header_layout_witness :
    Header.encode_into hdrIncr = .ok (MAGIC ++ (u32be 0 ++ (u32be 512 ++
      (u32be 3 ++ (u64be 3 ++ (u64be 5 ++ (u64be 1700000000000 ++
        (u64be (2 ^ 63 + 9) ++ List.replicate 52 0)))))))) :=
  (c9_header_layout hdrIncr (by decide)).1

/-! ## C1 — snapshot sequencing and the lock-page skip -/

/-- C1 (code bug): with `page_size = 65536` the lock page is 16385, and a
snapshot encoder that has successfully encoded pages 1..16384 (so
`last_page_num = some 16384`, a reachable state) rejects page 16386 with
a nonsequential-pages error — although `last + 1 = 16385` is exactly the
lock page, so by the specification the skip to `last + 2 = 16386` must
succeed.  In `Encoder::validate_page_num` the condition
`last + 1 != page_num || last + 1 == lock && last + 2 != page_num`
groups as `A || (B && C)` under Rust precedence, so the skip case
(`A` true, `B` true, `C` false) still errors, and the `B && C` disjunct
is dead code (when `A` is false it is unreachable).  The claimed skip
never succeeds. -/
theorem c1_lock_page_skip_rejected :
    lock_page 65536 = 16385 ∧
    validate_page_num 65536 true (some 16384) 16386 =
      .error (.NonsequentialPages 16384 16386) ∧
    (∀ st : EncSt, ∀ data : List Nat,
      st.page_size = 65536 → st.is_snapshot = true →
      st.last_page_num = some 16384 →
      encode_page st 16386 data =
        (st, .error (.NonsequentialPages 16384 16386))) := by
  refine ⟨rfl, by rfl, ?_⟩
  intro st data h1 h2 h3
  simp [encode_page, validate_page_num, h1, h2, h3, lock_page]

/-! ## C4 — TXID addition overflowing to zero -/

/-- C4 (counterexample): adding `2^64 - 1` to transaction id 1 wraps the
64-bit sum to zero; the implementation panics via
`assert!(sum != 0, "TX ID overflow")` instead of returning an error
result, contradicting the claim that the operation "fails with an
explicit error result" and "neither ... nor aborts the program". -/
theorem c4_add_wrap_panics_counterexample :
    TXID.add 1 (2 ^ 64 - 1) = .panicked "TX ID overflow" := by decide

/-- C4 (amended): for every transaction id `t` and 64-bit delta `d`
whose sum wraps to zero modulo `2^64`, `t + d` does not silently produce
a zero transaction id: it panics with the message "TX ID overflow"
(an `assert!`), rather than returning an error result. -/
theorem c4_add_overflow_panics (t d : Nat) (_ht0 : 0 < t) (_ht : t < 2 ^ 64)
    (_hd : d < 2 ^ 64) (hw : (t + d) % 2 ^ 64 = 0) :
    TXID.add t d = .panicked "TX ID overflow" := by
  unfold TXID.add
  simp only [hw]
  rfl

/-- C4 witness: the amended theorem applied at `t = 1`,
`d = 2^64 - 1`. -/
theorem c4_add_overflow_panics_witness :
    TXID.add 1 (2 ^ 64 - 1) = .panicked "TX ID overflow" ∧
    (1 + (2 ^ 64 - 1)) % 2 ^ 64 = 0 :=
  ⟨c4_add_overflow_panics 1 (2 ^ 64 - 1) (by decide) (by decide)
    (by decide) (by decide), by decide⟩

/-! ## C6 — decode_page buffer-size check -/

/-- C6: for every decoder state with pages remaining and every buffer
whose length differs from the header's page size, `decode_page` rejects
the call with an invalid-buffer-size error and leaves the state (hence
the source position and digest) unchanged; when pages are already
exhausted it returns "no more pages" immediately, also without touching
the state. -/
theorem c6_decode_page_buffer_check (st : DecSt) (buf_len : Nat) :
    (st.pages_done = false → buf_len ≠ st.page_size →
      decode_page st buf_len =
        (st, .error (.InvalidBufferSize buf_len st.page_size))) ∧
    (st.pages_done = true → decode_page st buf_len = (st, .ok none)) := by
  constructor
  · intro h1 h2
    simp [decode_page, h1, h2]
  · intro h1
    simp [decode_page, h1]

/-- C6 witness: a wrong-sized buffer on a live state, and any buffer on
an exhausted state. -/
theorem c6_decode_page_buffer_check_witness :
    decode_page stBufCheck 0 =
      (stBufCheck, .error (.InvalidBufferSize 0 512)) ∧
    decode_page stPagesDone 0 = (stPagesDone, .ok none) :=
  ⟨(c6_decode_page_buffer_check stBufCheck 0).1 rfl (by decide),
   (c6_decode_page_buffer_check stPagesDone 0).2 rfl⟩

/-! ## C7 — lock-page rejection -/

/-- C7: `lock_page` computes `0x40000000 / page_size + 1`, and for every
encoder state (snapshot or incremental, any history) and any data,
encoding the lock-page number fails with a lock-page error naming that
page number, leaving the state unchanged. -/
theorem c7_lock_page_rejection (st : EncSt) (data : List Nat) :
    lock_page st.page_size = 0x40000000 / st.page_size + 1 ∧
    encode_page st (lock_page st.page_size) data =
      (st, .error (.LockPage (lock_page st.page_size))) := by
  refine ⟨rfl, ?_⟩
  simp [encode_page, validate_page_num]

/-! ## C8 — incremental-mode ordering -/

/-- C8: for every encoder in incremental mode (created from a header
with `min_txid > 1`), with a correctly sized buffer and a non-lock page
number: the first call succeeds with any page number; a subsequent call
succeeds iff the page number strictly exceeds the previous one
(gaps permitted), and otherwise fails with an out-of-order error naming
both page numbers. -/
theorem c8_incremental_ordering (st : EncSt) (pn : Nat) (data : List Nat)
    (hsnap : st.is_snapshot = false)
    (hlock : pn ≠ lock_page st.page_size)
    (hlen : data.length = st.page_size) :
    (st.last_page_num = none → (encode_page st pn data).2 = .ok ()) ∧
    (∀ last, st.last_page_num = some last →
      (last < pn → (encode_page st pn data).2 = .ok ()) ∧
      (pn ≤ last → encode_page st pn data =
        (st, .error (.OutOfOrderPage last pn)))) := by
  constructor
  · intro h1
    simp [encode_page, validate_page_num, hsnap, hlock, h1, hlen]
  · intro last h1
    constructor
    · intro hlt
      simp [encode_page, validate_page_num, hsnap, hlock, h1, hlen,
        Nat.not_le.mpr hlt]
    · intro hle
      simp [encode_page, validate_page_num, hsnap, hlock, h1, hlen, hle]

/-- C8 witness: with `last = 5`, page 100 succeeds (gap allowed), page 3
fails citing `(5, 3)`; with no previous page, page 7 succeeds. -/
theorem c8_incremental_ordering_witness :
    (encode_page stIncr5 100 (List.replicate 512 0)).2 = .ok () ∧
    encode_page stIncr5 3 (List.replicate 512 0) =
      (stIncr5, .error (.OutOfOrderPage 5 3)) ∧
    (encode_page stIncrNone 7 (List.replicate 512 0)).2 = .ok () :=
  ⟨((c8_incremental_ordering stIncr5 100 (List.replicate 512 0) rfl
      (by decide) (by decide)).2 5 rfl).1 (by decide),
   ((c8_incremental_ordering stIncr5 3 (List.replicate 512 0) rfl
      (by decide) (by decide)).2 5 rfl).2 (by decide),
   (c8_incremental_ordering stIncrNone 7 (List.replicate 512 0) rfl
      (by decide) (by decide)).1 rfl⟩

/-! ## C10 — encode_page atomicity on validation errors -/

/-- C10: whenever `encode_page` returns an error (all errors it can
return are validation errors: lock page, wrong first snapshot page,
nonsequential pages, out-of-order pages, buffer-size mismatch — the
checks all precede the writes), the state is returned unchanged: no
bytes reach the sink, the digest is untouched, and `last_page_num` is
preserved, so a subsequent call behaves as if the failed one never
happened. -/
theorem c10_encode_page_atomic (st st2 : EncSt) (pn : Nat)
    (data : List Nat) (e : EncError)
    (h : encode_page st pn data = (st2, .error e)) :
    st2 = st ∧ st2.body = st.body ∧ st2.digest = st.digest ∧
      st2.last_page_num = st.last_page_num := by
  have hst : st2 = st := by
    unfold encode_page at h
    cases hv : validate_page_num st.page_size st.is_snapshot
        st.last_page_num pn with
    | error e2 =>
      rw [hv] at h
      exact (Prod.mk.injEq _ _ _ _ ▸ h).1.symm
    | ok u =>
      rw [hv] at h
      by_cases hlen : data.length ≠ st.page_size
      · simp only [if_pos hlen] at h
        exact (Prod.mk.injEq _ _ _ _ ▸ h).1.symm
      · simp only [if_neg hlen] at h
        exact absurd (Prod.mk.injEq _ _ _ _ ▸ h).2 (by simp)
  exact ⟨hst, by rw [hst], by rw [hst], by rw [hst]⟩

/-- C10 witness: a buffer-size violation returns the state unchanged. -/
theorem c10_encode_page_atomic_witness :
    (encode_page stIncr5 9 [1, 2, 3]).1 = stIncr5 :=
  (c10_encode_page_atomic stIncr5 (encode_page stIncr5 9 [1, 2, 3]).1 9
    [1, 2, 3] (.InvalidBufferSize 3 512) rfl).1

/-! ## CRC digest lemmas -/

theorem crcUpdate_cons (c b : Nat) (bs : List Nat) :
    crcUpdate c (b :: bs) = crcUpdate (crcByte c b) bs := by
  rw [crcUpdate]
  exact ite_self _

theorem crcUpdate_eq_foldl (c : Nat) (bs : List Nat) :
    crcUpdate c bs = bs.foldl crcByte c := by
  induction bs generalizing c with
  | nil => rfl
  | cons b bs ih => rw [crcUpdate_cons, List.foldl_cons, ih]

theorem crcUpdate_append (c : Nat) (x y : List Nat) :
    crcUpdate c (x ++ y) = crcUpdate (crcUpdate c x) y := by
  induction x generalizing c with
  | nil => rfl
  | cons b bs ih => rw [List.cons_append, crcUpdate_cons, crcUpdate_cons, ih]

theorem crcShift_lt (c : Nat) (h : c < 2 ^ 64) : crcShift c < 2 ^ 64 := by
  unfold crcShift
  split
  · exact Nat.xor_lt_two_pow (by omega) (by norm_num [CRC_POLY])
  · omega

theorem crcShiftN_lt (n c : Nat) (h : c < 2 ^ 64) : crcShiftN n c < 2 ^ 64 := by
  induction n generalizing c with
  | zero => exact h
  | succ n ih => exact ih _ (crcShift_lt c h)

theorem crcByte_lt (c b : Nat) (h : c < 2 ^ 64) : crcByte c b < 2 ^ 64 :=
  crcShiftN_lt 8 _ (Nat.xor_lt_two_pow h (by have := Nat.mod_lt b (y := 256) (by norm_num); omega))

theorem crcUpdate_lt (c : Nat) (bs : List Nat) (h : c < 2 ^ 64) :
    crcUpdate c bs < 2 ^ 64 := by
  induction bs generalizing c with
  | nil => exact h
  | cons b bs ih => rw [crcUpdate_cons]; exact ih _ (crcByte_lt c b h)

theorem crcFinalize_lt (c : Nat) (h : c < 2 ^ 64) : crcFinalize c < 2 ^ 64 :=
  Nat.xor_lt_two_pow h (by norm_num [CRC_INIT])

theorem chkNew_lt (c : Nat) (h : c < 2 ^ 64) : chkNew c < 2 ^ 64 := by
  unfold chkNew
  have h1 : c < 2 ^ 64 := h
  have h2 : (2 ^ 63 : Nat) < 2 ^ 64 := by norm_num
  exact Nat.or_lt_two_pow h1 h2

theorem chkNew_idem (c : Nat) : chkNew (chkNew c) = chkNew c := by
  unfold chkNew
  rw [Nat.or_assoc, Nat.or_self]

/-! ## Page-record stream lemmas -/

theorem pagesBytes_nil : pagesBytes [] = [] := rfl

theorem pagesBytes_cons (pg : Nat × List Nat) (rest : List (Nat × List Nat)) :
    pagesBytes (pg :: rest) = (u32be pg.1 ++ pg.2) ++ pagesBytes rest := rfl

theorem length_le_pagesBytes (pages : List (Nat × List Nat)) :
    pages.length ≤ (pagesBytes pages).length := by
  induction pages with
  | nil => simp [pagesBytes_nil]
  | cons pg rest ih =>
    rw [pagesBytes_cons]
    simp only [List.length_cons, List.length_append, u32be_length]
    omega

theorem seqOk_cons (ps : Nat) (snap : Bool) (last : Option Nat) (pn : Nat)
    (rest : List Nat) :
    seqOk ps snap last (pn :: rest) = true ↔
      validate_page_num ps snap last pn = .ok () ∧
        seqOk ps snap (some pn) rest = true := by
  rw [seqOk, Bool.and_eq_true]
  rcases hv : validate_page_num ps snap last pn with e | u
  · simp [hv]
  · cases u
    simp [hv]

/-! ## Encoder session characterization -/

/-- A successful `encode_page` call: the page-header and page bytes are
appended to the body and fed to the digest, and the page number is
recorded. -/
theorem encode_page_ok (st : EncSt) (pn : Nat) (data : List Nat)
    (hv : validate_page_num st.page_size st.is_snapshot st.last_page_num pn
      = .ok ())
    (hlen : data.length = st.page_size) :
    encode_page st pn data =
      ({ st with body := st.body ++ (u32be pn ++ data),
                 digest := crcUpdate st.digest (u32be pn ++ data),
                 last_page_num := some pn }, .ok ()) := by
  unfold encode_page
  rw [hv]
  simp only [hlen, ne_eq, not_true_eq_false, if_false, ite_false,
    if_neg (fun hh : ¬ st.page_size = st.page_size => hh rfl)]
  rfl

/-- A successful run of the encoder page loop: the body receives the
concatenated page records, the digest is fed the same bytes, and the
other fields are preserved. -/
theorem encodePagesLoop_ok (pages : List (Nat × List Nat)) (st : EncSt)
    (hseq : seqOk st.page_size st.is_snapshot st.last_page_num
      (pages.map (fun pg => pg.1)) = true)
    (hlen : ∀ pg ∈ pages, pg.2.length = st.page_size) :
    ∃ st2, encodePagesLoop pages st = .ok st2 ∧
      st2.headerBytes = st.headerBytes ∧
      st2.body = st.body ++ pagesBytes pages ∧
      st2.digest = crcUpdate st.digest (pagesBytes pages) ∧
      st2.page_size = st.page_size ∧
      st2.is_snapshot = st.is_snapshot := by
  induction pages generalizing st with
  | nil =>
    exact ⟨st, rfl, rfl, (List.append_nil _).symm, rfl, rfl, rfl⟩
  | cons pg rest ih =>
    rw [List.map_cons] at hseq
    rcases (seqOk_cons _ _ _ _ _).mp hseq with ⟨hv, hseq2⟩
    have hlen1 : pg.2.length = st.page_size := hlen pg (by simp)
    rw [encodePagesLoop, encode_page_ok st pg.1 pg.2 hv hlen1]
    rcases ih { st with
        body := st.body ++ (u32be pg.1 ++ pg.2),
        digest := crcUpdate st.digest (u32be pg.1 ++ pg.2),
        last_page_num := some pg.1 } hseq2
      (fun pg2 hm => hlen pg2 (by simp [hm])) with
      ⟨st2, hrun, hh, hb, hd, hp, hs⟩
    refine ⟨st2, hrun, hh, ?_, ?_, hp, hs⟩
    · rw [hb, pagesBytes_cons]
      simp [List.append_assoc]
    · rw [pagesBytes_cons,
        crcUpdate_append st.digest (u32be pg.1 ++ pg.2) (pagesBytes rest)]
      exact hd

/-! ## Decoder session characterization -/

/-- `decode_page` on a stream positioned at a page record. -/
theorem decode_page_record (st : DecSt) (hdone : st.pages_done = false)
    (pn : Nat) (hpn0 : pn ≠ 0) (hpn : pn < 2 ^ 32) (data tail : List Nat)
    (hdata : data.length = st.page_size)
    (hbody : st.body = u32be pn ++ (data ++ tail)) :
    decode_page st st.page_size =
      ({ st with body := tail,
                 digest := crcUpdate (crcUpdate st.digest (u32be pn)) data },
        .ok (some (pn, data))) := by
  have hrb : readBytes PAGE_HEADER_SIZE st.body =
      some (u32be pn, data ++ tail) := by
    rw [hbody, show PAGE_HEADER_SIZE = 4 from rfl, readBytes,
      if_pos (by simp [u32be_length]),
      take_append_len _ _ 4 (u32be_length pn),
      drop_append_len _ _ 4 (u32be_length pn)]
  have hrb2 : readBytes st.page_size (data ++ tail) = some (data, tail) := by
    rw [readBytes, if_pos (by simp [hdata]),
      take_append_len _ _ _ hdata, drop_append_len _ _ _ hdata]
  simp only [decode_page, hdone, Bool.false_eq_true, if_false, ne_eq,
    not_true_eq_false, ite_false, hrb, hrb2, beToNat_u32be pn hpn, hpn0,
    if_neg hpn0]

/-- `decode_page` on a stream positioned at the sentinel. -/
theorem decode_page_sentinel (st : DecSt) (hdone : st.pages_done = false)
    (tail : List Nat) (hbody : st.body = u32be 0 ++ tail) :
    decode_page st st.page_size =
      ({ st with body := tail, digest := crcUpdate st.digest (u32be 0),
                 pages_done := true }, .ok none) := by
  have hrb : readBytes PAGE_HEADER_SIZE st.body = some (u32be 0, tail) := by
    rw [hbody, show PAGE_HEADER_SIZE = 4 from rfl, readBytes,
      if_pos (by simp [u32be_length]),
      take_append_len _ _ 4 (u32be_length 0),
      drop_append_len _ _ 4 (u32be_length 0)]
  simp only [decode_page, hdone, Bool.false_eq_true, if_false, ne_eq,
    not_true_eq_false, ite_false, hrb, beToNat_u32be 0 (by norm_num),
    if_pos rfl, if_true, ite_true]

/-- A successful run of the decoder page loop over the wire image of a
page list followed by the sentinel: the pages are recovered in order and
the digest is fed the same bytes the encoder digested. -/
theorem decodePages_ok (pages : List (Nat × List Nat)) (fuel : Nat)
    (st : DecSt) (acc : List (Nat × List Nat)) (tail : List Nat)
    (hfuel : pages.length + 1 ≤ fuel)
    (hdone : st.pages_done = false)
    (hbody : st.body = pagesBytes pages ++ (u32be 0 ++ tail))
    (hpn : ∀ pg ∈ pages, pg.1 ≠ 0 ∧ pg.1 < 2 ^ 32)
    (hlen : ∀ pg ∈ pages, pg.2.length = st.page_size) :
    decodePages fuel st acc =
      .ok ({ st with
        body := tail,
        digest := crcUpdate st.digest (pagesBytes pages ++ u32be 0),
        pages_done := true }, acc ++ pages) := by
  induction pages generalizing fuel st acc with
  | nil =>
    rcases fuel with _ | f
    · omega
    rw [decodePages, decode_page_sentinel st hdone tail
      (by rw [hbody, pagesBytes_nil, List.nil_append])]
    simp [pagesBytes_nil]
  | cons pg rest ih =>
    rcases fuel with _ | f
    · simp at hfuel
    have hbody2 : st.body = u32be pg.1 ++
        (pg.2 ++ (pagesBytes rest ++ (u32be 0 ++ tail))) := by
      rw [hbody, pagesBytes_cons]
      simp [List.append_assoc]
    simp only [decodePages, decode_page_record st hdone pg.1
      (hpn pg (by simp)).1 (hpn pg (by simp)).2 pg.2
      (pagesBytes rest ++ (u32be 0 ++ tail)) (hlen pg (by simp)) hbody2]
    rw [ih f ({ st with
        body := pagesBytes rest ++ (u32be 0 ++ tail),
        digest := crcUpdate (crcUpdate st.digest (u32be pg.1)) pg.2 })
      (acc ++ [pg]) (by simp at hfuel ⊢; omega) hdone rfl
      (fun pg2 hm => hpn pg2 (by simp [hm]))
      (fun pg2 hm => hlen pg2 (by simp [hm]))]
    simp [pagesBytes_cons, List.append_assoc, crcUpdate_append]

/-- `Trailer::decode_from` on a well-formed trailer image. -/
theorem trailer_decode (post fc : Nat) (r : List Nat)
    (hpost : chkNew post = post) (hpostlt : post < 2 ^ 64)
    (hfc : chkNew fc = fc) (hfclt : fc < 2 ^ 64) :
    Trailer.decode_from ((u64be post ++ u64be fc) ++ r) =
      .ok { post_apply_checksum := post, file_checksum := fc } := by
  have hlen : (u64be post ++ u64be fc).length = 16 := by
    simp [u64be_length]
  have hrb : readBytes TRAILER_SIZE ((u64be post ++ u64be fc) ++ r) =
      some (u64be post ++ u64be fc, r) := by
    rw [show TRAILER_SIZE = 16 from rfl, readBytes,
      if_pos (by rw [List.length_append, hlen]; omega),
      take_append_len _ _ 16 hlen, drop_append_len _ _ 16 hlen]
  have ht8 : (u64be post ++ u64be fc).take 8 = u64be post :=
    take_append_len _ _ 8 (u64be_length post)
  have hd8 : (u64be post ++ u64be fc).drop 8 = u64be fc :=
    drop_append_len _ _ 8 (u64be_length post)
  have htk : (u64be fc).take 8 = u64be fc := by
    rw [← u64be_length fc]
    exact List.take_length _
  simp only [Trailer.decode_from, hrb, ht8, hd8, htk,
    beToNat_u64be post hpostlt, beToNat_u64be fc hfclt, hpost, hfc, ne_eq,
    not_true_eq_false, if_false, ite_false]

/-- `Decoder::finish` on an uncompressed session positioned at a
well-formed trailer whose file checksum matches the digest. -/
theorem finish_ok (st : DecSt) (post fc : Nat) (r : List Nat)
    (hpost : chkNew post = post) (hpostlt : post < 2 ^ 64)
    (hfc : chkNew fc = fc) (hfclt : fc < 2 ^ 64)
    (hsrc : (if st.compressed = true then
        (if st.body = [] then some st.rest else none)
      else some st.body) = some ((u64be post ++ u64be fc) ++ r))
    (hmatch : chkNew (crcFinalize (crcUpdate st.digest (u64be post))) = fc) :
    Decoder.finish st =
      .ok { post_apply_checksum := post, file_checksum := fc } := by
  unfold Decoder.finish
  rw [hsrc]
  simp only [trailer_decode post fc r hpost hpostlt hfc hfclt]
  simp only [hmatch, ne_eq, not_true_eq_false, if_false, ite_false]

/-- `Header.toMillis` is the identity on headers whose timestamp is a
whole number of milliseconds below `2^64` milliseconds. -/
theorem toMillis_eq_self (h : Header) (hdvd : 1000000 ∣ h.timestamp)
    (hts : h.timestamp < 1000000 * 2 ^ 64) : h.toMillis = h := by
  obtain ⟨k, hk⟩ := hdvd
  have hklt : k < 2 ^ 64 := by
    rw [hk] at hts
    exact Nat.lt_of_mul_lt_mul_left hts
  have he : h.timestamp / 1000000 % 2 ^ 64 * 1000000 = h.timestamp := by
    rw [hk, Nat.mul_div_cancel_left k (by norm_num),
      Nat.mod_eq_of_lt hklt, Nat.mul_comm]
  rw [Header.toMillis, he]

/-! ## C2 — round trip -/

/-- C2 (counterexample): a valid snapshot header whose timestamp is
0.5 ms (500000 ns) past the epoch.  Encoding truncates the timestamp to
whole milliseconds, so decoding the produced file yields a header whose
timestamp is 0 — not the identical header the claim requires (the pages
and the trailer do round-trip). -/
theorem c2_roundtrip_counterexample :
    encodeFile id hdrHalfMs pagesHalfMs (2 ^ 63) =
      .ok (fileHalfMs, trailerHalfMs) ∧
    decodeFile noDstream fileHalfMs =
      .ok ({ hdrHalfMs with timestamp := 0 }, pagesHalfMs, trailerHalfMs) ∧
    ({ hdrHalfMs with timestamp := 0 } : Header) ≠ hdrHalfMs := by
  refine ⟨by rfl, by rfl, by decide⟩

set_option maxHeartbeats 1600000 in
/-- C2 (amended): round trip.  For every representable valid header
whose timestamp is a whole number of milliseconds (below `2^64` ms),
every page sequence obeying the header's mode ordering rule, with
correctly sized buffers and representable nonzero page numbers, and
every post-apply checksum: the encode session succeeds, and the decode
session on the produced bytes returns the identical header, the
identical pages in the same order, and then `Decoder::finish` succeeds
with the same trailer `Encoder::finish` returned.  This covers the
compression flag clear (the body is raw, the codec is unused) and set,
where the external LZ4 frame codec is abstracted by any pair
`(C, Dstream)` such that decompressing `C body` followed by anything
returns exactly `body` and the trailing bytes. -/
theorem c2_roundtrip (C : List Nat → List Nat)
    (Dstream : List Nat → Option (List Nat × List Nat))
    (hdr : Header) (pages : List (Nat × List Nat)) (post : Nat)
    (hwf : hdr.WF) (hval : hdr.validate = .ok ())
    (hdvd : 1000000 ∣ hdr.timestamp)
    (hts : hdr.timestamp < 1000000 * 2 ^ 64)
    (hseq : seqOk hdr.page_size hdr.is_snapshot none
      (pages.map (fun pg => pg.1)) = true)
    (hlen : ∀ pg ∈ pages, pg.2.length = hdr.page_size)
    (hpn : ∀ pg ∈ pages, pg.1 ≠ 0 ∧ pg.1 < 2 ^ 32)
    (hpost : chkNew post = post) (hpostlt : post < 2 ^ 64)
    (hcomp : hdr.isCompressed = true → ∀ t, Dstream
      (C (pagesBytes pages ++ u32be 0) ++ t) =
      some (pagesBytes pages ++ u32be 0, t)) :
    ∃ file t, encodeFile C hdr pages post = .ok (file, t) ∧
      decodeFile Dstream file = .ok (hdr, pages, t) := by
  have htm : hdr.toMillis = hdr := toMillis_eq_self hdr hdvd hts
  -- the encoder session
  have hnew : Encoder.new hdr = .ok
      { headerBytes := hdr.headerBytes, body := [],
        digest := crcUpdate CRC_INIT hdr.headerBytes,
        page_size := hdr.page_size, is_snapshot := hdr.is_snapshot,
        last_page_num := none } := by
    simp only [Encoder.new, Header.encode_into, hval]
  rcases encodePagesLoop_ok pages
      { headerBytes := hdr.headerBytes, body := [],
        digest := crcUpdate CRC_INIT hdr.headerBytes,
        page_size := hdr.page_size, is_snapshot := hdr.is_snapshot,
        last_page_num := none } hseq hlen with
    ⟨stN, hrun, hh, hb, hd, hp, hs⟩
  have hb2 : stN.body = pagesBytes pages := hb
  have hd2 : stN.digest =
      crcUpdate (crcUpdate CRC_INIT hdr.headerBytes) (pagesBytes pages) := hd
  -- the produced file and trailer
  have hfc : ∀ d : Nat, d < 2 ^ 64 → chkNew (crcFinalize d) < 2 ^ 64 :=
    fun d hdlt => chkNew_lt _ (crcFinalize_lt _ hdlt)
  have hdig0 : crcUpdate CRC_INIT hdr.headerBytes < 2 ^ 64 :=
    crcUpdate_lt _ _ (by norm_num [CRC_INIT])
  have hfin : Encoder.finish C hdr.isCompressed stN post =
      ((hdr.headerBytes ++
          (if hdr.isCompressed then C (pagesBytes pages ++ u32be 0)
            else pagesBytes pages ++ u32be 0)) ++
        (u64be post ++ u64be (chkNew (crcFinalize (crcUpdate
          (crcUpdate stN.digest (u32be 0)) (u64be post))))),
       { post_apply_checksum := post,
         file_checksum := chkNew (crcFinalize (crcUpdate
           (crcUpdate stN.digest (u32be 0)) (u64be post))) }) := by
    unfold Encoder.finish
    rw [hb2, hh]
    rfl
  have hencode : encodeFile C hdr pages post = .ok
      ((hdr.headerBytes ++
          (if hdr.isCompressed then C (pagesBytes pages ++ u32be 0)
            else pagesBytes pages ++ u32be 0)) ++
        (u64be post ++ u64be (chkNew (crcFinalize (crcUpdate
          (crcUpdate stN.digest (u32be 0)) (u64be post))))),
       { post_apply_checksum := post,
         file_checksum := chkNew (crcFinalize (crcUpdate
           (crcUpdate stN.digest (u32be 0)) (u64be post))) }) := by
    unfold encodeFile
    simp only [hnew, hrun, hfin, Except.bind, bind]
  refine ⟨_, _, hencode, ?_⟩
  -- the decode session
  have hdlt : crcUpdate (crcUpdate stN.digest (u32be 0)) (u64be post)
      < 2 ^ 64 := by
    apply crcUpdate_lt
    apply crcUpdate_lt
    rw [hd2]
    exact crcUpdate_lt _ _ hdig0
  set fc := chkNew (crcFinalize (crcUpdate
    (crcUpdate stN.digest (u32be 0)) (u64be post))) with hfcdef
  have hfclt : fc < 2 ^ 64 := hfc _ hdlt
  have hfcnew : chkNew fc = fc := chkNew_idem _
  have hfile : (hdr.headerBytes ++
        (if hdr.isCompressed then C (pagesBytes pages ++ u32be 0)
          else pagesBytes pages ++ u32be 0)) ++
      (u64be post ++ u64be fc) =
      hdr.headerBytes ++
        ((if hdr.isCompressed then C (pagesBytes pages ++ u32be 0)
          else pagesBytes pages ++ u32be 0) ++
          (u64be post ++ u64be fc)) := by
    rw [List.append_assoc]
  rw [hfile]
  -- header decode and initial decoder state
  have hhdrdec : Header.decode_from (hdr.headerBytes ++
      ((if hdr.isCompressed then C (pagesBytes pages ++ u32be 0)
        else pagesBytes pages ++ u32be 0) ++
        (u64be post ++ u64be fc))) =
      .ok (hdr, (if hdr.isCompressed then C (pagesBytes pages ++ u32be 0)
        else pagesBytes pages ++ u32be 0) ++
        (u64be post ++ u64be fc)) := by
    rw [decode_from_headerBytes hdr hwf _, hval, htm]
  have htake : (hdr.headerBytes ++
      ((if hdr.isCompressed then C (pagesBytes pages ++ u32be 0)
        else pagesBytes pages ++ u32be 0) ++
        (u64be post ++ u64be fc))).take HEADER_SIZE = hdr.headerBytes :=
    take_append_len _ _ _ (headerBytes_length hdr)
  have hdigmatch : ∀ dg : Nat, dg = crcUpdate
      (crcUpdate (crcUpdate CRC_INIT hdr.headerBytes)
        (pagesBytes pages ++ u32be 0)) (u64be post) →
      chkNew (crcFinalize dg) = fc := by
    intro dg hdg
    rw [hfcdef, hdg, hd2, crcUpdate_append]
  by_cases hcm : hdr.isCompressed = true
  · -- compressed
    rw [if_pos hcm] at hhdrdec htake ⊢
    have hdnew : Decoder.new Dstream (hdr.headerBytes ++
        (C (pagesBytes pages ++ u32be 0) ++ (u64be post ++ u64be fc))) =
        .ok ({ body := pagesBytes pages ++ u32be 0,
               rest := u64be post ++ u64be fc,
               digest := crcUpdate CRC_INIT hdr.headerBytes,
               page_size := hdr.page_size, pages_done := false,
               compressed := true }, hdr) := by
      unfold Decoder.new
      rw [hhdrdec]
      simp only [htake, hcm, if_true, ite_true, hcomp hcm]
    have hpages : decodePages (pagesBytes pages ++ u32be 0).length.succ
        { body := pagesBytes pages ++ u32be 0,
          rest := u64be post ++ u64be fc,
          digest := crcUpdate CRC_INIT hdr.headerBytes,
          page_size := hdr.page_size, pages_done := false,
          compressed := true } [] =
        .ok ({ body := [], rest := u64be post ++ u64be fc,
               digest := crcUpdate (crcUpdate CRC_INIT hdr.headerBytes)
                 (pagesBytes pages ++ u32be 0),
               page_size := hdr.page_size, pages_done := true,
               compressed := true }, pages) := by
      have := decodePages_ok pages (pagesBytes pages ++ u32be 0).length.succ
        { body := pagesBytes pages ++ u32be 0,
          rest := u64be post ++ u64be fc,
          digest := crcUpdate CRC_INIT hdr.headerBytes,
          page_size := hdr.page_size, pages_done := false,
          compressed := true } [] []
        (by have h1 := length_le_pagesBytes pages
            simp only [List.length_append, Nat.succ_eq_add_one]
            omega)
        rfl (by simp) hpn hlen
      simpa using this
    have hfinish : Decoder.finish
        { body := [], rest := u64be post ++ u64be fc,
          digest := crcUpdate (crcUpdate CRC_INIT hdr.headerBytes)
            (pagesBytes pages ++ u32be 0),
          page_size := hdr.page_size, pages_done := true,
          compressed := true } =
        .ok { post_apply_checksum := post, file_checksum := fc } := by
      apply finish_ok _ post fc []
      · exact hpost
      · exact hpostlt
      · exact hfcnew
      · exact hfclt
      · simp
      · exact hdigmatch _ rfl
    unfold decodeFile
    simp only [hdnew, hpages, hfinish, Except.bind, bind]
  · -- uncompressed
    rw [if_neg hcm] at hhdrdec htake ⊢
    have hcm2 : hdr.isCompressed = false := by
      rcases h : hdr.isCompressed
      · rfl
      · exact absurd h hcm
    have hdnew : Decoder.new Dstream (hdr.headerBytes ++
        ((pagesBytes pages ++ u32be 0) ++ (u64be post ++ u64be fc))) =
        .ok ({ body := (pagesBytes pages ++ u32be 0) ++
                 (u64be post ++ u64be fc),
               rest := [], digest := crcUpdate CRC_INIT hdr.headerBytes,
               page_size := hdr.page_size, pages_done := false,
               compressed := false }, hdr) := by
      unfold Decoder.new
      rw [hhdrdec]
      simp only [htake, hcm2, Bool.false_eq_true, if_false, ite_false]
    have hpages : decodePages ((pagesBytes pages ++ u32be 0) ++
          (u64be post ++ u64be fc)).length.succ
        { body := (pagesBytes pages ++ u32be 0) ++ (u64be post ++ u64be fc),
          rest := [], digest := crcUpdate CRC_INIT hdr.headerBytes,
          page_size := hdr.page_size, pages_done := false,
          compressed := false } [] =
        .ok ({ body := u64be post ++ u64be fc, rest := [],
               digest := crcUpdate (crcUpdate CRC_INIT hdr.headerBytes)
                 (pagesBytes pages ++ u32be 0),
               page_size := hdr.page_size, pages_done := true,
               compressed := false }, pages) := by
      have := decodePages_ok pages
        ((pagesBytes pages ++ u32be 0) ++ (u64be post ++ u64be fc)).length.succ
        { body := (pagesBytes pages ++ u32be 0) ++ (u64be post ++ u64be fc),
          rest := [], digest := crcUpdate CRC_INIT hdr.headerBytes,
          page_size := hdr.page_size, pages_done := false,
          compressed := false } [] (u64be post ++ u64be fc)
        (by have h1 := length_le_pagesBytes pages
            simp only [List.length_append, Nat.succ_eq_add_one]
            omega)
        rfl (by simp [List.append_assoc]) hpn hlen
      simpa using this
    have hfinish : Decoder.finish
        { body := u64be post ++ u64be fc, rest := [],
          digest := crcUpdate (crcUpdate CRC_INIT hdr.headerBytes)
            (pagesBytes pages ++ u32be 0),
          page_size := hdr.page_size, pages_done := true,
          compressed := false } =
        .ok { post_apply_checksum := post, file_checksum := fc } := by
      apply finish_ok _ post fc []
      · exact hpost
      · exact hpostlt
      · exact hfcnew
      · exact hfclt
      · simp
      · exact hdigmatch _ rfl
    unfold decodeFile
    simp only [hdnew, hpages, hfinish, Except.bind, bind]

/-- C2 witness: the round-trip theorem applied to a concrete
incremental session, once with the compression flag clear (identity
body) and once with it set (identity frame codec splitting at the
1036-byte body boundary). -/
theorem c2_roundtrip_witness :
    (∃ file t, encodeFile id hdrIncr pagesIncr (2 ^ 63 + 4) =
        .ok (file, t) ∧
      decodeFile noDstream file = .ok (hdrIncr, pagesIncr, t)) ∧
    (∃ file t, encodeFile id hdrCompr pagesIncr (2 ^ 63 + 4) =
        .ok (file, t) ∧
      decodeFile idDstream1036 file = .ok (hdrCompr, pagesIncr, t)) :=
  ⟨c2_roundtrip id noDstream hdrIncr pagesIncr (2 ^ 63 + 4) (by decide)
      (by decide) (by decide) (by decide) (by decide) (by decide)
      (by decide) (by decide) (by decide)
      (fun h => absurd h (by decide)),
   c2_roundtrip id idDstream1036 hdrCompr pagesIncr (2 ^ 63 + 4) (by decide)
      (by decide) (by decide) (by decide) (by decide) (by decide)
      (by decide) (by decide) (by decide)
      (fun _ t => by
        unfold idDstream1036
        rw [take_append_len _ t 1036 (by decide),
          drop_append_len _ t 1036 (by decide)]
        rfl)⟩

/-! ## Bitwise arithmetic lemmas -/

theorem xor_div_two (a b : Nat) : (a ^^^ b) / 2 = a / 2 ^^^ b / 2 := by
  apply Nat.eq_of_testBit_eq
  intro i
  rw [Nat.testBit_div_two, Nat.testBit_xor, Nat.testBit_xor,
    Nat.testBit_div_two, Nat.testBit_div_two]

theorem xor_mod_two_pow (a b n : Nat) :
    (a ^^^ b) % 2 ^ n = a % 2 ^ n ^^^ b % 2 ^ n := by
  apply Nat.eq_of_testBit_eq
  intro i
  simp only [Nat.testBit_mod_two_pow, Nat.testBit_xor]
  cases hd : decide (i < n) <;> simp

theorem xor_mod_two (a b : Nat) : (a ^^^ b) % 2 = a % 2 ^^^ b % 2 := by
  have := xor_mod_two_pow a b 1
  simpa using this

theorem xor_div_pow (a b s : Nat) :
    (a ^^^ b) / 2 ^ s = a / 2 ^ s ^^^ b / 2 ^ s := by
  induction s generalizing a b with
  | zero => simp
  | succ s ih =>
    rw [pow_succ, ← Nat.div_div_eq_div_mul, ih, xor_div_two,
      Nat.div_div_eq_div_mul, Nat.div_div_eq_div_mul, ← pow_succ]

theorem xor_left_comm (a b c : Nat) : a ^^^ (b ^^^ c) = b ^^^ (a ^^^ c) := by
  rw [← Nat.xor_assoc, Nat.xor_comm a b, Nat.xor_assoc]

theorem xor_xor_self_left (a b : Nat) : a ^^^ (a ^^^ b) = b := by
  rw [← Nat.xor_assoc, Nat.xor_self, Nat.zero_xor]

/-- The LFSR step is GF(2)-linear. -/
theorem crcShift_xor (a b : Nat) :
    crcShift (a ^^^ b) = crcShift a ^^^ crcShift b := by
  unfold crcShift
  have hm := xor_mod_two a b
  rcases Nat.mod_two_eq_zero_or_one a with ha | ha <;>
    rcases Nat.mod_two_eq_zero_or_one b with hb | hb <;>
      simp only [ha, hb] at hm <;>
        simp only [hm, ha, hb, xor_div_two] <;> norm_num <;>
          simp [Nat.xor_assoc, Nat.xor_comm, xor_left_comm, Nat.xor_self,
            Nat.xor_zero, xor_xor_self_left]

theorem crcShiftN_add (m n c : Nat) :
    crcShiftN (m + n) c = crcShiftN m (crcShiftN n c) := by
  induction n generalizing c with
  | zero => rfl
  | succ n ih => rw [crcShiftN, ← Nat.add_assoc,
      show m + n + 1 = (m + n) + 1 from rfl, crcShiftN, ih]

theorem crcShiftN_xor (n a b : Nat) :
    crcShiftN n (a ^^^ b) = crcShiftN n a ^^^ crcShiftN n b := by
  induction n generalizing a b with
  | zero => rfl
  | succ n ih => rw [crcShiftN, crcShiftN, crcShiftN, crcShift_xor, ih]

/-- Feeding a byte is affine in the register: a register difference `d`
evolves by eight LFSR steps. -/
theorem crcByte_xor (c d b : Nat) :
    crcByte (c ^^^ d) b = crcByte c b ^^^ crcShiftN 8 d := by
  unfold crcByte
  rw [Nat.xor_comm c d, Nat.xor_assoc, Nat.xor_comm d (c ^^^ b % 256),
    crcShiftN_xor]

/-- Digesting a stream is affine in the register. -/
theorem crcUpdate_xor (bs : List Nat) (c d : Nat) :
    crcUpdate (c ^^^ d) bs = crcUpdate c bs ^^^ crcShiftN (8 * bs.length) d := by
  induction bs generalizing c d with
  | nil => rfl
  | cons b bs ih =>
    rw [crcUpdate_cons, crcUpdate_cons, crcByte_xor, ih, ← crcShiftN_add,
      List.length_cons]
    have he : 8 * bs.length + 8 = 8 * (bs.length + 1) := by omega
    rw [he]

/-- Flipping bit `j` of one byte changes the digested byte stream's final
register by `crcShiftN` of the remaining distance applied to `2^j`. -/
theorem crcUpdate_flip_byte (c : Nat) (pre suf : List Nat) (b j : Nat)
    (hj : j < 8) :
    crcUpdate c (pre ++ (b ^^^ 2 ^ j) :: suf) =
      crcUpdate c (pre ++ b :: suf) ^^^
        crcShiftN (8 * (suf.length + 1)) (2 ^ j) := by
  have hjlt : (2 : Nat) ^ j < 256 := by
    calc (2 : Nat) ^ j < 2 ^ 8 := Nat.pow_lt_pow_right (by norm_num) hj
    _ = 256 := by norm_num
  have hbmod : (b ^^^ 2 ^ j) % 256 = b % 256 ^^^ 2 ^ j := by
    have h256 : (256 : Nat) = 2 ^ 8 := by norm_num
    rw [h256, xor_mod_two_pow]
    congr 1
    exact Nat.mod_eq_of_lt (Nat.pow_lt_pow_right (by norm_num) hj)
  have hbyte : ∀ c2 : Nat, crcByte c2 (b ^^^ 2 ^ j) =
      crcByte c2 b ^^^ crcShiftN 8 (2 ^ j) := by
    intro c2
    unfold crcByte
    rw [hbmod, ← Nat.xor_assoc, crcShiftN_xor]
  rw [crcUpdate_append, crcUpdate_append, crcUpdate_cons, crcUpdate_cons,
    hbyte, crcUpdate_xor, ← crcShiftN_add]
  have he : 8 * suf.length + 8 = 8 * (suf.length + 1) := by omega
  rw [he]

/-- `flipBit` written as an explicit decomposition of the list. -/
theorem flipBit_eq_parts (l : List Nat) (q j : Nat) (hq : q < l.length) :
    flipBit l q j =
      l.take q ++ (l.getD q 0 ^^^ 2 ^ j) :: l.drop (q + 1) ∧
    l = l.take q ++ l.getD q 0 :: l.drop (q + 1) := by
  have hg : l.getD q 0 = l.get ⟨q, hq⟩ := by
    rw [List.getD_eq_getElem?_getD, List.getElem?_eq_getElem hq]
    rfl
  have hdrop : l.drop q = l.get ⟨q, hq⟩ :: l.drop (q + 1) :=
    List.drop_eq_getElem_cons hq
  constructor
  · unfold flipBit
    rw [List.set_eq_take_append_cons_drop]
    rw [if_pos hq, hg]
  · conv_lhs => rw [← List.take_append_drop q l]
    rw [hdrop, hg]

/-- Flipping one bit of a digested stream changes the final register by a
nonzero, non-top-bit value (given the stream is short enough and the
flip is in range). -/
theorem crcUpdate_flipBit (c : Nat) (S : List Nat) (q j : Nat)
    (hq : q < S.length) (hj : j < 8) :
    crcUpdate c (flipBit S q j) =
      crcUpdate c S ^^^ crcShiftN (8 * (S.length - q)) (2 ^ j) := by
  rcases flipBit_eq_parts S q j hq with ⟨h1, h2⟩
  rw [h1]
  conv_rhs => rw [h2]
  rw [crcUpdate_flip_byte c _ _ _ j hj]
  have hlen : (S.drop (q + 1)).length + 1 = S.length - q := by
    rw [List.length_drop]
    omega
  rw [hlen, ← h2]

/-! ## The CRC polynomial is primitive

`crcShiftN (2^64 - 1)` fixes the register `2^63` while no smaller
positive step count does.  The certificate `allCerts` establishes the
eight needed evaluations by square-and-multiply on the literal matrix
chain; `chainCheck_spec` and `powApplyL_chainSpec` prove that scheme
computes `crcShiftN`, and the order argument proceeds by gcd. -/

theorem crcShiftN_zero (n : Nat) : crcShiftN n 0 = 0 := by
  induction n with
  | zero => rfl
  | succ n ih =>
    rw [crcShiftN, show crcShift 0 = 0 from rfl]
    exact ih

theorem two_mul_xor_one (k : Nat) : 2 * k ^^^ 1 = 2 * k + 1 := by
  have h1 : (2 * k ^^^ 1) % 2 = 1 := by
    rw [xor_mod_two, Nat.mul_mod_right]
    decide
  have h2 : (2 * k ^^^ 1) / 2 = k := by
    rw [xor_div_two, Nat.mul_div_cancel_left k (by norm_num),
      show (1:Nat) / 2 = 0 from rfl, Nat.xor_zero]
  omega

theorem two_mul_xor (a b : Nat) : 2 * (a ^^^ b) = 2 * a ^^^ 2 * b := by
  have h1 : (2 * a ^^^ 2 * b) % 2 = 0 := by
    rw [xor_mod_two, Nat.mul_mod_right, Nat.mul_mod_right]
    decide
  have h2 : (2 * a ^^^ 2 * b) / 2 = a ^^^ b := by
    rw [xor_div_two, Nat.mul_div_cancel_left a (by norm_num),
      Nat.mul_div_cancel_left b (by norm_num)]
  omega

theorem colMatrix_succ (f : Nat → Nat) (n : Nat) :
    colMatrix f (n + 1) = f 1 :: colMatrix (fun y => f (2 * y)) n := by
  unfold colMatrix
  rw [List.range_succ_eq_map, List.map_cons, List.map_map]
  refine congrArg₂ _ (by norm_num) ?_
  apply List.map_congr_left
  intro i _
  show f (2 ^ (i + 1)) = f (2 * 2 ^ i)
  rw [pow_succ, Nat.mul_comm]

theorem applyM_colMatrix (f : Nat → Nat) (n : Nat)
    (hxor : ∀ a b, f (a ^^^ b) = f a ^^^ f b) (h0 : f 0 = 0) :
    ∀ y, y < 2 ^ n → applyM (colMatrix f n) y = f y := by
  induction n generalizing f with
  | zero =>
    intro y hy
    have hy0 : y = 0 := by
      have h1 : (2:Nat) ^ 0 = 1 := pow_zero 2
      omega
    subst hy0
    rw [h0]
    rfl
  | succ n ih =>
    intro y hy
    rw [colMatrix_succ]
    show (if y % 2 = 1 then f 1 else 0) ^^^
      applyM (colMatrix (fun z => f (2 * z)) n) (y / 2) = f y
    have hy2 : y / 2 < 2 ^ n := by
      have h2 : (2:Nat) ^ (n + 1) = 2 * 2 ^ n := by rw [pow_succ]; ring
      omega
    rw [ih (fun z => f (2 * z))
      (fun a b => by
        show f (2 * (a ^^^ b)) = f (2 * a) ^^^ f (2 * b)
        rw [two_mul_xor, hxor])
      (by show f (2 * 0) = 0; rw [Nat.mul_zero, h0]) (y / 2) hy2]
    rcases Nat.mod_two_eq_zero_or_one y with h | h
    · rw [h, if_neg (by omega), Nat.zero_xor]
      congr 1
      omega
    · rw [h, if_pos rfl, ← hxor]
      congr 1
      rw [Nat.xor_comm, two_mul_xor_one]
      omega

theorem crcShiftN_two_pow_hi (k : Nat) (hk : k ≤ 63) :
    crcShiftN k (2 ^ 63) = 2 ^ (63 - k) := by
  induction k with
  | zero => rfl
  | succ k ih =>
    rw [show k + 1 = 1 + k from Nat.add_comm k 1, crcShiftN_add,
      ih (by omega)]
    show crcShift (2 ^ (63 - k)) = 2 ^ (63 - (1 + k))
    unfold crcShift
    have hm : 63 - k = (63 - (1 + k)) + 1 := by omega
    rw [hm, pow_succ, if_neg (by simp [Nat.mul_mod_left])]
    omega

theorem colMatrix_getD (f : Nat → Nat) (n i : Nat) (hi : i < n) :
    (colMatrix f n).getD i 0 = f (2 ^ i) := by
  unfold colMatrix
  rw [List.getD_eq_getElem?_getD, List.getElem?_map, List.getElem?_range hi]
  rfl

theorem rowOk_getD : ∀ l : List Nat, rowOk l = true →
    ∀ i, i + 1 < l.length → l.getD i 0 = crcShift (l.getD (i + 1) 0) := by
  intro l
  induction l with
  | nil =>
    intro _ i hi
    simp at hi
  | cons a l ih =>
    cases l with
    | nil =>
      intro _ i hi
      simp at hi
    | cons b rest =>
      intro hrow i hi
      simp only [rowOk, Bool.and_eq_true, beq_iff_eq] at hrow
      obtain ⟨hab, hrest⟩ := hrow
      cases i with
      | zero =>
        rw [List.getD_cons_zero, List.getD_cons_succ, List.getD_cons_zero]
        exact hab
      | succ i =>
        rw [List.getD_cons_succ, List.getD_cons_succ]
        exact ih hrest i (by simp only [List.length_cons] at hi ⊢; omega)

theorem rowOk_last (l : List Nat) (hlen : l.length = 64)
    (hrow : rowOk l = true) :
    ∀ k, k ≤ 63 → l.getD (63 - k) 0 = crcShiftN k (l.getD 63 0) := by
  intro k
  induction k with
  | zero =>
    intro _
    rfl
  | succ k ih =>
    intro hk
    have h1 := rowOk_getD l hrow (63 - (k + 1)) (by rw [hlen]; omega)
    have h2 : 63 - (k + 1) + 1 = 63 - k := by omega
    rw [h2] at h1
    rw [h1, ih (by omega)]
    rw [show k + 1 = 1 + k from Nat.add_comm k 1, crcShiftN_add]
    rfl

theorem row_spec (M : List Nat) (t : Nat) (hlen : M.length = 64)
    (hrow : rowOk M = true)
    (hlast : M.getD 63 0 = crcShiftN t (2 ^ 63)) :
    M = colMatrix (crcShiftN t) 64 := by
  apply List.ext_getElem
  · rw [hlen]
    simp [colMatrix]
  · intro i h1 h2
    have hi64 : i < 64 := by rw [← hlen]; exact h1
    have hgd := rowOk_last M hlen hrow (63 - i) (by omega)
    rw [show 63 - (63 - i) = i from by omega, hlast, ← crcShiftN_add,
      Nat.add_comm (63 - i) t, crcShiftN_add,
      crcShiftN_two_pow_hi (63 - i) (by omega),
      show 63 - (63 - i) = i from by omega] at hgd
    rw [List.getD_eq_getElem?_getD, List.getElem?_eq_getElem h1,
      Option.getD_some] at hgd
    have hcg := colMatrix_getD (crcShiftN t) 64 i hi64
    rw [List.getD_eq_getElem?_getD, List.getElem?_eq_getElem h2,
      Option.getD_some] at hcg
    rw [hgd, hcg]

theorem chainCheck_spec : ∀ (Ms : List (List Nat)) (t : Nat),
    chainCheck (crcShiftN t (2 ^ 63)) Ms = true → chainSpec t Ms := by
  intro Ms
  induction Ms with
  | nil =>
    intro t _
    trivial
  | cons M rest ih =>
    intro t hc
    simp only [chainCheck, Bool.and_eq_true, beq_iff_eq] at hc
    obtain ⟨⟨⟨hrow, hlen⟩, hlast⟩, hrec⟩ := hc
    have hM : M = colMatrix (crcShiftN t) 64 := row_spec M t hlen hrow hlast
    refine ⟨hM, ?_⟩
    apply ih (2 * t)
    have hv : applyM M (M.getD 63 0) = crcShiftN (2 * t) (2 ^ 63) := by
      rw [hlast, hM,
        applyM_colMatrix (crcShiftN t) 64 (crcShiftN_xor t) (crcShiftN_zero t)
          _ (crcShiftN_lt t _ (by norm_num)),
        ← crcShiftN_add, Nat.two_mul t]
    rw [← hv]
    exact hrec

theorem powApplyL_chainSpec : ∀ (Ms : List (List Nat)) (t e y : Nat),
    y < 2 ^ 64 → e < 2 ^ Ms.length → chainSpec t Ms →
    powApplyL Ms e y = crcShiftN (e * t) y := by
  intro Ms
  induction Ms with
  | nil =>
    intro t e y _ he _
    have he0 : e = 0 := by
      have h1 : (2:Nat) ^ (List.length ([] : List (List Nat))) = 1 := rfl
      omega
    subst he0
    rw [Nat.zero_mul]
    rfl
  | cons M rest ih =>
    intro t e y hy he hch
    obtain ⟨hM, hch2⟩ := hch
    simp only [powApplyL]
    have hy1 : (if e % 2 = 1 then applyM M y else y) =
        crcShiftN (e % 2 * t) y := by
      rcases Nat.mod_two_eq_zero_or_one e with h | h <;> rw [h]
      · rw [if_neg (by omega), Nat.zero_mul]
        rfl
      · rw [if_pos rfl, Nat.one_mul, hM,
          applyM_colMatrix (crcShiftN t) 64 (crcShiftN_xor t)
            (crcShiftN_zero t) y hy]
    rw [hy1, ih (2 * t) (e / 2) _
      (crcShiftN_lt _ _ hy)
      (by rw [Nat.div_lt_iff_lt_mul (by norm_num : (0:Nat) < 2), ← pow_succ]
          exact he)
      hch2,
      ← crcShiftN_add]
    congr 1
    have he2 : 2 * (e / 2) + e % 2 = e := Nat.div_add_mod e 2
    calc e / 2 * (2 * t) + e % 2 * t
        = (2 * (e / 2) + e % 2) * t := by ring
      _ = e * t := by rw [he2]

set_option maxHeartbeats 8000000 in
/-- The literal matrix chain validates. -/
theorem chain_cert :
    chainCheck (crcShift (2 ^ 63)) (chainHead :: chainTail) = true := by rfl

/-- The literal chain is the column-matrix chain of `2^k` LFSR steps. -/
theorem chain_spec_one : chainSpec 1 (chainHead :: chainTail) := by
  apply chainCheck_spec (chainHead :: chainTail) 1
  exact chain_cert

set_option maxHeartbeats 16000000 in
/-- The eight order-certificate evaluations hold. -/
theorem allCerts_true : allCerts = true := by rfl

/-- The certificate read back through `powApplyL_chainSpec`: `2^64 - 1`
LFSR steps fix the register `2^63`, and `(2^64 - 1)/q` steps move it for
each prime factor `q` of `2^64 - 1`. -/
theorem crc_certs :
    crcShiftN (2 ^ 64 - 1) (2 ^ 63) = 2 ^ 63 ∧
    crcShiftN 6148914691236517205 (2 ^ 63) ≠ 2 ^ 63 ∧
    crcShiftN 3689348814741910323 (2 ^ 63) ≠ 2 ^ 63 ∧
    crcShiftN 1085102592571150095 (2 ^ 63) ≠ 2 ^ 63 ∧
    crcShiftN 71777214294589695 (2 ^ 63) ≠ 2 ^ 63 ∧
    crcShiftN 28778071877862015 (2 ^ 63) ≠ 2 ^ 63 ∧
    crcShiftN 281470681808895 (2 ^ 63) ≠ 2 ^ 63 ∧
    crcShiftN 2753074036095 (2 ^ 63) ≠ 2 ^ 63 := by
  have hlen : (chainHead :: chainTail).length = 64 := by rfl
  have key : ∀ e : Nat, e < 2 ^ 64 →
      crcShiftN e (2 ^ 63) = powApplyL (chainHead :: chainTail) e (2 ^ 63) := by
    intro e he
    rw [powApplyL_chainSpec (chainHead :: chainTail) 1 e (2 ^ 63)
      (by norm_num) (by rw [hlen]; exact he) chain_spec_one, Nat.mul_one]
  have h := allCerts_true
  unfold allCerts at h
  simp only [Bool.and_eq_true, beq_iff_eq, bne_iff_ne] at h
  obtain ⟨⟨⟨⟨⟨⟨⟨hN, h3⟩, h5⟩, h17⟩, h257⟩, h641⟩, h65537⟩, h6700417⟩ := h
  exact ⟨by rw [key _ (by norm_num)]; exact hN,
    by rw [key _ (by norm_num)]; exact h3,
    by rw [key _ (by norm_num)]; exact h5,
    by rw [key _ (by norm_num)]; exact h17,
    by rw [key _ (by norm_num)]; exact h257,
    by rw [key _ (by norm_num)]; exact h641,
    by rw [key _ (by norm_num)]; exact h65537,
    by rw [key _ (by norm_num)]; exact h6700417⟩

theorem crcShiftN_fix_mul (k a : Nat)
    (ha : crcShiftN a (2 ^ 63) = 2 ^ 63) :
    crcShiftN (k * a) (2 ^ 63) = 2 ^ 63 := by
  induction k with
  | zero => rw [Nat.zero_mul]; rfl
  | succ k ih => rw [Nat.succ_mul, crcShiftN_add, ha, ih]

theorem crcShiftN_fix_sub (a b : Nat)
    (ha : crcShiftN a (2 ^ 63) = 2 ^ 63)
    (hb : crcShiftN b (2 ^ 63) = 2 ^ 63) :
    crcShiftN (b - a) (2 ^ 63) = 2 ^ 63 := by
  by_cases hab : a ≤ b
  · have h2 : crcShiftN (b - a + a) (2 ^ 63) = 2 ^ 63 := by
      rw [Nat.sub_add_cancel hab, hb]
    rw [crcShiftN_add, ha] at h2
    exact h2
  · rw [Nat.sub_eq_zero_of_le (by omega)]
    rfl

theorem crcShiftN_fix_mod (a b : Nat) (_ha0 : 0 < a)
    (ha : crcShiftN a (2 ^ 63) = 2 ^ 63)
    (hb : crcShiftN b (2 ^ 63) = 2 ^ 63) :
    crcShiftN (b % a) (2 ^ 63) = 2 ^ 63 := by
  have hd := Nat.mod_add_div b a
  have hsub : b % a = b - a * (b / a) := by omega
  rw [hsub]
  have hmul := crcShiftN_fix_mul (b / a) a ha
  rw [Nat.mul_comm] at hmul
  exact crcShiftN_fix_sub _ _ hmul hb

theorem crcShiftN_fix_gcd (a : Nat) : ∀ b : Nat,
    crcShiftN a (2 ^ 63) = 2 ^ 63 → crcShiftN b (2 ^ 63) = 2 ^ 63 →
    crcShiftN (Nat.gcd a b) (2 ^ 63) = 2 ^ 63 := by
  induction a using Nat.strong_induction_on with
  | _ a ih =>
    intro b ha hb
    rcases Nat.eq_zero_or_pos a with h0 | hpos
    · subst h0
      rw [Nat.gcd_zero_left]
      exact hb
    · rw [Nat.gcd_rec]
      exact ih (b % a) (Nat.mod_lt b hpos) a
        (crcShiftN_fix_mod a b hpos ha hb) ha

/-- The register `2^63` returns to itself only after a multiple of
`2^64 - 1` LFSR steps. -/
theorem crcShiftN_order (t : Nat) (h1 : 0 < t) (h2 : t < 2 ^ 64 - 1) :
    crcShiftN t (2 ^ 63) ≠ 2 ^ 63 := by
  intro ht
  obtain ⟨hN, h3, h5, h17, h257, h641, h65537, h6700417⟩ := crc_certs
  have hd := crcShiftN_fix_gcd t (2 ^ 64 - 1) ht hN
  have hdvd : Nat.gcd t (2 ^ 64 - 1) ∣ 2 ^ 64 - 1 := Nat.gcd_dvd_right _ _
  have hdle : Nat.gcd t (2 ^ 64 - 1) ≤ t :=
    Nat.le_of_dvd h1 (Nat.gcd_dvd_left _ _)
  set d := Nat.gcd t (2 ^ 64 - 1) with hddef
  obtain ⟨c, hc⟩ := hdvd
  have hc1 : c ≠ 1 := by
    intro h
    rw [h, Nat.mul_one] at hc
    omega
  obtain ⟨q, hq, hqc⟩ := Nat.exists_prime_and_dvd hc1
  obtain ⟨e2, he2⟩ := hqc
  have hNq : (2 ^ 64 - 1) / q = e2 * d := by
    rw [hc, he2, show d * (q * e2) = q * (e2 * d) by ring]
    exact Nat.mul_div_cancel_left _ hq.pos
  have hPNq : crcShiftN ((2 ^ 64 - 1) / q) (2 ^ 63) = 2 ^ 63 := by
    rw [hNq]
    exact crcShiftN_fix_mul e2 d hd
  have hqN : q ∣ 2 ^ 64 - 1 := by
    rw [hc, he2]
    exact ⟨d * e2, by ring⟩
  have hfac : (2 ^ 64 - 1 : Nat) =
      3 * (5 * (17 * (257 * (641 * (65537 * 6700417))))) := by norm_num
  have hq7 : q = 3 ∨ q = 5 ∨ q = 17 ∨ q = 257 ∨ q = 641 ∨ q = 65537 ∨
      q = 6700417 := by
    rw [hfac] at hqN
    rcases (Nat.Prime.dvd_mul hq).mp hqN with h | hrest
    · exact Or.inl ((Nat.prime_dvd_prime_iff_eq hq (by norm_num)).mp h)
    rcases (Nat.Prime.dvd_mul hq).mp hrest with h | hrest
    · exact Or.inr (Or.inl
        ((Nat.prime_dvd_prime_iff_eq hq (by norm_num)).mp h))
    rcases (Nat.Prime.dvd_mul hq).mp hrest with h | hrest
    · exact Or.inr (Or.inr (Or.inl
        ((Nat.prime_dvd_prime_iff_eq hq (by norm_num)).mp h)))
    rcases (Nat.Prime.dvd_mul hq).mp hrest with h | hrest
    · exact Or.inr (Or.inr (Or.inr (Or.inl
        ((Nat.prime_dvd_prime_iff_eq hq (by norm_num)).mp h))))
    rcases (Nat.Prime.dvd_mul hq).mp hrest with h | hrest
    · exact Or.inr (Or.inr (Or.inr (Or.inr (Or.inl
        ((Nat.prime_dvd_prime_iff_eq hq (by norm_num)).mp h)))))
    rcases (Nat.Prime.dvd_mul hq).mp hrest with h | h
    · exact Or.inr (Or.inr (Or.inr (Or.inr (Or.inr (Or.inl
        ((Nat.prime_dvd_prime_iff_eq hq (by norm_num)).mp h))))))
    · exact Or.inr (Or.inr (Or.inr (Or.inr (Or.inr (Or.inr
        ((Nat.prime_dvd_prime_iff_eq hq (by norm_num)).mp h))))))
  rcases hq7 with rfl | rfl | rfl | rfl | rfl | rfl | rfl
  · rw [show (2 ^ 64 - 1 : Nat) / 3 = 6148914691236517205 by norm_num] at hPNq
    exact h3 hPNq
  · rw [show (2 ^ 64 - 1 : Nat) / 5 = 3689348814741910323 by norm_num] at hPNq
    exact h5 hPNq
  · rw [show (2 ^ 64 - 1 : Nat) / 17 = 1085102592571150095 by norm_num] at hPNq
    exact h17 hPNq
  · rw [show (2 ^ 64 - 1 : Nat) / 257 = 71777214294589695 by norm_num] at hPNq
    exact h257 hPNq
  · rw [show (2 ^ 64 - 1 : Nat) / 641 = 28778071877862015 by norm_num] at hPNq
    exact h641 hPNq
  · rw [show (2 ^ 64 - 1 : Nat) / 65537 = 281470681808895 by norm_num] at hPNq
    exact h65537 hPNq
  · rw [show (2 ^ 64 - 1 : Nat) / 6700417 = 2753074036095 by norm_num] at hPNq
    exact h6700417 hPNq

theorem two_pow_xor_of_lt (p z : Nat) (hz : z < 2 ^ p) :
    2 ^ p ^^^ z = 2 ^ p + z := by
  induction p generalizing z with
  | zero =>
    have hz0 : z = 0 := by
      have h1 : (2:Nat) ^ 0 = 1 := pow_zero 2
      omega
    subst hz0
    rfl
  | succ p ih =>
    have h2 : (2:Nat) ^ (p + 1) = 2 * 2 ^ p := by rw [pow_succ]; ring
    have hm : (2 ^ (p + 1) ^^^ z) % 2 = z % 2 := by
      rw [xor_mod_two, h2, Nat.mul_mod_right, Nat.zero_xor]
    have hd : (2 ^ (p + 1) ^^^ z) / 2 = 2 ^ p + z / 2 := by
      rw [xor_div_two, h2, Nat.mul_div_cancel_left _ (by norm_num),
        ih (z / 2) (by omega)]
    omega

theorem crcShift_pos (s : Nat) (h0 : 0 < s) (hlt : s < 2 ^ 64) :
    0 < crcShift s := by
  unfold crcShift
  rcases Nat.mod_two_eq_zero_or_one s with h | h
  · rw [if_neg (by omega)]
    omega
  · rw [if_pos h]
    have h64 : (2:Nat) ^ 64 = 2 * 2 ^ 63 := by rw [pow_succ]; ring
    have h1 : s / 2 < 2 ^ 63 := by omega
    have hQ : CRC_POLY = 2 ^ 63 ^^^ 0x5800000000000000 := by decide
    rw [hQ, xor_left_comm]
    have hq2 : (0x5800000000000000 : Nat) < 2 ^ 63 := by norm_num
    have h2 : s / 2 ^^^ 0x5800000000000000 < 2 ^ 63 :=
      Nat.xor_lt_two_pow h1 hq2
    rw [two_pow_xor_of_lt 63 _ h2]
    positivity

theorem crcShiftN_pos (n : Nat) : ∀ s : Nat, 0 < s → s < 2 ^ 64 →
    0 < crcShiftN n s := by
  induction n with
  | zero => exact fun s h0 _ => h0
  | succ n ih =>
    intro s h0 hlt
    show 0 < crcShiftN n (crcShift s)
    exact ih (crcShift s) (crcShift_pos s h0 hlt) (crcShift_lt s hlt)

/-- After `t` steps (`0 < t`, `t + 63 < 2^64 - 1`), a register
difference `2^j` (a flipped byte bit, `j < 8`) has become neither zero
nor the lone top bit. -/
theorem crcShiftN_two_pow_ne (t j : Nat) (ht0 : 0 < t) (hj : j < 8)
    (htN : t + 63 < 2 ^ 64 - 1) :
    crcShiftN t (2 ^ j) ≠ 0 ∧ crcShiftN t (2 ^ j) ≠ 2 ^ 63 := by
  have hjlt : (2:Nat) ^ j < 2 ^ 64 :=
    Nat.pow_lt_pow_right (by norm_num) (by omega)
  constructor
  · have := crcShiftN_pos t (2 ^ j) (by positivity) hjlt
    omega
  · have h1 : 63 - (63 - j) = j := by omega
    have h2 : crcShiftN (63 - j) (2 ^ 63) = 2 ^ j := by
      rw [crcShiftN_two_pow_hi (63 - j) (by omega), h1]
    rw [← h2, ← crcShiftN_add]
    exact crcShiftN_order (t + (63 - j)) (by omega) (by omega)

/-! ## Flips of checksum words and of byte images -/

theorem crcFinalize_xor (x d : Nat) :
    crcFinalize (x ^^^ d) = crcFinalize x ^^^ d := by
  unfold crcFinalize
  rw [Nat.xor_assoc, Nat.xor_comm d CRC_INIT, ← Nat.xor_assoc]

/-- `chkNew` fixes exactly the values whose top bit is set. -/
theorem chkNew_eq_self_iff (z : Nat) :
    chkNew z = z ↔ z.testBit 63 = true := by
  unfold chkNew
  constructor
  · intro h
    have h2 := congrArg (fun w => w.testBit 63) h
    simp only [Nat.testBit_or, Nat.testBit_two_pow_self, Bool.or_true] at h2
    exact h2.symm
  · intro h
    apply Nat.eq_of_testBit_eq
    intro i
    rcases eq_or_ne i 63 with rfl | hi
    · simp [Nat.testBit_or, Nat.testBit_two_pow_self, h]
    · simp [Nat.testBit_or, Nat.testBit_two_pow_of_ne (Ne.symm hi)]

/-- Forcing the top bit separates values whose difference is neither `0`
nor the lone top bit. -/
theorem chkNew_xor_ne (x d : Nat) (hd0 : d ≠ 0) (hd63 : d ≠ 2 ^ 63) :
    chkNew (x ^^^ d) ≠ chkNew x := by
  intro h
  unfold chkNew at h
  have hbit : ∀ i, i ≠ 63 → d.testBit i = false := by
    intro i hi
    have h2 := congrArg (fun w => w.testBit i) h
    simp only [Nat.testBit_or, Nat.testBit_xor,
      Nat.testBit_two_pow_of_ne (Ne.symm hi), Bool.or_false] at h2
    cases hdd : d.testBit i
    · rfl
    · exfalso
      rw [hdd] at h2
      cases hx : x.testBit i <;> rw [hx] at h2 <;> simp at h2
  cases hb : d.testBit 63
  · apply hd0
    apply Nat.eq_of_testBit_eq
    intro i
    rw [Nat.zero_testBit]
    rcases eq_or_ne i 63 with rfl | hi
    · exact hb
    · exact hbit i hi
  · apply hd63
    apply Nat.eq_of_testBit_eq
    intro i
    rcases eq_or_ne i 63 with rfl | hi
    · rw [hb, Nat.testBit_two_pow_self]
    · rw [hbit i hi, Nat.testBit_two_pow_of_ne (Ne.symm hi)]

/-- A non-top-bit flip preserves `Checksum::new`-fixedness. -/
theorem chkNew_flip_fixed (z p : Nat) (hz : chkNew z = z) (hp : p ≠ 63) :
    chkNew (z ^^^ 2 ^ p) = z ^^^ 2 ^ p := by
  rw [chkNew_eq_self_iff] at hz ⊢
  rw [Nat.testBit_xor, hz, Nat.testBit_two_pow_of_ne hp]
  rfl

theorem xor_two_pow_ne_self (z p : Nat) : z ^^^ 2 ^ p ≠ z := by
  intro h
  have h2 := congrArg (fun w => z ^^^ w) h
  simp only [xor_xor_self_left, Nat.xor_self] at h2
  have hpos : (0:Nat) < 2 ^ p := pow_pos (by norm_num) p
  omega

/-- Bytes of `n` strictly above a flipped bit are unchanged. -/
theorem digit_xor_high (n p s : Nat) (h : s + 8 ≤ p) :
    (n ^^^ 2 ^ p) / 2 ^ s % 256 = n / 2 ^ s % 256 := by
  rw [show (256:Nat) = 2 ^ 8 from rfl, xor_div_pow, xor_mod_two_pow,
    Nat.pow_div (by omega) (by norm_num),
    Nat.mod_eq_zero_of_dvd (pow_dvd_pow 2 (by omega)), Nat.xor_zero]

/-- Bytes of `n` strictly below a flipped bit are unchanged. -/
theorem digit_xor_low (n p s : Nat) (h : p < s) :
    (n ^^^ 2 ^ p) / 2 ^ s % 256 = n / 2 ^ s % 256 := by
  rw [xor_div_pow, Nat.div_eq_of_lt (Nat.pow_lt_pow_right (by norm_num) h),
    Nat.xor_zero]

/-- The byte containing a flipped bit changes by exactly that bit. -/
theorem digit_xor_mid (n s j : Nat) (hj : j < 8) :
    (n ^^^ 2 ^ (s + j)) / 2 ^ s % 256 = n / 2 ^ s % 256 ^^^ 2 ^ j := by
  rw [show (256:Nat) = 2 ^ 8 from rfl, xor_div_pow, xor_mod_two_pow,
    pow_add, Nat.mul_div_cancel_left _ (by positivity),
    Nat.mod_eq_of_lt (Nat.pow_lt_pow_right (by norm_num) hj)]

theorem digit_xor_high0 (n p : Nat) (h : 8 ≤ p) :
    (n ^^^ 2 ^ p) % 256 = n % 256 := by
  rw [show (256:Nat) = 2 ^ 8 from rfl, xor_mod_two_pow,
    Nat.mod_eq_zero_of_dvd (pow_dvd_pow 2 h), Nat.xor_zero]

theorem digit_xor_mid0 (n j : Nat) (hj : j < 8) :
    (n ^^^ 2 ^ j) % 256 = n % 256 ^^^ 2 ^ j := by
  rw [show (256:Nat) = 2 ^ 8 from rfl, xor_mod_two_pow,
    Nat.mod_eq_of_lt (Nat.pow_lt_pow_right (by norm_num) hj)]

/-- Flipping bit `j` of byte `m` of a big-endian `u64` image encodes the
value with bit `8*(7-m)+j` flipped. -/
theorem u64be_flipBit (n m j : Nat) (hm : m < 8) (hj : j < 8) :
    flipBit (u64be n) m j = u64be (n ^^^ 2 ^ (8 * (7 - m) + j)) := by
  interval_cases m
  · rw [show flipBit (u64be n) 0 j = [n / 2 ^ 56 % 256 ^^^ 2 ^ j,
        n / 2 ^ 48 % 256, n / 2 ^ 40 % 256, n / 2 ^ 32 % 256,
        n / 2 ^ 24 % 256, n / 2 ^ 16 % 256, n / 2 ^ 8 % 256, n % 256]
      from rfl, show 8 * (7 - 0) + j = 56 + j from by norm_num]
    simp only [u64be, List.cons.injEq]
    refine ⟨?_, ?_, ?_, ?_, ?_, ?_, ?_, ?_, trivial⟩ <;>
      first
        | exact (digit_xor_mid n _ j hj).symm
        | exact (digit_xor_mid0 n j hj).symm
        | exact (digit_xor_high n _ _ (by omega)).symm
        | exact (digit_xor_high0 n _ (by omega)).symm
        | exact (digit_xor_low n _ _ (by omega)).symm
  · rw [show flipBit (u64be n) 1 j = [n / 2 ^ 56 % 256,
        n / 2 ^ 48 % 256 ^^^ 2 ^ j, n / 2 ^ 40 % 256, n / 2 ^ 32 % 256,
        n / 2 ^ 24 % 256, n / 2 ^ 16 % 256, n / 2 ^ 8 % 256, n % 256]
      from rfl, show 8 * (7 - 1) + j = 48 + j from by norm_num]
    simp only [u64be, List.cons.injEq]
    refine ⟨?_, ?_, ?_, ?_, ?_, ?_, ?_, ?_, trivial⟩ <;>
      first
        | exact (digit_xor_mid n _ j hj).symm
        | exact (digit_xor_mid0 n j hj).symm
        | exact (digit_xor_high n _ _ (by omega)).symm
        | exact (digit_xor_high0 n _ (by omega)).symm
        | exact (digit_xor_low n _ _ (by omega)).symm
  · rw [show flipBit (u64be n) 2 j = [n / 2 ^ 56 % 256, n / 2 ^ 48 % 256,
        n / 2 ^ 40 % 256 ^^^ 2 ^ j, n / 2 ^ 32 % 256,
        n / 2 ^ 24 % 256, n / 2 ^ 16 % 256, n / 2 ^ 8 % 256, n % 256]
      from rfl, show 8 * (7 - 2) + j = 40 + j from by norm_num]
    simp only [u64be, List.cons.injEq]
    refine ⟨?_, ?_, ?_, ?_, ?_, ?_, ?_, ?_, trivial⟩ <;>
      first
        | exact (digit_xor_mid n _ j hj).symm
        | exact (digit_xor_mid0 n j hj).symm
        | exact (digit_xor_high n _ _ (by omega)).symm
        | exact (digit_xor_high0 n _ (by omega)).symm
        | exact (digit_xor_low n _ _ (by omega)).symm
  · rw [show flipBit (u64be n) 3 j = [n / 2 ^ 56 % 256, n / 2 ^ 48 % 256,
        n / 2 ^ 40 % 256, n / 2 ^ 32 % 256 ^^^ 2 ^ j,
        n / 2 ^ 24 % 256, n / 2 ^ 16 % 256, n / 2 ^ 8 % 256, n % 256]
      from rfl, show 8 * (7 - 3) + j = 32 + j from by norm_num]
    simp only [u64be, List.cons.injEq]
    refine ⟨?_, ?_, ?_, ?_, ?_, ?_, ?_, ?_, trivial⟩ <;>
      first
        | exact (digit_xor_mid n _ j hj).symm
        | exact (digit_xor_mid0 n j hj).symm
        | exact (digit_xor_high n _ _ (by omega)).symm
        | exact (digit_xor_high0 n _ (by omega)).symm
        | exact (digit_xor_low n _ _ (by omega)).symm
  · rw [show flipBit (u64be n) 4 j = [n / 2 ^ 56 % 256, n / 2 ^ 48 % 256,
        n / 2 ^ 40 % 256, n / 2 ^ 32 % 256, n / 2 ^ 24 % 256 ^^^ 2 ^ j,
        n / 2 ^ 16 % 256, n / 2 ^ 8 % 256, n % 256]
      from rfl, show 8 * (7 - 4) + j = 24 + j from by norm_num]
    simp only [u64be, List.cons.injEq]
    refine ⟨?_, ?_, ?_, ?_, ?_, ?_, ?_, ?_, trivial⟩ <;>
      first
        | exact (digit_xor_mid n _ j hj).symm
        | exact (digit_xor_mid0 n j hj).symm
        | exact (digit_xor_high n _ _ (by omega)).symm
        | exact (digit_xor_high0 n _ (by omega)).symm
        | exact (digit_xor_low n _ _ (by omega)).symm
  · rw [show flipBit (u64be n) 5 j = [n / 2 ^ 56 % 256, n / 2 ^ 48 % 256,
        n / 2 ^ 40 % 256, n / 2 ^ 32 % 256, n / 2 ^ 24 % 256,
        n / 2 ^ 16 % 256 ^^^ 2 ^ j, n / 2 ^ 8 % 256, n % 256]
      from rfl, show 8 * (7 - 5) + j = 16 + j from by norm_num]
    simp only [u64be, List.cons.injEq]
    refine ⟨?_, ?_, ?_, ?_, ?_, ?_, ?_, ?_, trivial⟩ <;>
      first
        | exact (digit_xor_mid n _ j hj).symm
        | exact (digit_xor_mid0 n j hj).symm
        | exact (digit_xor_high n _ _ (by omega)).symm
        | exact (digit_xor_high0 n _ (by omega)).symm
        | exact (digit_xor_low n _ _ (by omega)).symm
  · rw [show flipBit (u64be n) 6 j = [n / 2 ^ 56 % 256, n / 2 ^ 48 % 256,
        n / 2 ^ 40 % 256, n / 2 ^ 32 % 256, n / 2 ^ 24 % 256,
        n / 2 ^ 16 % 256, n / 2 ^ 8 % 256 ^^^ 2 ^ j, n % 256]
      from rfl, show 8 * (7 - 6) + j = 8 + j from by norm_num]
    simp only [u64be, List.cons.injEq]
    refine ⟨?_, ?_, ?_, ?_, ?_, ?_, ?_, ?_, trivial⟩ <;>
      first
        | exact (digit_xor_mid n _ j hj).symm
        | exact (digit_xor_mid0 n j hj).symm
        | exact (digit_xor_high n _ _ (by omega)).symm
        | exact (digit_xor_high0 n _ (by omega)).symm
        | exact (digit_xor_low n _ _ (by omega)).symm
  · rw [show flipBit (u64be n) 7 j = [n / 2 ^ 56 % 256, n / 2 ^ 48 % 256,
        n / 2 ^ 40 % 256, n / 2 ^ 32 % 256, n / 2 ^ 24 % 256,
        n / 2 ^ 16 % 256, n / 2 ^ 8 % 256, n % 256 ^^^ 2 ^ j]
      from rfl, show 8 * (7 - 7) + j = j from by norm_num]
    simp only [u64be, List.cons.injEq]
    refine ⟨?_, ?_, ?_, ?_, ?_, ?_, ?_, ?_, trivial⟩ <;>
      first
        | exact (digit_xor_mid n _ j hj).symm
        | exact (digit_xor_mid0 n j hj).symm
        | exact (digit_xor_high n _ _ (by omega)).symm
        | exact (digit_xor_high0 n _ (by omega)).symm
        | exact (digit_xor_low n _ _ (by omega)).symm

theorem flipBit_length (l : List Nat) (i j : Nat) :
    (flipBit l i j).length = l.length := by
  simp [flipBit]

theorem flipBit_append_right (x y : List Nat) (i j : Nat) :
    flipBit (x ++ y) (x.length + i) j = x ++ flipBit y i j := by
  induction x with
  | nil => simp
  | cons a x ih =>
    show flipBit (a :: (x ++ y)) ((a :: x).length + i) j =
      a :: (x ++ flipBit y i j)
    have hidx : (a :: x).length + i = (x.length + i) + 1 := by
      simp only [List.length_cons]
      omega
    rw [hidx]
    unfold flipBit at ih ⊢
    rw [List.getD_cons_succ, List.set_cons_succ, ih]

theorem flipBit_append_left (x y : List Nat) (i j : Nat) (hi : i < x.length) :
    flipBit (x ++ y) i j = flipBit x i j ++ y := by
  induction x generalizing i with
  | nil => simp at hi
  | cons a x ih =>
    cases i with
    | zero => simp [flipBit]
    | succ i =>
      show flipBit (a :: (x ++ y)) (i + 1) j = flipBit (a :: x) (i + 1) j ++ y
      have hx : i < x.length := by
        simp only [List.length_cons] at hi
        omega
      have hih := ih i hx
      unfold flipBit at hih ⊢
      rw [List.getD_cons_succ, List.set_cons_succ, List.getD_cons_succ,
        List.set_cons_succ, List.cons_append, hih]

theorem pagesBytes_append (a b : List (Nat × List Nat)) :
    pagesBytes (a ++ b) = pagesBytes a ++ pagesBytes b := by
  unfold pagesBytes
  rw [List.map_append, List.flatten_append]

theorem pagesBytes_length (pages : List (Nat × List Nat)) (ps : Nat)
    (hlen : ∀ pg ∈ pages, pg.2.length = ps) :
    (pagesBytes pages).length = pages.length * (4 + ps) := by
  induction pages with
  | nil => simp [pagesBytes_nil]
  | cons pg rest ih =>
    rw [pagesBytes_cons, List.length_append, List.length_append,
      u32be_length, hlen pg (by simp),
      ih (fun pg2 hm => hlen pg2 (by simp [hm])), List.length_cons]
    ring

/-- A page accepted after `last` has a strictly larger page number, in
both modes. -/
theorem validate_page_num_lt (ps : Nat) (snap : Bool) (last pn : Nat)
    (h : validate_page_num ps snap (some last) pn = .ok ()) :
    last < pn := by
  unfold validate_page_num at h
  by_cases hl : pn = lock_page ps
  · rw [if_pos hl] at h
    exact absurd h (by simp)
  · rw [if_neg hl] at h
    cases snap
    · simp only [Bool.false_eq_true, if_false] at h
      by_cases hge : last ≥ pn
      · rw [if_pos hge] at h
        exact absurd h (by simp)
      · omega
    · simp only [eq_self_iff_true, if_true] at h
      by_cases hcond : last + 1 ≠ pn ∨
          (last + 1 = lock_page ps ∧ last + 2 ≠ pn)
      · rw [if_pos hcond] at h
        exact absurd h (by simp)
      · push_neg at hcond
        have := hcond.1
        omega

theorem seqOk_len_aux (ps : Nat) (snap : Bool) (pns : List Nat) :
    ∀ last : Nat, last < 2 ^ 32 →
      seqOk ps snap (some last) pns = true →
      (∀ x ∈ pns, x < 2 ^ 32) →
      pns.length + last < 2 ^ 32 := by
  induction pns with
  | nil =>
    intro last hlast _ _
    simpa using hlast
  | cons pn rest ih =>
    intro last _ hseq hub
    rcases (seqOk_cons _ _ _ _ _).mp hseq with ⟨hv, hseq2⟩
    have h1 : last < pn := validate_page_num_lt ps snap last pn hv
    have h2 : pn < 2 ^ 32 := hub pn (by simp)
    have h3 := ih pn h2 hseq2 (fun x hx => hub x (by simp [hx]))
    simp only [List.length_cons]
    omega

/-- A sequence of page numbers accepted by the encoder has at most
`2^32` entries: the accepted numbers increase strictly and fit `u32`. -/
theorem seqOk_length (ps : Nat) (snap : Bool) (pns : List Nat)
    (hseq : seqOk ps snap none pns = true)
    (hub : ∀ x ∈ pns, x < 2 ^ 32) :
    pns.length ≤ 2 ^ 32 := by
  cases pns with
  | nil => simp
  | cons pn rest =>
    rcases (seqOk_cons _ _ _ _ _).mp hseq with ⟨_, hseq2⟩
    have h2 : pn < 2 ^ 32 := hub pn (by simp)
    have h3 := seqOk_len_aux ps snap rest pn h2 hseq2
      (fun x hx => hub x (by simp [hx]))
    simp only [List.length_cons]
    omega

/-- `Decoder::finish` on an uncompressed session positioned at a
well-formed trailer whose file checksum does not match the digest. -/
theorem finish_mismatch (st : DecSt) (post fc : Nat) (r : List Nat)
    (hpost : chkNew post = post) (hpostlt : post < 2 ^ 64)
    (hfc : chkNew fc = fc) (hfclt : fc < 2 ^ 64)
    (hsrc : (if st.compressed = true then
        (if st.body = [] then some st.rest else none)
      else some st.body) = some ((u64be post ++ u64be fc) ++ r))
    (hmis : chkNew (crcFinalize (crcUpdate st.digest (u64be post))) ≠ fc) :
    Decoder.finish st = .error .FileChecksumMismatch := by
  unfold Decoder.finish
  rw [hsrc]
  simp only [trailer_decode post fc r hpost hpostlt hfc hfclt]
  simp only [ne_eq, hmis, not_false_iff, if_true, ite_true]

/-- `Header::decode_from` on the field image of a representable valid
header with an arbitrary timestamp value and arbitrary 52 padding bytes:
both are accepted, the padding without inspection. -/
theorem decode_from_fields_ok (h : Header) (hwf : h.WF)
    (hval : h.validate = .ok ()) (ts : Nat) (hts : ts < 2 ^ 64)
    (pad : List Nat) (hpad : pad.length = 52) (r : List Nat) :
    Header.decode_from (MAGIC ++ (u32be h.flags ++ (u32be h.page_size ++
        (u32be h.commit ++ (u64be h.min_txid ++ (u64be h.max_txid ++
          (u64be ts ++ (u64be (h.pre_apply_checksum.getD 0) ++ pad)))))))
        ++ r) =
      .ok ({ flags := h.flags, page_size := h.page_size, commit := h.commit,
             min_txid := h.min_txid, max_txid := h.max_txid,
             timestamp := ts * 1000000,
             pre_apply_checksum := h.pre_apply_checksum }, r) := by
  obtain ⟨hf, hps, hc0, hc, hmn0, hmn, hmx0, hmx, hpre⟩ := hwf
  have hps2 : h.page_size < 2 ^ 32 := by
    have := (pageSizeValid_iff h.page_size).mp hps
    omega
  have hck : h.pre_apply_checksum.getD 0 < 2 ^ 64 := by
    rcases hpre with hn | hck2
    · simp [hn]
    · exact hck2.2
  rw [decode_from_fields h.flags h.page_size h.commit h.min_txid h.max_txid
    ts (h.pre_apply_checksum.getD 0) pad r (by omega) hps2 hc hmn hmx
    hts hck hpad]
  rw [if_neg (by omega), hps]
  simp only [Bool.not_true, Bool.false_eq_true, if_false,
    if_neg (Nat.pos_iff_ne_zero.mp hc0), if_neg (Nat.pos_iff_ne_zero.mp hmn0),
    if_neg (Nat.pos_iff_ne_zero.mp hmx0)]
  have hpre2 : (if h.pre_apply_checksum.getD 0 ≠ 0 then
      some (chkNew (h.pre_apply_checksum.getD 0)) else none) =
      h.pre_apply_checksum := by
    rcases hp : h.pre_apply_checksum with _ | c
    · simp
    · rw [hp] at hpre
      rcases hpre with hn | hck2
      · exact absurd hn (by simp)
      · have h1 : chkNew c = c := by simpa using hck2.1
        have h2 : c ≠ 0 := by
          intro h0
          rw [h0] at h1
          simp [chkNew] at h1
        simp [h2, h1]
  rw [hpre2]
  have hval2 : Header.validate
      { flags := h.flags, page_size := h.page_size, commit := h.commit,
        min_txid := h.min_txid, max_txid := h.max_txid,
        timestamp := ts * 1000000,
        pre_apply_checksum := h.pre_apply_checksum } = .ok () := by
    simp only [Header.validate, Header.is_snapshot] at hval ⊢
    exact hval
  simp only [hval2]

/-- Flipping a bit of the timestamp field of a header image. -/
theorem headerBytes_flip_ts (h : Header) (m j : Nat) (hm : m < 8) :
    flipBit h.headerBytes (32 + m) j =
      MAGIC ++ (u32be h.flags ++ (u32be h.page_size ++ (u32be h.commit ++
        (u64be h.min_txid ++ (u64be h.max_txid ++
          (flipBit (u64be (h.timestamp / 1000000 % 2 ^ 64)) m j ++
            (u64be (h.pre_apply_checksum.getD 0) ++
              List.replicate 52 0))))))) := by
  rw [headerBytes_eq]
  rw [show 32 + m = MAGIC.length + (28 + m) from by
    show 32 + m = 4 + (28 + m); omega]
  rw [flipBit_append_right]
  rw [show 28 + m = (u32be h.flags).length + (24 + m) from by
    show 28 + m = 4 + (24 + m); omega]
  rw [flipBit_append_right]
  rw [show 24 + m = (u32be h.page_size).length + (20 + m) from by
    show 24 + m = 4 + (20 + m); omega]
  rw [flipBit_append_right]
  rw [show 20 + m = (u32be h.commit).length + (16 + m) from by
    show 20 + m = 4 + (16 + m); omega]
  rw [flipBit_append_right]
  rw [show 16 + m = (u64be h.min_txid).length + (8 + m) from by
    show 16 + m = 8 + (8 + m); omega]
  rw [flipBit_append_right]
  rw [show 8 + m = (u64be h.max_txid).length + m from by
    show 8 + m = 8 + m; rfl]
  rw [flipBit_append_right]
  rw [flipBit_append_left _ _ m j (by rw [u64be_length]; omega)]

/-- Flipping a bit of the reserved padding of a header image. -/
theorem headerBytes_flip_pad (h : Header) (i j : Nat) :
    flipBit h.headerBytes (48 + i) j =
      MAGIC ++ (u32be h.flags ++ (u32be h.page_size ++ (u32be h.commit ++
        (u64be h.min_txid ++ (u64be h.max_txid ++
          (u64be (h.timestamp / 1000000 % 2 ^ 64) ++
            (u64be (h.pre_apply_checksum.getD 0) ++
              flipBit (List.replicate 52 0) i j))))))) := by
  rw [headerBytes_eq]
  rw [show 48 + i = MAGIC.length + (44 + i) from by
    show 48 + i = 4 + (44 + i); omega]
  rw [flipBit_append_right]
  rw [show 44 + i = (u32be h.flags).length + (40 + i) from by
    show 44 + i = 4 + (40 + i); omega]
  rw [flipBit_append_right]
  rw [show 40 + i = (u32be h.page_size).length + (36 + i) from by
    show 40 + i = 4 + (36 + i); omega]
  rw [flipBit_append_right]
  rw [show 36 + i = (u32be h.commit).length + (32 + i) from by
    show 36 + i = 4 + (32 + i); omega]
  rw [flipBit_append_right]
  rw [show 32 + i = (u64be h.min_txid).length + (24 + i) from by
    show 32 + i = 8 + (24 + i); omega]
  rw [flipBit_append_right]
  rw [show 24 + i = (u64be h.max_txid).length + (16 + i) from by
    show 24 + i = 8 + (16 + i); omega]
  rw [flipBit_append_right]
  rw [show 16 + i = (u64be (h.timestamp / 1000000 % 2 ^ 64)).length + (8 + i)
      from by show 16 + i = 8 + (8 + i); omega]
  rw [flipBit_append_right]
  rw [show 8 + i = (u64be (h.pre_apply_checksum.getD 0)).length + i from by
    show 8 + i = 8 + i; rfl]
  rw [flipBit_append_right]

/-- An uncompressed decode session over a wire image whose recomputed
file checksum disagrees with the stored one: `Decoder::new` and every
`decode_page` succeed, and `finish` fails with `FileChecksumMismatch`. -/
theorem decode_mismatch_session
    (Dstream : List Nat → Option (List Nat × List Nat))
    (hb2 : List Nat) (hdr2 : Header) (pages2 : List (Nat × List Nat))
    (post2 fc2 : Nat)
    (hlen100 : hb2.length = 100)
    (hdec : Header.decode_from (hb2 ++ ((pagesBytes pages2 ++ u32be 0) ++
        (u64be post2 ++ u64be fc2))) =
      .ok (hdr2, (pagesBytes pages2 ++ u32be 0) ++ (u64be post2 ++ u64be fc2)))
    (hcm : hdr2.isCompressed = false)
    (hlen2 : ∀ pg ∈ pages2, pg.2.length = hdr2.page_size)
    (hpn2 : ∀ pg ∈ pages2, pg.1 ≠ 0 ∧ pg.1 < 2 ^ 32)
    (hpost2 : chkNew post2 = post2) (hpostlt2 : post2 < 2 ^ 64)
    (hfc2 : chkNew fc2 = fc2) (hfclt2 : fc2 < 2 ^ 64)
    (hmis : chkNew (crcFinalize (crcUpdate CRC_INIT
        (hb2 ++ ((pagesBytes pages2 ++ u32be 0) ++ u64be post2)))) ≠ fc2) :
    decodeFile Dstream (hb2 ++ ((pagesBytes pages2 ++ u32be 0) ++
      (u64be post2 ++ u64be fc2))) = .error .FileChecksumMismatch := by
  have htake : (hb2 ++ ((pagesBytes pages2 ++ u32be 0) ++
      (u64be post2 ++ u64be fc2))).take HEADER_SIZE = hb2 :=
    take_append_len _ _ _ hlen100
  have hdnew : Decoder.new Dstream (hb2 ++ ((pagesBytes pages2 ++ u32be 0) ++
      (u64be post2 ++ u64be fc2))) =
      .ok ({ body := (pagesBytes pages2 ++ u32be 0) ++
               (u64be post2 ++ u64be fc2),
             rest := [], digest := crcUpdate CRC_INIT hb2,
             page_size := hdr2.page_size, pages_done := false,
             compressed := false }, hdr2) := by
    unfold Decoder.new
    rw [hdec]
    simp only [htake, hcm, Bool.false_eq_true, if_false, ite_false]
  have hpages : decodePages ((pagesBytes pages2 ++ u32be 0) ++
        (u64be post2 ++ u64be fc2)).length.succ
      { body := (pagesBytes pages2 ++ u32be 0) ++ (u64be post2 ++ u64be fc2),
        rest := [], digest := crcUpdate CRC_INIT hb2,
        page_size := hdr2.page_size, pages_done := false,
        compressed := false } [] =
      .ok ({ body := u64be post2 ++ u64be fc2, rest := [],
             digest := crcUpdate (crcUpdate CRC_INIT hb2)
               (pagesBytes pages2 ++ u32be 0),
             page_size := hdr2.page_size, pages_done := true,
             compressed := false }, pages2) := by
    have := decodePages_ok pages2
      ((pagesBytes pages2 ++ u32be 0) ++
        (u64be post2 ++ u64be fc2)).length.succ
      { body := (pagesBytes pages2 ++ u32be 0) ++ (u64be post2 ++ u64be fc2),
        rest := [], digest := crcUpdate CRC_INIT hb2,
        page_size := hdr2.page_size, pages_done := false,
        compressed := false } [] (u64be post2 ++ u64be fc2)
      (by have h1 := length_le_pagesBytes pages2
          simp only [List.length_append, Nat.succ_eq_add_one]
          omega)
      rfl (by simp [List.append_assoc]) hpn2 hlen2
    simpa using this
  have hfinish : Decoder.finish
      { body := u64be post2 ++ u64be fc2, rest := [],
        digest := crcUpdate (crcUpdate CRC_INIT hb2)
          (pagesBytes pages2 ++ u32be 0),
        page_size := hdr2.page_size, pages_done := true,
        compressed := false } = .error .FileChecksumMismatch := by
    apply finish_mismatch _ post2 fc2 []
    · exact hpost2
    · exact hpostlt2
    · exact hfc2
    · exact hfclt2
    · simp
    · rw [crcUpdate_append CRC_INIT hb2
          ((pagesBytes pages2 ++ u32be 0) ++ u64be post2),
        crcUpdate_append _ (pagesBytes pages2 ++ u32be 0) (u64be post2)]
        at hmis
      exact hmis
  unfold decodeFile
  simp only [hdnew, hpages, hfinish, Except.bind, bind]

/-- A single-bit flip anywhere in the digested stream (everything before
the stored file checksum) changes the recomputed file checksum. -/
theorem digest_flip_mismatch (D : List Nat) (q j : Nat)
    (hq : q < D.length) (hj : j < 8)
    (hlen : 8 * D.length + 63 < 2 ^ 64 - 1) :
    chkNew (crcFinalize (crcUpdate CRC_INIT (flipBit D q j))) ≠
      chkNew (crcFinalize (crcUpdate CRC_INIT D)) := by
  rw [crcUpdate_flipBit CRC_INIT D q j hq hj, crcFinalize_xor]
  apply chkNew_xor_ne
  · exact (crcShiftN_two_pow_ne (8 * (D.length - q)) j (by omega) hj
      (by omega)).1
  · exact (crcShiftN_two_pow_ne (8 * (D.length - q)) j (by omega) hj
      (by omega)).2

set_option maxHeartbeats 3200000 in
/-- C3 (amended): checksum sensitivity.  For every uncompressed encoder
session (representable valid header with the compression flag clear and
a whole-millisecond timestamp, pages obeying the mode's ordering rule
with correctly sized buffers and `u32` page numbers, well-formed
post-apply checksum), flipping any single bit `j` of byte `q` of the
produced file makes the decode session fail with `FileChecksumMismatch`,
for every flip position in: the header timestamp field (offsets
`32..40`), the reserved header padding (offsets `48..100` — which the
decoder reads into the digest even though it does not interpret it), any
page payload byte, or the trailer excluding the two stored top bits
(whose flip is instead caught by the trailer decoder's `Checksum`
check). -/
theorem c3_bit_flip_checksum (C : List Nat → List Nat)
    (Dstream : List Nat → Option (List Nat × List Nat))
    (hdr : Header) (pages : List (Nat × List Nat)) (post : Nat) (q j : Nat)
    (hwf : hdr.WF) (hval : hdr.validate = .ok ()) (hflags : hdr.flags = 0)
    (hdvd : 1000000 ∣ hdr.timestamp) (hts : hdr.timestamp < 1000000 * 2 ^ 64)
    (hseq : seqOk hdr.page_size hdr.is_snapshot none
      (pages.map (fun pg => pg.1)) = true)
    (hlen : ∀ pg ∈ pages, pg.2.length = hdr.page_size)
    (hpn : ∀ pg ∈ pages, pg.1 ≠ 0 ∧ pg.1 < 2 ^ 32)
    (hpost : chkNew post = post) (hpostlt : post < 2 ^ 64) (hj : j < 8)
    (hq : (32 ≤ q ∧ q < 40) ∨ (48 ≤ q ∧ q < 100) ∨
      (∃ pre pg suf o, pages = pre ++ pg :: suf ∧ o < pg.2.length ∧
        q = 100 + (pagesBytes pre).length + 4 + o) ∨
      ((104 + (pagesBytes pages).length ≤ q ∧
          q < 120 + (pagesBytes pages).length) ∧
        ¬(j = 7 ∧ (q = 104 + (pagesBytes pages).length ∨
          q = 112 + (pagesBytes pages).length)))) :
    ∃ file t, encodeFile C hdr pages post = .ok (file, t) ∧
      decodeFile Dstream (flipBit file q j) = .error .FileChecksumMismatch := by
  have htm : hdr.toMillis = hdr := toMillis_eq_self hdr hdvd hts
  have hcm : hdr.isCompressed = false := by
    rw [Header.isCompressed, hflags]
    rfl
  -- the encoder session
  have hnew : Encoder.new hdr = .ok
      { headerBytes := hdr.headerBytes, body := [],
        digest := crcUpdate CRC_INIT hdr.headerBytes,
        page_size := hdr.page_size, is_snapshot := hdr.is_snapshot,
        last_page_num := none } := by
    simp only [Encoder.new, Header.encode_into, hval]
  rcases encodePagesLoop_ok pages
      { headerBytes := hdr.headerBytes, body := [],
        digest := crcUpdate CRC_INIT hdr.headerBytes,
        page_size := hdr.page_size, is_snapshot := hdr.is_snapshot,
        last_page_num := none } hseq hlen with
    ⟨stN, hrun, hh, hb, hd, hp, hs⟩
  have hb2 : stN.body = pagesBytes pages := hb
  have hd2 : stN.digest =
      crcUpdate (crcUpdate CRC_INIT hdr.headerBytes) (pagesBytes pages) := hd
  have hfin : Encoder.finish C hdr.isCompressed stN post =
      ((hdr.headerBytes ++ (pagesBytes pages ++ u32be 0)) ++
        (u64be post ++ u64be (chkNew (crcFinalize (crcUpdate
          (crcUpdate stN.digest (u32be 0)) (u64be post))))),
       { post_apply_checksum := post,
         file_checksum := chkNew (crcFinalize (crcUpdate
           (crcUpdate stN.digest (u32be 0)) (u64be post))) }) := by
    unfold Encoder.finish
    rw [hb2, hh, hcm]
    rfl
  have hencode : encodeFile C hdr pages post = .ok
      ((hdr.headerBytes ++ (pagesBytes pages ++ u32be 0)) ++
        (u64be post ++ u64be (chkNew (crcFinalize (crcUpdate
          (crcUpdate stN.digest (u32be 0)) (u64be post))))),
       { post_apply_checksum := post,
         file_checksum := chkNew (crcFinalize (crcUpdate
           (crcUpdate stN.digest (u32be 0)) (u64be post))) }) := by
    unfold encodeFile
    simp only [hnew, hrun, hfin, Except.bind, bind]
  refine ⟨_, _, hencode, ?_⟩
  -- common facts
  have hdig0 : crcUpdate CRC_INIT hdr.headerBytes < 2 ^ 64 :=
    crcUpdate_lt _ _ (by norm_num [CRC_INIT])
  have hdlt : crcUpdate (crcUpdate stN.digest (u32be 0)) (u64be post)
      < 2 ^ 64 := by
    apply crcUpdate_lt
    apply crcUpdate_lt
    rw [hd2]
    exact crcUpdate_lt _ _ hdig0
  set fc := chkNew (crcFinalize (crcUpdate
    (crcUpdate stN.digest (u32be 0)) (u64be post))) with hfcdef
  have hfclt : fc < 2 ^ 64 := chkNew_lt _ (crcFinalize_lt _ hdlt)
  have hfcnew : chkNew fc = fc := chkNew_idem _
  have hfcD : fc = chkNew (crcFinalize (crcUpdate CRC_INIT
      (hdr.headerBytes ++
        ((pagesBytes pages ++ u32be 0) ++ u64be post)))) := by
    rw [hfcdef, hd2]
    rw [crcUpdate_append CRC_INIT hdr.headerBytes
        ((pagesBytes pages ++ u32be 0) ++ u64be post),
      crcUpdate_append _ (pagesBytes pages ++ u32be 0) (u64be post),
      crcUpdate_append _ (pagesBytes pages) (u32be 0)]
  have hlen100 : hdr.headerBytes.length = 100 := headerBytes_length hdr
  have hBlen : (pagesBytes pages).length =
      pages.length * (4 + hdr.page_size) :=
    pagesBytes_length pages hdr.page_size hlen
  have hplen : pages.length ≤ 2 ^ 32 := by
    have := seqOk_length hdr.page_size hdr.is_snapshot
      (pages.map (fun pg => pg.1)) hseq (by
        intro x hx
        rcases List.mem_map.mp hx with ⟨pg, hpg, rfl⟩
        exact (hpn pg hpg).2)
    simpa using this
  have hps65536 : hdr.page_size ≤ 65536 := by
    have := (pageSizeValid_iff hdr.page_size).mp hwf.2.1
    omega
  have h232 : (2:Nat) ^ 32 = 4294967296 := by norm_num
  have hN64 : (2:Nat) ^ 64 - 1 = 18446744073709551615 := by norm_num
  have hBbound : (pagesBytes pages).length ≤ 2 ^ 32 * 65540 := by
    rw [hBlen]
    exact Nat.mul_le_mul hplen (by omega)
  have h65540 : (2:Nat) ^ 32 * 65540 = 281492156579840 := by norm_num
  have hDlen : (hdr.headerBytes ++
      ((pagesBytes pages ++ u32be 0) ++ u64be post)).length =
      112 + (pagesBytes pages).length := by
    simp only [List.length_append, hlen100, u32be_length, u64be_length]
    omega
  rcases hq with ⟨hq1, hq2⟩ | ⟨hq1, hq2⟩ |
    ⟨pre, pg, suf, o, hpp, ho, hqe⟩ | ⟨⟨hq1, hq2⟩, hex⟩
  · -- flip in the header timestamp field
    obtain ⟨m, rfl⟩ : ∃ m, q = 32 + m := ⟨q - 32, by omega⟩
    have hm : m < 8 := by omega
    have hts0 : hdr.timestamp / 1000000 % 2 ^ 64 < 2 ^ 64 :=
      Nat.mod_lt _ (by norm_num)
    have hplt : 8 * (7 - m) + j < 64 := by omega
    have htslt : hdr.timestamp / 1000000 % 2 ^ 64 ^^^
        2 ^ (8 * (7 - m) + j) < 2 ^ 64 :=
      Nat.xor_lt_two_pow hts0 (Nat.pow_lt_pow_right (by norm_num) hplt)
    have hhb : flipBit hdr.headerBytes (32 + m) j =
        MAGIC ++ (u32be hdr.flags ++ (u32be hdr.page_size ++
          (u32be hdr.commit ++ (u64be hdr.min_txid ++ (u64be hdr.max_txid ++
            (u64be (hdr.timestamp / 1000000 % 2 ^ 64 ^^^
                2 ^ (8 * (7 - m) + j)) ++
              (u64be (hdr.pre_apply_checksum.getD 0) ++
                List.replicate 52 0))))))) := by
      rw [headerBytes_flip_ts hdr m j hm, u64be_flipBit _ m j hm hj]
    have hb2len : (MAGIC ++ (u32be hdr.flags ++ (u32be hdr.page_size ++
        (u32be hdr.commit ++ (u64be hdr.min_txid ++ (u64be hdr.max_txid ++
          (u64be (hdr.timestamp / 1000000 % 2 ^ 64 ^^^
              2 ^ (8 * (7 - m) + j)) ++
            (u64be (hdr.pre_apply_checksum.getD 0) ++
              List.replicate 52 0)))))))).length = 100 := by
      simp [MAGIC, u32be_length, u64be_length, List.length_append]
    have hflip : flipBit ((hdr.headerBytes ++ (pagesBytes pages ++ u32be 0)) ++
        (u64be post ++ u64be fc)) (32 + m) j =
        (MAGIC ++ (u32be hdr.flags ++ (u32be hdr.page_size ++
          (u32be hdr.commit ++ (u64be hdr.min_txid ++ (u64be hdr.max_txid ++
            (u64be (hdr.timestamp / 1000000 % 2 ^ 64 ^^^
                2 ^ (8 * (7 - m) + j)) ++
              (u64be (hdr.pre_apply_checksum.getD 0) ++
                List.replicate 52 0)))))))) ++
          ((pagesBytes pages ++ u32be 0) ++ (u64be post ++ u64be fc)) := by
      rw [flipBit_append_left _ _ _ j (by
          simp only [List.length_append, hlen100]
          omega),
        flipBit_append_left _ _ _ j (by rw [hlen100]; omega),
        hhb, List.append_assoc]
    have hdec := decode_from_fields_ok hdr hwf hval
      (hdr.timestamp / 1000000 % 2 ^ 64 ^^^ 2 ^ (8 * (7 - m) + j)) htslt
      (List.replicate 52 0) (by simp)
      ((pagesBytes pages ++ u32be 0) ++ (u64be post ++ u64be fc))
    have hD2 : flipBit (hdr.headerBytes ++
        ((pagesBytes pages ++ u32be 0) ++ u64be post)) (32 + m) j =
        (MAGIC ++ (u32be hdr.flags ++ (u32be hdr.page_size ++
          (u32be hdr.commit ++ (u64be hdr.min_txid ++ (u64be hdr.max_txid ++
            (u64be (hdr.timestamp / 1000000 % 2 ^ 64 ^^^
                2 ^ (8 * (7 - m) + j)) ++
              (u64be (hdr.pre_apply_checksum.getD 0) ++
                List.replicate 52 0)))))))) ++
          ((pagesBytes pages ++ u32be 0) ++ u64be post) := by
      rw [flipBit_append_left _ _ _ j (by rw [hlen100]; omega), hhb]
    have hmis : chkNew (crcFinalize (crcUpdate CRC_INIT
        ((MAGIC ++ (u32be hdr.flags ++ (u32be hdr.page_size ++
          (u32be hdr.commit ++ (u64be hdr.min_txid ++ (u64be hdr.max_txid ++
            (u64be (hdr.timestamp / 1000000 % 2 ^ 64 ^^^
                2 ^ (8 * (7 - m) + j)) ++
              (u64be (hdr.pre_apply_checksum.getD 0) ++
                List.replicate 52 0)))))))) ++
          ((pagesBytes pages ++ u32be 0) ++ u64be post)))) ≠ fc := by
      rw [← hD2, hfcD]
      exact digest_flip_mismatch _ (32 + m) j (by rw [hDlen]; omega) hj
        (by rw [hDlen]; omega)
    rw [hflip]
    exact decode_mismatch_session Dstream _ _ pages post fc hb2len hdec
      (by simp [Header.isCompressed, hflags]) (fun pg hpg => hlen pg hpg)
      hpn hpost hpostlt hfcnew hfclt hmis
  · -- flip in the reserved header padding
    obtain ⟨i, rfl⟩ : ∃ i, q = 48 + i := ⟨q - 48, by omega⟩
    have hi : i < 52 := by omega
    have hts0 : hdr.timestamp / 1000000 % 2 ^ 64 < 2 ^ 64 :=
      Nat.mod_lt _ (by norm_num)
    have hb2len : (MAGIC ++ (u32be hdr.flags ++ (u32be hdr.page_size ++
        (u32be hdr.commit ++ (u64be hdr.min_txid ++ (u64be hdr.max_txid ++
          (u64be (hdr.timestamp / 1000000 % 2 ^ 64) ++
            (u64be (hdr.pre_apply_checksum.getD 0) ++
              flipBit (List.replicate 52 0) i j)))))))).length = 100 := by
      simp [MAGIC, u32be_length, u64be_length, List.length_append,
        flipBit_length]
    have hflip : flipBit ((hdr.headerBytes ++ (pagesBytes pages ++ u32be 0)) ++
        (u64be post ++ u64be fc)) (48 + i) j =
        (MAGIC ++ (u32be hdr.flags ++ (u32be hdr.page_size ++
          (u32be hdr.commit ++ (u64be hdr.min_txid ++ (u64be hdr.max_txid ++
            (u64be (hdr.timestamp / 1000000 % 2 ^ 64) ++
              (u64be (hdr.pre_apply_checksum.getD 0) ++
                flipBit (List.replicate 52 0) i j)))))))) ++
          ((pagesBytes pages ++ u32be 0) ++ (u64be post ++ u64be fc)) := by
      rw [flipBit_append_left _ _ _ j (by
          simp only [List.length_append, hlen100]
          omega),
        flipBit_append_left _ _ _ j (by rw [hlen100]; omega),
        headerBytes_flip_pad hdr i j, List.append_assoc]
    have hdec := decode_from_fields_ok hdr hwf hval
      (hdr.timestamp / 1000000 % 2 ^ 64) hts0
      (flipBit (List.replicate 52 0) i j) (by simp [flipBit_length])
      ((pagesBytes pages ++ u32be 0) ++ (u64be post ++ u64be fc))
    have hD2 : flipBit (hdr.headerBytes ++
        ((pagesBytes pages ++ u32be 0) ++ u64be post)) (48 + i) j =
        (MAGIC ++ (u32be hdr.flags ++ (u32be hdr.page_size ++
          (u32be hdr.commit ++ (u64be hdr.min_txid ++ (u64be hdr.max_txid ++
            (u64be (hdr.timestamp / 1000000 % 2 ^ 64) ++
              (u64be (hdr.pre_apply_checksum.getD 0) ++
                flipBit (List.replicate 52 0) i j)))))))) ++
          ((pagesBytes pages ++ u32be 0) ++ u64be post) := by
      rw [flipBit_append_left _ _ _ j (by rw [hlen100]; omega),
        headerBytes_flip_pad hdr i j]
    have hmis : chkNew (crcFinalize (crcUpdate CRC_INIT
        ((MAGIC ++ (u32be hdr.flags ++ (u32be hdr.page_size ++
          (u32be hdr.commit ++ (u64be hdr.min_txid ++ (u64be hdr.max_txid ++
            (u64be (hdr.timestamp / 1000000 % 2 ^ 64) ++
              (u64be (hdr.pre_apply_checksum.getD 0) ++
                flipBit (List.replicate 52 0) i j)))))))) ++
          ((pagesBytes pages ++ u32be 0) ++ u64be post)))) ≠ fc := by
      rw [← hD2, hfcD]
      exact digest_flip_mismatch _ (48 + i) j (by rw [hDlen]; omega) hj
        (by rw [hDlen]; omega)
    rw [hflip]
    exact decode_mismatch_session Dstream _ _ pages post fc hb2len hdec
      (by simp [Header.isCompressed, hflags]) (fun pg hpg => hlen pg hpg)
      hpn hpost hpostlt hfcnew hfclt hmis
  · -- flip in a page payload byte
    subst hqe
    have hmemg : pg ∈ pages := by rw [hpp]; simp
    have hBsplit : pagesBytes pages =
        pagesBytes pre ++ ((u32be pg.1 ++ pg.2) ++ pagesBytes suf) := by
      rw [hpp, pagesBytes_append, pagesBytes_cons]
    have hBlen2 : (pagesBytes pages).length =
        (pagesBytes pre).length +
          (4 + pg.2.length + (pagesBytes suf).length) := by
      rw [hBsplit]
      simp only [List.length_append, u32be_length]
    have hB2 : pagesBytes (pre ++ (pg.1, flipBit pg.2 o j) :: suf) =
        pagesBytes pre ++
          ((u32be pg.1 ++ flipBit pg.2 o j) ++ pagesBytes suf) := by
      rw [pagesBytes_append, pagesBytes_cons]
    have hoflip : flipBit (pagesBytes pages)
        ((pagesBytes pre).length + (4 + o)) j =
        pagesBytes (pre ++ (pg.1, flipBit pg.2 o j) :: suf) := by
      rw [hBsplit, flipBit_append_right, hB2]
      congr 1
      rw [flipBit_append_left _ _ _ j (by
          simp only [List.length_append, u32be_length]
          omega)]
      congr 1
      rw [show 4 + o = (u32be pg.1).length + o from by rw [u32be_length]]
      rw [flipBit_append_right]
    have hlen2 : ∀ pg2 ∈ pre ++ (pg.1, flipBit pg.2 o j) :: suf,
        pg2.2.length = hdr.page_size := by
      intro pg2 hm2
      rcases List.mem_append.mp hm2 with h | h
      · exact hlen pg2 (by rw [hpp]; exact List.mem_append.mpr (Or.inl h))
      · rcases List.mem_cons.mp h with rfl | h
        · show (flipBit pg.2 o j).length = hdr.page_size
          rw [flipBit_length]
          exact hlen pg hmemg
        · refine hlen pg2 ?_
          rw [hpp]
          exact List.mem_append.mpr (Or.inr (List.mem_cons.mpr (Or.inr h)))
    have hpn2 : ∀ pg2 ∈ pre ++ (pg.1, flipBit pg.2 o j) :: suf,
        pg2.1 ≠ 0 ∧ pg2.1 < 2 ^ 32 := by
      intro pg2 hm2
      rcases List.mem_append.mp hm2 with h | h
      · exact hpn pg2 (by rw [hpp]; exact List.mem_append.mpr (Or.inl h))
      · rcases List.mem_cons.mp h with rfl | h
        · exact hpn pg hmemg
        · refine hpn pg2 ?_
          rw [hpp]
          exact List.mem_append.mpr (Or.inr (List.mem_cons.mpr (Or.inr h)))
    have hflip : flipBit ((hdr.headerBytes ++ (pagesBytes pages ++ u32be 0)) ++
        (u64be post ++ u64be fc)) (100 + (pagesBytes pre).length + 4 + o) j =
        hdr.headerBytes ++
          ((pagesBytes (pre ++ (pg.1, flipBit pg.2 o j) :: suf) ++ u32be 0) ++
            (u64be post ++ u64be fc)) := by
      rw [flipBit_append_left _ _ _ j (by
          simp only [List.length_append, hlen100, u32be_length]
          omega)]
      rw [show 100 + (pagesBytes pre).length + 4 + o =
          hdr.headerBytes.length + ((pagesBytes pre).length + (4 + o)) from by
        rw [hlen100]; omega]
      rw [flipBit_append_right, List.append_assoc]
      congr 2
      rw [flipBit_append_left _ _ _ j (by omega), hoflip]
    have hdec : Header.decode_from (hdr.headerBytes ++
        ((pagesBytes (pre ++ (pg.1, flipBit pg.2 o j) :: suf) ++ u32be 0) ++
          (u64be post ++ u64be fc))) =
        .ok (hdr, (pagesBytes (pre ++ (pg.1, flipBit pg.2 o j) :: suf) ++
          u32be 0) ++ (u64be post ++ u64be fc)) := by
      rw [decode_from_headerBytes hdr hwf _, hval, htm]
    have hD2 : flipBit (hdr.headerBytes ++
        ((pagesBytes pages ++ u32be 0) ++ u64be post))
        (100 + (pagesBytes pre).length + 4 + o) j =
        hdr.headerBytes ++
          ((pagesBytes (pre ++ (pg.1, flipBit pg.2 o j) :: suf) ++ u32be 0) ++
            u64be post) := by
      rw [show 100 + (pagesBytes pre).length + 4 + o =
          hdr.headerBytes.length + ((pagesBytes pre).length + (4 + o)) from by
        rw [hlen100]; omega]
      rw [flipBit_append_right]
      congr 1
      rw [flipBit_append_left _ _ _ j (by
          simp only [List.length_append, u32be_length]
          omega)]
      congr 1
      rw [flipBit_append_left _ _ _ j (by omega), hoflip]
    have hmis : chkNew (crcFinalize (crcUpdate CRC_INIT
        (hdr.headerBytes ++
          ((pagesBytes (pre ++ (pg.1, flipBit pg.2 o j) :: suf) ++ u32be 0) ++
            u64be post)))) ≠ fc := by
      rw [← hD2, hfcD]
      exact digest_flip_mismatch _ (100 + (pagesBytes pre).length + 4 + o) j
        (by rw [hDlen]; omega) hj (by rw [hDlen]; omega)
    rw [hflip]
    exact decode_mismatch_session Dstream _ _
      (pre ++ (pg.1, flipBit pg.2 o j) :: suf) post fc hlen100 hdec hcm
      hlen2 hpn2 hpost hpostlt hfcnew hfclt hmis
  · -- flip in the trailer
    have hXlen : ((hdr.headerBytes ++ (pagesBytes pages ++ u32be 0))).length =
        104 + (pagesBytes pages).length := by
      simp only [List.length_append, hlen100, u32be_length]
      omega
    by_cases hfield : q < 112 + (pagesBytes pages).length
    · -- flip in the stored post-apply checksum
      obtain ⟨m, rfl⟩ : ∃ m, q = 104 + (pagesBytes pages).length + m :=
        ⟨q - (104 + (pagesBytes pages).length), by omega⟩
      have hm : m < 8 := by omega
      have hp63 : 8 * (7 - m) + j ≠ 63 := by
        intro hp
        have h70 : j = 7 ∧ m = 0 := by omega
        exact hex ⟨h70.1, Or.inl (by omega)⟩
      have hplt : 8 * (7 - m) + j < 64 := by omega
      have hpost2 : chkNew (post ^^^ 2 ^ (8 * (7 - m) + j)) =
          post ^^^ 2 ^ (8 * (7 - m) + j) :=
        chkNew_flip_fixed post _ hpost hp63
      have hpostlt2 : post ^^^ 2 ^ (8 * (7 - m) + j) < 2 ^ 64 :=
        Nat.xor_lt_two_pow hpostlt
          (Nat.pow_lt_pow_right (by norm_num) hplt)
      have hflip : flipBit
          ((hdr.headerBytes ++ (pagesBytes pages ++ u32be 0)) ++
            (u64be post ++ u64be fc))
          (104 + (pagesBytes pages).length + m) j =
          hdr.headerBytes ++ ((pagesBytes pages ++ u32be 0) ++
            (u64be (post ^^^ 2 ^ (8 * (7 - m) + j)) ++ u64be fc)) := by
        rw [show 104 + (pagesBytes pages).length + m =
            ((hdr.headerBytes ++ (pagesBytes pages ++ u32be 0))).length + m
          from by rw [hXlen]]
        rw [flipBit_append_right,
          flipBit_append_left _ _ _ j (by rw [u64be_length]; omega),
          u64be_flipBit post m j hm hj, List.append_assoc]
      have hdec : Header.decode_from (hdr.headerBytes ++
          ((pagesBytes pages ++ u32be 0) ++
            (u64be (post ^^^ 2 ^ (8 * (7 - m) + j)) ++ u64be fc))) =
          .ok (hdr, (pagesBytes pages ++ u32be 0) ++
            (u64be (post ^^^ 2 ^ (8 * (7 - m) + j)) ++ u64be fc)) := by
        rw [decode_from_headerBytes hdr hwf _, hval, htm]
      have hD2 : flipBit (hdr.headerBytes ++
          ((pagesBytes pages ++ u32be 0) ++ u64be post))
          (104 + (pagesBytes pages).length + m) j =
          hdr.headerBytes ++ ((pagesBytes pages ++ u32be 0) ++
            u64be (post ^^^ 2 ^ (8 * (7 - m) + j))) := by
        rw [show 104 + (pagesBytes pages).length + m =
            hdr.headerBytes.length +
              ((pagesBytes pages ++ u32be 0).length + m) from by
          simp only [List.length_append, hlen100, u32be_length]
          omega]
        rw [flipBit_append_right]
        congr 1
        rw [flipBit_append_right, u64be_flipBit post m j hm hj]
      have hmis : chkNew (crcFinalize (crcUpdate CRC_INIT
          (hdr.headerBytes ++ ((pagesBytes pages ++ u32be 0) ++
            u64be (post ^^^ 2 ^ (8 * (7 - m) + j)))))) ≠ fc := by
        rw [← hD2, hfcD]
        exact digest_flip_mismatch _
          (104 + (pagesBytes pages).length + m) j
          (by rw [hDlen]; omega) hj (by rw [hDlen]; omega)
      rw [hflip]
      exact decode_mismatch_session Dstream _ _ pages
        (post ^^^ 2 ^ (8 * (7 - m) + j)) fc hlen100 hdec hcm
        (fun pg hpg => hlen pg hpg) hpn hpost2 hpostlt2 hfcnew hfclt hmis
    · -- flip in the stored file checksum
      obtain ⟨m, rfl⟩ : ∃ m, q = 112 + (pagesBytes pages).length + m :=
        ⟨q - (112 + (pagesBytes pages).length), by omega⟩
      have hm : m < 8 := by omega
      have hp63 : 8 * (7 - m) + j ≠ 63 := by
        intro hp
        have h70 : j = 7 ∧ m = 0 := by omega
        exact hex ⟨h70.1, Or.inr (by omega)⟩
      have hplt : 8 * (7 - m) + j < 64 := by omega
      have hfc2 : chkNew (fc ^^^ 2 ^ (8 * (7 - m) + j)) =
          fc ^^^ 2 ^ (8 * (7 - m) + j) :=
        chkNew_flip_fixed fc _ hfcnew hp63
      have hfclt2 : fc ^^^ 2 ^ (8 * (7 - m) + j) < 2 ^ 64 :=
        Nat.xor_lt_two_pow hfclt
          (Nat.pow_lt_pow_right (by norm_num) hplt)
      have hflip : flipBit
          ((hdr.headerBytes ++ (pagesBytes pages ++ u32be 0)) ++
            (u64be post ++ u64be fc))
          (112 + (pagesBytes pages).length + m) j =
          hdr.headerBytes ++ ((pagesBytes pages ++ u32be 0) ++
            (u64be post ++ u64be (fc ^^^ 2 ^ (8 * (7 - m) + j)))) := by
        rw [show 112 + (pagesBytes pages).length + m =
            ((hdr.headerBytes ++ (pagesBytes pages ++ u32be 0))).length +
              ((u64be post).length + m) from by
          rw [hXlen, u64be_length]; omega]
        rw [flipBit_append_right, flipBit_append_right,
          u64be_flipBit fc m j hm hj, List.append_assoc]
      have hdec : Header.decode_from (hdr.headerBytes ++
          ((pagesBytes pages ++ u32be 0) ++
            (u64be post ++ u64be (fc ^^^ 2 ^ (8 * (7 - m) + j))))) =
          .ok (hdr, (pagesBytes pages ++ u32be 0) ++
            (u64be post ++ u64be (fc ^^^ 2 ^ (8 * (7 - m) + j)))) := by
        rw [decode_from_headerBytes hdr hwf _, hval, htm]
      have hmis : chkNew (crcFinalize (crcUpdate CRC_INIT
          (hdr.headerBytes ++ ((pagesBytes pages ++ u32be 0) ++
            u64be post)))) ≠ fc ^^^ 2 ^ (8 * (7 - m) + j) := by
        rw [← hfcD]
        exact (xor_two_pow_ne_self fc (8 * (7 - m) + j)).symm
      rw [hflip]
      exact decode_mismatch_session Dstream _ _ pages post
        (fc ^^^ 2 ^ (8 * (7 - m) + j)) hlen100 hdec hcm
        (fun pg hpg => hlen pg hpg) hpn hpost hpostlt hfc2 hfclt2 hmis

/-- C3 (counterexample): both directions of the claim's boundary are
wrong on the concrete `hdrHalfMs` session.  Flipping bit 0 of byte 0 (the
magic) makes decoding fail with a `Magic` header error — not a checksum
mismatch from `finish`.  Flipping bit 1 of byte 50 — inside the reserved
header padding, which the claim exempts — does make the session fail
with `FileChecksumMismatch`, because the decoder digests the padding
even though it does not interpret it. -/
theorem c3_counterexample :
    decodeFile noDstream (flipBit fileHalfMs 0 0) =
      .error (.Header (.Magic [77, 84, 88, 49])) ∧
    decodeFile noDstream (flipBit fileHalfMs 50 1) =
      .error .FileChecksumMismatch :=
  ⟨by rfl, by rfl⟩

/-- C3 witness: the amended theorem applied to a concrete uncompressed
incremental session, flipping bit 1 of byte 50 (reserved padding). -/
theorem c3_bit_flip_checksum_witness :
    ∃ file t, encodeFile id hdrIncr pagesIncr (2 ^ 63 + 4) = .ok (file, t) ∧
      decodeFile noDstream (flipBit file 50 1) =
        .error .FileChecksumMismatch :=
  c3_bit_flip_checksum id noDstream hdrIncr pagesIncr (2 ^ 63 + 4) 50 1
    (by decide) (by decide) (by decide) (by decide) (by decide) (by decide)
    (by decide) (by decide) (by decide) (by decide) (by decide)
    (Or.inr (Or.inl (by decide)))

end Ltx
